import Mathlib

/-!
# StringSauce: tone engine, parameter mapper and mode chains

A shallow embedding of the C++ sources under `Source/`:

* `ParameterMapper.cpp` : `centreAround0`, `softSat`, `musicalCurve`, `mapEQ`, `mapDynamics`,
  `mapSaturation`, `mapSpatial`;
* `ToneEngine.cpp` : the four loudness estimates and `ToneEngine::updateParameters`;
* `EQProcessor.cpp`, `DynamicsProcessor.cpp`, `SaturationProcessor.cpp`,
  `SpatialProcessor.cpp`, `ModeProcessor.cpp` : the stage processors and the mode chains.

## Numbers

The C++ code computes in `float`.  Every definition below is written once, generically in the
number type `F`, against the operations the source uses (`+ - * /`, unary minus, `<`, `<=`,
decimal literals, `std::isfinite` and friends).  Theorems then pick the carrier:

* `ℝ` or `ℚ` (any ordered field): exact arithmetic, every value finite;
* `XFloat`: exact rational arithmetic extended with the IEEE special values `NaN`, `+inf`, `-inf`
  and their propagation rules, for the statements that speak about non-finite values.

Rounding and overflow of finite values are not modelled, with two exceptions where a statement
depends on them: the guard constant `0.01f` of `mapSaturation` is written with its exact value,
and the 32-bit result of `juce::roundToInt` in `SpatialProcessor::prepare` wraps (`toInt32`).

## Library code

`<cmath>` is passed around as a record `CMath F`; the JUCE helpers (`jlimit`, `jmap`, `jmax`,
`Decibels`) are transcribed from the JUCE headers; the JUCE DSP objects (IIR filters, compressor,
oversampler, delay lines, chorus, reverb, dry/wet mixers) are abstract kernels in a record
`Juce F`, so that every statement about the processors holds for any behaviour of those kernels.
-/

set_option linter.unusedVariables false
set_option linter.unusedSectionVars false

namespace StringSauce

/-! ## The number layer -/

/-- Classification of a value, as `std::isfinite`, `std::isnan` and `std::isinf` report it. -/
class FloatClassify (F : Type) where
  /-- The value is neither NaN nor an infinity. -/
  isfinite : F → Bool
  /-- The value is NaN. -/
  isnan : F → Bool
  /-- The value is an infinity. -/
  isinf : F → Bool

/-- In an ordered field every value is finite. -/
instance (priority := low) fieldClassify (K : Type) [LinearOrderedField K] : FloatClassify K where
  isfinite := fun _ => true
  isnan := fun _ => false
  isinf := fun _ => false

/-- A float with exact finite arithmetic: a rational, or one of the IEEE special values. -/
inductive XFloat where
  | nan
  | ninf
  | pinf
  | fin (q : ℚ)
  deriving DecidableEq

namespace XFloat

/-- IEEE addition: NaN propagates, `inf + (-inf)` is NaN. -/
def add : XFloat → XFloat → XFloat
  | nan, _ => nan
  | _, nan => nan
  | pinf, ninf => nan
  | ninf, pinf => nan
  | pinf, _ => pinf
  | _, pinf => pinf
  | ninf, _ => ninf
  | _, ninf => ninf
  | fin a, fin b => fin (a + b)

/-- IEEE negation. -/
def neg : XFloat → XFloat
  | nan => nan
  | ninf => pinf
  | pinf => ninf
  | fin a => fin (-a)

/-- An infinity of the given sign times the finite value `q`: NaN when `q = 0`. -/
def infTimes (positive : Bool) (q : ℚ) : XFloat :=
  if q = 0 then nan else if decide (0 < q) = positive then pinf else ninf

/-- IEEE multiplication: NaN propagates, `inf * 0` is NaN, signs multiply. -/
def mul : XFloat → XFloat → XFloat
  | nan, _ => nan
  | _, nan => nan
  | pinf, pinf => pinf
  | pinf, ninf => ninf
  | ninf, pinf => ninf
  | ninf, ninf => pinf
  | pinf, fin b => infTimes true b
  | ninf, fin b => infTimes false b
  | fin a, pinf => infTimes true a
  | fin a, ninf => infTimes false a
  | fin a, fin b => fin (a * b)

/-- IEEE division (a zero divisor is taken as `+0`): NaN propagates, `inf / inf` and `0 / 0` are
NaN, a finite value over an infinity is `0`. -/
def div : XFloat → XFloat → XFloat
  | nan, _ => nan
  | _, nan => nan
  | pinf, pinf => nan
  | pinf, ninf => nan
  | ninf, pinf => nan
  | ninf, ninf => nan
  | pinf, fin b => if b < 0 then ninf else pinf
  | ninf, fin b => if b < 0 then pinf else ninf
  | fin _, pinf => fin 0
  | fin _, ninf => fin 0
  | fin a, fin b =>
    if b = 0 then (if a = 0 then nan else if 0 < a then pinf else ninf) else fin (a / b)

/-- IEEE `<`: false as soon as one side is NaN. -/
def ltb : XFloat → XFloat → Bool
  | nan, _ => false
  | _, nan => false
  | ninf, ninf => false
  | ninf, _ => true
  | _, ninf => false
  | pinf, _ => false
  | fin _, pinf => true
  | fin a, fin b => decide (a < b)

/-- IEEE `<=`: false as soon as one side is NaN. -/
def leb : XFloat → XFloat → Bool
  | nan, _ => false
  | _, nan => false
  | ninf, _ => true
  | _, pinf => true
  | pinf, _ => false
  | fin _, ninf => false
  | fin a, fin b => decide (a ≤ b)

instance : Add XFloat := ⟨add⟩
instance : Neg XFloat := ⟨neg⟩
instance : Sub XFloat := ⟨fun a b => add a (neg b)⟩
instance : Mul XFloat := ⟨mul⟩
instance : Div XFloat := ⟨div⟩
instance : LT XFloat := ⟨fun a b => ltb a b = true⟩
instance : LE XFloat := ⟨fun a b => leb a b = true⟩
instance decLt : @DecidableRel XFloat (· < ·) :=
  fun a b => inferInstanceAs (Decidable (ltb a b = true))
instance decLe : @DecidableRel XFloat (· ≤ ·) :=
  fun a b => inferInstanceAs (Decidable (leb a b = true))
instance : OfScientific XFloat := ⟨fun m s e => fin (OfScientific.ofScientific m s e)⟩
instance : NatCast XFloat := ⟨fun n => fin n⟩

instance : FloatClassify XFloat where
  isfinite := fun x => match x with
    | fin _ => true
    | _ => false
  isnan := fun x => match x with
    | nan => true
    | _ => false
  isinf := fun x => match x with
    | pinf => true
    | ninf => true
    | _ => false

end XFloat

/-- The functions of `<cmath>` the sources call (`std::tanh`, `std::pow`, `std::exp`, `std::sin`,
`std::sqrt`, `std::log10`). -/
structure CMath (F : Type) where
  /-- Models `std::tanh`. -/
  tanh : F → F
  /-- Models `std::pow (base, exponent)`. -/
  pow : F → F → F
  /-- Models `std::exp`. -/
  exp : F → F
  /-- Models `std::sin`. -/
  sin : F → F
  /-- Models `std::sqrt`. -/
  sqrt : F → F
  /-- Models `std::log10`. -/
  log10 : F → F

/-- Modelled from the spec: `ToneMode.hpp` is not among the sources; the three playing-style modes
`0 = RHYTHM, 1 = LEAD, 2 = CLEAN`. -/
inductive ToneMode where
  | RHYTHM
  | LEAD
  | CLEAN
  deriving DecidableEq

section Generic

variable {F : Type} [Add F] [Sub F] [Mul F] [Div F] [Neg F] [LT F] [LE F]
  [@DecidableRel F (· < ·)] [@DecidableRel F (· ≤ ·)] [OfScientific F] [NatCast F]
  [FloatClassify F]

/-! ## Library helpers -/

/-- The float overload of `std::abs`. -/
def fabs (x : F) : F := if x < 0.0 then -x else x

/-- The function `std::max (a, b)`, which is `(a < b) ? b : a`. -/
def fmax (a b : F) : F := if a < b then b else a

/-- The function `juce::jmax (a, b)`, which is `(a < b) ? b : a`. -/
def jmax (a b : F) : F := if a < b then b else a

/-- The function `juce::jlimit (lowerLimit, upperLimit, valueToConstrain)`:
`v < lo ? lo : (hi < v ? hi : v)`; a NaN passes through. -/
def jlimit (lowerLimit upperLimit valueToConstrain : F) : F :=
  if valueToConstrain < lowerLimit then lowerLimit
  else if upperLimit < valueToConstrain then upperLimit
  else valueToConstrain

/-- The five-argument `juce::jmap (sourceValue, sourceRangeMin, sourceRangeMax, targetRangeMin,
targetRangeMax)`. -/
def jmap (sourceValue sourceRangeMin sourceRangeMax targetRangeMin targetRangeMax : F) : F :=
  targetRangeMin +
    ((targetRangeMax - targetRangeMin) * (sourceValue - sourceRangeMin)) /
      (sourceRangeMax - sourceRangeMin)

/-- The three-argument `juce::jmap (value0To1, targetRangeMin, targetRangeMax)`. -/
def jmap01 (value0To1 targetRangeMin targetRangeMax : F) : F :=
  targetRangeMin + value0To1 * (targetRangeMax - targetRangeMin)

/-- The function `juce::Decibels::decibelsToGain (decibels)` with its default floor of -100 dB:
`decibels > -100 ? pow (10, decibels * 0.05) : 0`. -/
def Decibels.decibelsToGain (M : CMath F) (decibels : F) : F :=
  if (-100.0 : F) < decibels then M.pow 10.0 (decibels * 0.05) else 0.0

/-- The function `juce::Decibels::gainToDecibels (gain, minusInfinityDb)`:
`gain > 0 ? jmax (minusInfinityDb, log10 (gain) * 20) : minusInfinityDb`. -/
def Decibels.gainToDecibels (M : CMath F) (gain minusInfinityDb : F) : F :=
  if (0.0 : F) < gain then jmax minusInfinityDb (M.log10 gain * 20.0) else minusInfinityDb

end Generic

/-! ## Parameter records (`*Processor.hpp`, `ToneEngine.hpp`) -/

/-- The record `EQProcessor::EQParameters`; gains are linear multipliers. -/
structure EQParameters (F : Type) where
  lowCutFreq : F
  lowShelfFreq : F
  lowShelfGain : F
  mid1Freq : F
  mid1Gain : F
  mid1Q : F
  mid2Freq : F
  mid2Gain : F
  mid2Q : F
  highShelfFreq : F
  highShelfGain : F
  airBandFreq : F
  airBandGain : F

/-- The record `DynamicsProcessor::DynamicsParameters`. -/
structure DynamicsParameters (F : Type) where
  compThreshold : F
  compRatio : F
  compAttack : F
  compRelease : F
  compMakeupGain : F
  deesserFreq : F
  deesserThreshold : F
  deesserRatio : F
  transientAttack : F
  transientSustain : F

/-- The enumeration `SaturationProcessor::Type`. -/
inductive SaturationType where
  | Tape
  | Tube
  | Transistor
  | Exciter
  deriving DecidableEq

/-- The record `SaturationProcessor::SaturationParameters`; `type` is the source's field `type`. -/
structure SaturationParameters (F : Type) where
  type : SaturationType
  drive : F
  mix : F
  tone : F
  bias : F

/-- The record `SpatialProcessor::SpatialParameters`. -/
structure SpatialParameters (F : Type) where
  reverbSize : F
  reverbDamping : F
  reverbWidth : F
  reverbMix : F
  stereoWidth : F
  delayTimeLeft : F
  delayTimeRight : F
  delayFeedback : F
  delayMix : F
  chorusRate : F
  chorusDepth : F
  chorusMix : F

/-- The record `ToneEngine::EngineParameters::EffectsParams`. -/
structure EffectsParams (F : Type) where
  shimmerPitch : F
  shimmerMix : F

/-- The record `ToneEngine::EngineParameters`: the published snapshot. -/
structure EngineParameters (F : Type) where
  eq : EQParameters F
  dynamics : DynamicsParameters F
  saturation : SaturationParameters F
  spatial : SpatialParameters F
  effects : EffectsParams F
  outputAutoGain : F

section Generic

variable {F : Type} [Add F] [Sub F] [Mul F] [Div F] [Neg F] [LT F] [LE F]
  [@DecidableRel F (· < ·)] [@DecidableRel F (· ≤ ·)] [OfScientific F] [NatCast F]
  [FloatClassify F]

/-- The default member initialisers of `EQProcessor::EQParameters`. -/
def EQParameters.init : EQParameters F :=
  { lowCutFreq := 20.0
    lowShelfFreq := 80.0, lowShelfGain := 0.0
    mid1Freq := 500.0, mid1Gain := 0.0, mid1Q := 1.0
    mid2Freq := 1500.0, mid2Gain := 0.0, mid2Q := 1.0
    highShelfFreq := 8000.0, highShelfGain := 0.0
    airBandFreq := 12000.0, airBandGain := 0.0 }

/-- The default member initialisers of `DynamicsProcessor::DynamicsParameters`. -/
def DynamicsParameters.init : DynamicsParameters F :=
  { compThreshold := -18.0
    compRatio := 2.0
    compAttack := 10.0
    compRelease := 120.0
    compMakeupGain := 0.0
    deesserFreq := 5500.0
    deesserThreshold := -20.0
    deesserRatio := 2.0
    transientAttack := 0.0
    transientSustain := 0.0 }

/-- The default member initialisers of `SaturationProcessor::SaturationParameters`. -/
def SaturationParameters.init : SaturationParameters F :=
  { type := SaturationType.Tape, drive := 0.0, mix := 1.0, tone := 0.5, bias := 0.0 }

/-- The default member initialisers of `SpatialProcessor::SpatialParameters`. -/
def SpatialParameters.init : SpatialParameters F :=
  { reverbSize := 0.5
    reverbDamping := 0.5
    reverbWidth := 1.0
    reverbMix := 0.0
    stereoWidth := 1.0
    delayTimeLeft := 250.0
    delayTimeRight := 375.0
    delayFeedback := 0.3
    delayMix := 0.0
    chorusRate := 0.5
    chorusDepth := 0.3
    chorusMix := 0.0 }

/-! ## `ParameterMapper.cpp` -/

/-- The helper `centreAround0`: `(v - 0.5f) * 2.0f`. -/
def centreAround0 (v : F) : F := (v - 0.5) * 2.0

/-- The helper `softSat`: `std::tanh (1.5f * x)`. -/
def softSat (M : CMath F) (x : F) : F := M.tanh (1.5 * x)

/-- The helper `musicalCurve`: dead zone of 0.15 around zero, then a rescaled `softSat`. -/
def musicalCurve (M : CMath F) (x : F) : F :=
  let dead : F := 0.15
  if fabs x < dead then 0.0
  else
    let s : F := if x < 0.0 then -1.0 else 1.0
    let m : F := (fabs x - dead) / (1.0 - dead)
    softSat M (jlimit 0.0 1.0 m * s)

/-- The helper `linFromDbClamped`: `juce::Decibels::decibelsToGain (db)`. -/
def linFromDbClamped (M : CMath F) (db : F) : F := Decibels.decibelsToGain M db

/-- The function `ParameterMapper::mapEQ`. -/
def mapEQ (M : CMath F) (character thump body shimmer : F) (mode : ToneMode) :
    EQParameters F :=
  let t := musicalCurve M (centreAround0 thump)
  let b := musicalCurve M (centreAround0 body)
  let sh := musicalCurve M (centreAround0 shimmer)
  let lowCutMin : F := match mode with
    | .RHYTHM => 40.0 | .LEAD => 60.0 | .CLEAN => 50.0
  let lowCutMax : F := match mode with
    | .RHYTHM => 140.0 | .LEAD => 180.0 | .CLEAN => 160.0
  let lowShelfF : F := match mode with
    | .RHYTHM => 100.0 | .LEAD => 110.0 | .CLEAN => 120.0
  let mid1Base : F := match mode with
    | .RHYTHM => 800.0 | .LEAD => 1200.0 | .CLEAN => 3000.0
  let mid2Base : F := match mode with
    | .RHYTHM => 2000.0 | .LEAD => 2300.0 | .CLEAN => 1500.0
  let hiShelfBase : F := match mode with
    | .RHYTHM => 8000.0 | .LEAD => 7500.0 | .CLEAN => 9000.0
  let airBase : F := match mode with
    | .RHYTHM => 12000.0 | .LEAD => 11000.0 | .CLEAN => 13000.0
  let mid1RangeDb : F := match mode with
    | .RHYTHM => 5.0 | .LEAD => 6.0 | .CLEAN => 4.0
  let mid2RangeDb : F := match mode with
    | .RHYTHM => 3.0 | .LEAD => 4.0 | .CLEAN => 3.0
  let hiShelfRangeDb : F := match mode with
    | .RHYTHM => 2.5 | .LEAD => 2.0 | .CLEAN => 3.0
  let airRangeDb : F := match mode with
    | .RHYTHM => 2.0 | .LEAD => 1.5 | .CLEAN => 2.0
  -- THUMP
  let tPos := fmax 0.0 t
  let lowCutFreq := jmap tPos 0.0 1.0 lowCutMin lowCutMax
  let lowShelfDb : F :=
    (if mode = .RHYTHM then 6.0 else if mode = .LEAD then 5.0 else 4.0) * t
  let lowShelfFreq := lowShelfF + t * 15.0
  let lowShelfGain := linFromDbClamped M lowShelfDb
  let lowMidDb := t * 2.5
  -- BODY
  let mid1Freq := mid1Base + b * 350.0
  let mid2Freq := mid2Base + b * 250.0
  let baseQ1 : F := if mode = .CLEAN then 0.9 else 1.0
  let baseQ2 : F := if mode = .CLEAN then 1.1 else 1.0
  let mid1Q := jlimit 0.4 2.5 (baseQ1 + (if b < 0.0 then -0.3 * fabs b else 0.2 * b))
  let mid2Q := jlimit 0.4 2.5 (baseQ2 + (if b < 0.0 then -0.2 * fabs b else 0.3 * b))
  let mid1Db0 := b * mid1RangeDb
  let mid2Db := b * 0.5 * mid2RangeDb
  let mid1Db := if mode = .RHYTHM ∨ mode = .LEAD then mid1Db0 + lowMidDb else mid1Db0
  -- SHIMMER
  let highShelfFreq := hiShelfBase + sh * 1200.0
  let airBandFreq := airBase + sh * 1600.0
  let hiShelfDb := sh * hiShelfRangeDb
  let airDb := sh * airRangeDb
  { lowCutFreq := lowCutFreq
    lowShelfFreq := lowShelfFreq
    lowShelfGain := lowShelfGain
    mid1Freq := mid1Freq
    mid1Gain := linFromDbClamped M mid1Db
    mid1Q := mid1Q
    mid2Freq := mid2Freq
    mid2Gain := linFromDbClamped M mid2Db
    mid2Q := mid2Q
    highShelfFreq := highShelfFreq
    highShelfGain := linFromDbClamped M hiShelfDb
    airBandFreq := airBandFreq
    airBandGain := linFromDbClamped M airDb }

/-- The function `ParameterMapper::mapDynamics`. -/
def mapDynamics (M : CMath F) (thump body shimmer spank : F) (mode : ToneMode) :
    DynamicsParameters F :=
  let t := musicalCurve M (centreAround0 thump)
  let b := musicalCurve M (centreAround0 body)
  let sh := musicalCurve M (centreAround0 shimmer)
  let k := musicalCurve M (centreAround0 spank)
  let baseThHi : F := match mode with
    | .RHYTHM => 3.0 | .LEAD => 1.0 | .CLEAN => 4.0
  let baseThLo : F := match mode with
    | .RHYTHM => -24.0 | .LEAD => -28.0 | .CLEAN => -12.0
  let baseRatio : F := match mode with
    | .RHYTHM => 1.8 | .LEAD => 2.0 | .CLEAN => 1.2
  let ratioExtra : F := match mode with
    | .RHYTHM => 3.0 | .LEAD => 1.3 | .CLEAN => 0.6
  let baseAtk : F := match mode with
    | .RHYTHM => 12.0 | .LEAD => 10.0 | .CLEAN => 12.0
  let baseRel : F := match mode with
    | .RHYTHM => 160.0 | .LEAD => 150.0 | .CLEAN => 180.0
  -- SLAP threshold/ratio
  let thresholdRange := baseThLo - baseThHi
  let kWindow : F := 0.30
  let compThreshold := baseThHi + (0.5 + k * kWindow) * thresholdRange
  let kPos := fmax 0.0 k
  let compRatio0 := baseRatio + kPos * ratioExtra
  let compRatio := fmax 1.0 compRatio0
  -- THUMP attack/release
  let atk0 := baseAtk
  let rel0 := baseRel
  let atk1 := atk0 + (-t) * 5.0
  let atk2 := atk1 + t * (-6.0)
  let rel1 := rel0 + t * 40.0
  let rel2 := rel1 + (-t) * (-20.0)
  -- SLAP -> ATTACK
  let atk3 :=
    if mode = .RHYTHM then
      let a := atk2 + jmap kPos 0.0 1.0 0.0 90.0
      if k < 0.0 then a + k * 10.0 else a
    else if mode = .LEAD then
      let a := atk2 + jmap kPos 0.0 1.0 0.0 50.0
      if k < 0.0 then a + k * 8.0 else a
    else
      let a := atk2 + jmap kPos 0.0 1.0 0.0 35.0
      if k < 0.0 then a + k * 6.0 else a
  -- SLAP -> RELEASE
  let rel3 :=
    if (0.0 : F) < k then
      let maxReleaseShift : F :=
        if mode = .RHYTHM then -120.0 else if mode = .LEAD then -60.0 else -40.0
      rel2 + kPos * maxReleaseShift
    else rel2
  let compAttack := jlimit 1.0 150.0 atk3
  let compRelease := jlimit 50.0 600.0 rel3
  -- BODY / THUMP makeup
  let makeup : F := match mode with
    | .RHYTHM => b * 3.0
    | .LEAD => b * 4.0
    | .CLEAN => b * 2.5
  let thumpMakeup :=
    jlimit 0.0 (if mode = .RHYTHM then 4.0 else if mode = .LEAD then 3.5 else 3.0) (t * 4.0)
  -- SLAP makeup
  let spankMakeup : F :=
    if (0.0 : F) ≤ k then
      let maxBoost : F := if mode = .RHYTHM then 0.5 else if mode = .LEAD then 0.7 else 0.5
      k * maxBoost
    else
      let maxCut : F := if mode = .RHYTHM then 1.5 else if mode = .LEAD then 1.0 else 0.7
      k * maxCut
  let totalMakeup := makeup + thumpMakeup + spankMakeup
  let compMakeupGain := jlimit 0.0 8.0 totalMakeup
  -- transients
  let atkAmt : F := match mode with
    | .RHYTHM => jlimit (-1.0) 1.0 (k * 0.9)
    | .LEAD => jlimit (-1.0) 1.0 (k * 0.9)
    | .CLEAN => jlimit (-1.0) 1.0 (k * 0.7)
  let susAmt : F := match mode with
    | .RHYTHM => jlimit (-1.0) 1.0 (b * 0.5 + t * 0.3)
    | .LEAD => jlimit (-1.0) 1.0 (b * 0.7 + kPos * 0.3 + t * 0.3)
    | .CLEAN => jlimit (-1.0) 1.0 (b * 0.5 + t * 0.2)
  -- SHIMMER -> DE-ESSER
  let deessCenter : F :=
    if mode = .RHYTHM then 5500.0 else if mode = .LEAD then 6000.0 else 6500.0
  { compThreshold := compThreshold
    compRatio := compRatio
    compAttack := compAttack
    compRelease := compRelease
    compMakeupGain := compMakeupGain
    deesserFreq := jlimit 3000.0 9000.0 (deessCenter + sh * 1500.0)
    deesserThreshold := -20.0 + (-sh * 3.0)
    deesserRatio := if mode = .CLEAN then 1.5 else 2.0
    transientAttack := atkAmt
    transientSustain := susAmt }

/-- The function `ParameterMapper::mapSaturation`.  The guard `c < 0.01f` compares with the
`float` constant `0.01f`, whose exact value `0.00999999977648258209228515625` (5368709 / 2^29) is
written out: the `float` below the decimal 0.01 that is not below the constant is the constant
itself. -/
def mapSaturation (M : CMath F) (character body shimmer : F) (mode : ToneMode) :
    SaturationParameters F :=
  let c := jlimit 0.0 1.0 character
  let cNorm := M.pow c 0.75
  let b := musicalCurve M (centreAround0 body)
  let sh := musicalCurve M (centreAround0 shimmer)
  let type : SaturationType := match mode with
    | .RHYTHM =>
      if cNorm < 0.35 then .Tape else if cNorm < 0.70 then .Tube else .Transistor
    | .LEAD =>
      if cNorm < 0.30 then .Tape else if cNorm < 0.70 then .Tube else .Exciter
    | .CLEAN =>
      if cNorm < 0.50 then .Tape else .Exciter
  let driveShape := M.pow c 0.9
  let maxDrive : F := if mode = .RHYTHM then 0.9 else if mode = .LEAD then 1.0 else 0.4
  let drive0 := jlimit 0.0 1.0 (driveShape * maxDrive)
  let mixShape := M.pow c 0.6
  let mixBase : F := if mode = .RHYTHM then 0.0 else if mode = .LEAD then 0.1 else 0.0
  let mixMax : F := if mode = .RHYTHM then 0.6 else if mode = .LEAD then 0.85 else 0.35
  let drive : F := if c < 0.00999999977648258209228515625 then 0.0 else drive0
  let mix : F :=
    if c < 0.00999999977648258209228515625 then 0.0
    else jlimit 0.0 1.0 (mixBase + mixShape * (mixMax - mixBase))
  let toneSpan : F := if mode = .RHYTHM then 0.18 else if mode = .LEAD then 0.15 else 0.20
  let tone := jlimit 0.0 1.0 (0.5 + sh * toneSpan)
  let biasRange : F := if mode = .CLEAN then 0.08 else 0.12
  let bias := jlimit (-0.25) 0.25 (b * biasRange)
  { type := type, drive := drive, mix := mix, tone := tone, bias := bias }

/-- The function `ParameterMapper::mapSpatial`. -/
def mapSpatial (M : CMath F) (body shimmer space : F) (mode : ToneMode) :
    SpatialParameters F :=
  let b := musicalCurve M (centreAround0 body)
  let spc := jlimit 0.0 1.0 space
  let maxRevMix : F := match mode with
    | .RHYTHM => 0.35 | .LEAD => 0.40 | .CLEAN => 0.65
  let maxChoMix : F := match mode with
    | .RHYTHM => 0.25 | .LEAD => 0.35 | .CLEAN => 0.50
  let maxDlyMix : F := match mode with
    | .RHYTHM => 0.25 | .LEAD => 0.30 | .CLEAN => 0.40
  let widthMax : F := match mode with
    | .RHYTHM => 1.10 | .LEAD => 1.25 | .CLEAN => 1.40
  let sizeMin : F := match mode with
    | .RHYTHM => 0.10 | .LEAD => 0.25 | .CLEAN => 0.40
  let sizeMax : F := match mode with
    | .RHYTHM => 0.50 | .LEAD => 0.80 | .CLEAN => 1.00
  let dlyBase : F := match mode with
    | .RHYTHM => 260.0 | .LEAD => 280.0 | .CLEAN => 300.0
  let dlySpan : F := match mode with
    | .RHYTHM => 140.0 | .LEAD => 180.0 | .CLEAN => 200.0
  let fbMin : F := match mode with
    | .RHYTHM => 0.15 | .LEAD => 0.20 | .CLEAN => 0.20
  let fbMax : F := match mode with
    | .RHYTHM => 0.45 | .LEAD => 0.55 | .CLEAN => 0.60
  let amt := spc
  let dW : F := if mode = .LEAD then 0.8 else if mode = .CLEAN then 0.7 else 0.6
  let delayTimeLeft := dlyBase + amt * dlySpan
  let choInfluence := amt
  let minRate : F := 0.1
  let minDepth : F := 0.2
  let maxRate : F := if mode = .CLEAN then 1.2 else if mode = .RHYTHM then 0.9 else 1.0
  let maxDepth : F := if mode = .CLEAN then 0.7 else if mode = .RHYTHM then 0.5 else 0.6
  { reverbSize := jmap amt 0.0 1.0 sizeMin sizeMax
    reverbDamping := jlimit 0.0 1.0 (0.55 + (-b) * 0.25)
    reverbWidth := (SpatialParameters.init : SpatialParameters F).reverbWidth
    reverbMix := amt * maxRevMix
    stereoWidth := jmap amt 0.0 1.0 1.0 widthMax
    delayTimeLeft := delayTimeLeft
    delayTimeRight := delayTimeLeft * 1.5
    delayFeedback := jmap amt 0.0 1.0 fbMin fbMax
    delayMix := jlimit 0.0 maxDlyMix (maxDlyMix * amt * dW)
    chorusRate := jmap amt 0.0 1.0 minRate maxRate
    chorusDepth := jmap amt 0.0 1.0 minDepth maxDepth
    chorusMix := maxChoMix * choInfluence }

/-- The function `ParameterMapper::selectSaturationType`. -/
def selectSaturationType (M : CMath F) (character : F) (mode : ToneMode) : SaturationType :=
  let cNorm := M.pow (jlimit 0.0 1.0 character) 0.75
  match mode with
  | .RHYTHM => if cNorm < 0.35 then .Tape else if cNorm < 0.70 then .Tube else .Transistor
  | .LEAD => if cNorm < 0.30 then .Tape else if cNorm < 0.70 then .Tube else .Exciter
  | .CLEAN => if cNorm < 0.50 then .Tape else .Exciter

/-! ## `ToneEngine.cpp` -/

/-- The loudness estimate `computeEqComp`. -/
def computeEqComp (eq : EQParameters F) : F :=
  let wLow : F := 0.25
  let wMid1 : F := 0.35
  let wMid2 : F := 0.25
  let wHigh : F := 0.10
  let wAir : F := 0.05
  let wSum := wLow + wMid1 + wMid2 + wHigh + wAir
  let g :=
    eq.lowShelfGain * wLow +
    eq.mid1Gain * wMid1 +
    eq.mid2Gain * wMid2 +
    eq.highShelfGain * wHigh +
    eq.airBandGain * wAir
  let g := g / (if (0.0 : F) < wSum then wSum else 1.0)
  jlimit 0.5 2.0 g

/-- The loudness estimate `computeDynComp`. -/
def computeDynComp (d : DynamicsParameters F) : F :=
  let ratioFactor := 1.0 / jlimit 1.0 4.0 d.compRatio
  let sustainFactor := 1.0 + d.transientSustain * 0.4
  let attackFactor := 1.0 - d.transientAttack * 0.2
  let g := ratioFactor * sustainFactor * attackFactor
  jlimit 0.7 1.3 g

/-- The loudness estimate `computeSatComp`. -/
def computeSatComp (s : SaturationParameters F) : F :=
  let d := jlimit 0.0 1.0 s.drive
  let m := jlimit 0.0 1.0 s.mix
  let g := 1.0 - d * 0.20 - m * 0.15
  jlimit 0.7 1.2 g

/-- The loudness estimate `computeSpatialComp`. -/
def computeSpatialComp (sp : SpatialParameters F) : F :=
  let r := jlimit 0.0 1.0 sp.reverbMix
  let d := jlimit 0.0 1.0 sp.delayMix
  let c := jlimit 0.0 1.0 sp.chorusMix
  let g := 1.0 - r * 0.35 - d * 0.25 - c * 0.15
  jlimit 0.6 1.1 g

/-- The last three statements of `ToneEngine::updateParameters`: the product of the four
estimates, the fail-safe, the reciprocal and the clamp. -/
def computeAutoGain (p : EngineParameters F) : F :=
  let eqComp := computeEqComp p.eq
  let dynComp := computeDynComp p.dynamics
  let satComp := computeSatComp p.saturation
  let spatComp := computeSpatialComp p.spatial
  let total := eqComp * dynComp * satComp * spatComp
  let total := if (!FloatClassify.isfinite total) || decide (total ≤ 0.0) then 1.0 else total
  jlimit 0.25 4.0 (1.0 / total)

/-- The state of a `ToneEngine` (the sixteen `smoothedParams` are reset by `prepare` and never
read, so they carry nothing). -/
structure ToneEngine (F : Type) where
  currentParams : EngineParameters F
  currentMode : ToneMode

/-- The constructor `ToneEngine::ToneEngine`. -/
def ToneEngine.new : ToneEngine F :=
  { currentMode := .RHYTHM
    currentParams :=
      { eq :=
          { lowCutFreq := 80.0
            lowShelfFreq := 100.0
            lowShelfGain := 1.0
            mid1Freq := 1000.0
            mid1Gain := 1.0
            mid1Q := 1.0
            mid2Freq := 2000.0
            mid2Gain := 1.0
            mid2Q := 1.0
            highShelfFreq := 8000.0
            highShelfGain := 1.0
            airBandFreq := 12000.0
            airBandGain := 1.0 }
        dynamics :=
          { compThreshold := 0.0
            compRatio := 1.0
            compAttack := 10.0
            compRelease := 120.0
            compMakeupGain := 0.0
            deesserFreq := 5000.0
            deesserThreshold := -20.0
            deesserRatio := 1.0
            transientAttack := 0.0
            transientSustain := 0.0 }
        saturation :=
          { type := SaturationType.Tape
            drive := 0.5
            mix := 0.0
            tone := 0.5
            bias := 0.0 }
        spatial :=
          { reverbSize := 0.0
            reverbDamping := 0.5
            reverbWidth := 1.0
            reverbMix := 0.0
            stereoWidth := 1.0
            delayTimeLeft := 0.0
            delayTimeRight := 0.0
            delayFeedback := 0.0
            delayMix := 0.0
            chorusRate := 0.0
            chorusDepth := 0.0
            chorusMix := 0.0 }
        effects := { shimmerPitch := 0.0, shimmerMix := 0.0 }
        outputAutoGain := 1.0 } }

/-- The method `ToneEngine::updateParameters`: each assignment of the source is one field
below; `saturation.type` is the one field of the four groups the source never assigns, so it
keeps the value it had. -/
def ToneEngine.updateParameters (M : CMath F) (self : ToneEngine F)
    (character thump body shimmer spank space : F) (mode : ToneMode) : ToneEngine F :=
  let mappedEQ := mapEQ M character thump body shimmer mode
  let mappedDynamics := mapDynamics M thump body shimmer spank mode
  let mappedSat := mapSaturation M character body shimmer mode
  let mappedSpatial := mapSpatial M body shimmer space mode
  let cp := self.currentParams
  let written : EngineParameters F :=
    { eq :=
        { lowCutFreq := mappedEQ.lowCutFreq
          lowShelfFreq := mappedEQ.lowShelfFreq
          lowShelfGain := mappedEQ.lowShelfGain
          mid1Freq := mappedEQ.mid1Freq
          mid1Gain := mappedEQ.mid1Gain
          mid1Q := mappedEQ.mid1Q
          mid2Freq := mappedEQ.mid2Freq
          mid2Gain := mappedEQ.mid2Gain
          mid2Q := mappedEQ.mid2Q
          highShelfFreq := mappedEQ.highShelfFreq
          highShelfGain := mappedEQ.highShelfGain
          airBandFreq := mappedEQ.airBandFreq
          airBandGain := mappedEQ.airBandGain }
      dynamics :=
        { compThreshold := mappedDynamics.compThreshold
          compRatio := mappedDynamics.compRatio
          compAttack := mappedDynamics.compAttack
          compRelease := mappedDynamics.compRelease
          compMakeupGain := mappedDynamics.compMakeupGain
          deesserFreq := mappedDynamics.deesserFreq
          deesserThreshold := mappedDynamics.deesserThreshold
          deesserRatio := mappedDynamics.deesserRatio
          transientAttack := mappedDynamics.transientAttack
          transientSustain := mappedDynamics.transientSustain }
      saturation :=
        { type := cp.saturation.type
          drive := mappedSat.drive
          mix := mappedSat.mix
          tone := mappedSat.tone
          bias := mappedSat.bias }
      spatial :=
        { reverbSize := mappedSpatial.reverbSize
          reverbDamping := mappedSpatial.reverbDamping
          reverbWidth := mappedSpatial.reverbWidth
          reverbMix := mappedSpatial.reverbMix
          stereoWidth := mappedSpatial.stereoWidth
          delayTimeLeft := mappedSpatial.delayTimeLeft
          delayTimeRight := mappedSpatial.delayTimeRight
          delayFeedback := mappedSpatial.delayFeedback
          delayMix := mappedSpatial.delayMix
          chorusRate := mappedSpatial.chorusRate
          chorusDepth := mappedSpatial.chorusDepth
          chorusMix := mappedSpatial.chorusMix }
      effects := { shimmerPitch := shimmer * 12.0, shimmerMix := shimmer * 0.4 }
      outputAutoGain := cp.outputAutoGain }
  { currentMode := mode
    currentParams := { written with outputAutoGain := computeAutoGain written } }

/-- The accessor `ToneEngine::getCurrentParameters`. -/
def ToneEngine.getCurrentParameters (self : ToneEngine F) : EngineParameters F :=
  self.currentParams

end Generic

/-! ## Audio blocks and the JUCE DSP objects -/

/-- The four stages of a chain. -/
inductive Stage where
  | EQ
  | Dynamics
  | Saturation
  | Spatial
  deriving DecidableEq

/-- The class `juce::dsp::AudioBlock<float>`: one list of samples per channel. -/
abbrev AudioBlock (F : Type) := List (List F)

/-- The number of channels of a block. -/
def AudioBlock.getNumChannels {F : Type} (block : AudioBlock F) : Nat := block.length

/-- The number of samples per channel of a block. -/
def AudioBlock.getNumSamples {F : Type} (block : AudioBlock F) : Nat :=
  match block with
  | [] => 0
  | ch :: _ => ch.length

/-- The class `juce::dsp::ProcessContextReplacing<float>`: the block that is processed in place.
`calls` is a ghost field: every stage appends its tag when its `process` is entered, so that the
order in which a chain invokes its stages can be stated; no definition reads it. -/
structure ProcessContext (F : Type) where
  block : AudioBlock F
  calls : List Stage

/-- The record `juce::dsp::ProcessSpec`. -/
structure ProcessSpec (F : Type) where
  sampleRate : F
  maximumBlockSize : Nat
  numChannels : Nat

/-- The class `juce::dsp::IIR::Coefficients<float>`, kept symbolic: a coefficient set is the
design call that made it.  `null` is the default constructor of `Coefficients` (silence),
`passThrough` the coefficients of a default-constructed `IIR::Filter`. -/
inductive IIRCoefficients (F : Type) where
  | null
  | passThrough
  | makeHighPass (sampleRate frequency : F)
  | makeLowPass (sampleRate frequency : F)
  | makeLowShelf (sampleRate cutOffFrequency Q gainFactor : F)
  | makePeakFilter (sampleRate centreFrequency Q gainFactor : F)
  | makeHighShelf (sampleRate cutOffFrequency Q gainFactor : F)

/-- The record `juce::Reverb::Parameters`. -/
structure ReverbParameters (F : Type) where
  roomSize : F
  damping : F
  wetLevel : F
  dryLevel : F
  width : F
  freezeMode : F

/-- The JUCE DSP objects the processors own, as abstract state types with one kernel per method
the sources call.  Nothing is assumed about the kernels. -/
structure Juce (F : Type) where
  /-- Histories of a `ProcessorDuplicator<IIR::Filter, IIR::Coefficients>` (one per channel). -/
  DupState : Type
  /-- History of one `IIR::Filter`. -/
  IIRState : Type
  /-- State of a `juce::dsp::Compressor`. -/
  CompressorState : Type
  /-- State of a `juce::dsp::Oversampling`. -/
  OversamplingState : Type
  /-- State of a `juce::dsp::DryWetMixer`. -/
  MixerState : Type
  /-- State of a `juce::dsp::DelayLine`. -/
  DelayState : Type
  /-- State of a `juce::dsp::Chorus`. -/
  ChorusState : Type
  /-- State of a `juce::dsp::Reverb`. -/
  ReverbState : Type
  dupNew : DupState
  dupPrepare : ProcessSpec F → DupState → DupState
  dupReset : DupState → DupState
  dupProcess : IIRCoefficients F → DupState → AudioBlock F → DupState × AudioBlock F
  iirNew : IIRState
  iirPrepare : ProcessSpec F → IIRState → IIRState
  iirReset : IIRState → IIRState
  iirProcess : IIRCoefficients F → IIRState → AudioBlock F → IIRState × AudioBlock F
  compNew : CompressorState
  compPrepare : ProcessSpec F → CompressorState → CompressorState
  compReset : CompressorState → CompressorState
  compSetThreshold : F → CompressorState → CompressorState
  compSetRatio : F → CompressorState → CompressorState
  compSetAttack : F → CompressorState → CompressorState
  compSetRelease : F → CompressorState → CompressorState
  compProcess : CompressorState → AudioBlock F → CompressorState × AudioBlock F
  /-- The constructor `Oversampling (numChannels, factor, filterHalfBandPolyphaseIIR)`. -/
  osNew : Nat → Nat → OversamplingState
  osReset : OversamplingState → OversamplingState
  osProcessSamplesUp : OversamplingState → AudioBlock F → OversamplingState × AudioBlock F
  /-- The method `processSamplesDown`: from the (modified) oversampled block and the output
  block to the new output block. -/
  osProcessSamplesDown :
    OversamplingState → AudioBlock F → AudioBlock F → OversamplingState × AudioBlock F
  mixerNew : MixerState
  mixerPrepare : ProcessSpec F → MixerState → MixerState
  mixerReset : MixerState → MixerState
  mixerSetMixingRuleLinear : MixerState → MixerState
  mixerSetWetMixProportion : F → MixerState → MixerState
  mixerPushDrySamples : MixerState → AudioBlock F → MixerState
  mixerMixWetSamples : MixerState → AudioBlock F → MixerState × AudioBlock F
  /-- The constructor `DelayLine (maximumDelayInSamples)`. -/
  delayNew : Nat → DelayState
  delayPrepare : ProcessSpec F → DelayState → DelayState
  delaySetMaximumDelayInSamples : Int → DelayState → DelayState
  delayReset : DelayState → DelayState
  delaySetDelay : F → DelayState → DelayState
  /-- The method `popSample (0)`: the delayed sample and the new state. -/
  delayPopSample : DelayState → F × DelayState
  /-- The method `pushSample (0, sample)`. -/
  delayPushSample : F → DelayState → DelayState
  chorusNew : ChorusState
  chorusPrepare : ProcessSpec F → ChorusState → ChorusState
  chorusReset : ChorusState → ChorusState
  chorusSetRate : F → ChorusState → ChorusState
  chorusSetDepth : F → ChorusState → ChorusState
  chorusSetCentreDelay : F → ChorusState → ChorusState
  chorusSetFeedback : F → ChorusState → ChorusState
  chorusProcess : ChorusState → AudioBlock F → ChorusState × AudioBlock F
  reverbNew : ReverbState
  reverbPrepare : ProcessSpec F → ReverbState → ReverbState
  reverbReset : ReverbState → ReverbState
  reverbSetParameters : ReverbParameters F → ReverbState → ReverbState
  reverbProcess : ReverbState → AudioBlock F → ReverbState × AudioBlock F
  /-- The rounding to the nearest integer that `juce::roundToInt` performs; the 32-bit `int` it
  returns is `toInt32` of this integer. -/
  roundToInt : F → Int

/-- A `ProcessorDuplicator<IIR::Filter, IIR::Coefficients>`: the shared coefficients `state` and
the per-channel histories. -/
structure IIRDuplicator {F : Type} (J : Juce F) where
  state : IIRCoefficients F
  mem : J.DupState

/-- An `IIR::Filter<float>`: its `coefficients` and its history. -/
structure IIRFilter {F : Type} (J : Juce F) where
  coefficients : IIRCoefficients F
  mem : J.IIRState

/-- The six-section `juce::dsp::ProcessorChain` of the EQ, in series order. -/
structure EQChain {F : Type} (J : Juce F) where
  lowCut : IIRDuplicator J
  lowShelf : IIRDuplicator J
  mid1 : IIRDuplicator J
  mid2 : IIRDuplicator J
  highShelf : IIRDuplicator J
  airBand : IIRDuplicator J

/-- The state of an `EQProcessor`. -/
structure EQProcessor {F : Type} (J : Juce F) where
  eqChain : EQChain J
  currentParams : EQParameters F
  currentSpec : ProcessSpec F

/-- The state of a `DynamicsProcessor` (the thread-local scratch buffer carries nothing). -/
structure DynamicsProcessor {F : Type} (J : Juce F) where
  comp : J.CompressorState
  deessHP : IIRFilter J
  deessLP : IIRFilter J
  deessShelf : IIRFilter J
  lastDeessGainLinear : F
  envFast : F
  envSlow : F
  atkCoeffFast : F
  relCoeffFast : F
  atkCoeffSlow : F
  relCoeffSlow : F
  makeupLinear : F
  params : DynamicsParameters F
  sampleRate : F
  isPrepared : Bool

/-- The state of a `SaturationProcessor`; `shaperFunctionToUse` is `shaper.functionToUse`
(`none` until `updateWaveshaper` installs a curve), `oversampler` the `unique_ptr` (`none` while
null). -/
structure SaturationProcessor {F : Type} (J : Juce F) where
  params : SaturationParameters F
  currentType : SaturationType
  shaperFunctionToUse : Option SaturationType
  toneFilter : IIRFilter J
  dryWet : J.MixerState
  oversampler : Option J.OversamplingState
  driveGain : F
  sampleRate : F

/-- The state of a `SpatialProcessor`. -/
structure SpatialProcessor {F : Type} (J : Juce F) where
  params : SpatialParameters F
  delayL : J.DelayState
  delayR : J.DelayState
  chorus : J.ChorusState
  reverb : J.ReverbState
  rvParams : ReverbParameters F
  delayMix : J.MixerState
  chorusMix : J.MixerState
  reverbMix : J.MixerState
  sampleRate : F
  maxDelaySamples : Nat

/-- The enumeration `ModeProcessor::ModeChain::ProcessingOrder`. -/
inductive ProcessingOrder where
  | RHYTHM_ORDER
  | LEAD_ORDER
  | CLEAN_ORDER
  deriving DecidableEq

/-- The record `ModeProcessor::ModeChain`: four stage processors and an order tag. -/
structure ModeChain {F : Type} (J : Juce F) where
  eq : EQProcessor J
  dynamics : DynamicsProcessor J
  saturation : SaturationProcessor J
  spatial : SpatialProcessor J
  order : ProcessingOrder

/-- The state of a `ModeProcessor`. -/
structure ModeProcessor {F : Type} (J : Juce F) where
  currentMode : ToneMode
  rhythmChain : ModeChain J
  leadChain : ModeChain J
  cleanChain : ModeChain J

section Processors

variable {F : Type} [Add F] [Sub F] [Mul F] [Div F] [Neg F] [LT F] [LE F]
  [@DecidableRel F (· < ·)] [@DecidableRel F (· ≤ ·)] [OfScientific F] [NatCast F]
  [FloatClassify F] {J : Juce F}

/-- Multiply every sample of every channel by `g`
(`juce::FloatVectorOperations::multiply` on each channel). -/
def AudioBlock.multiply (block : AudioBlock F) (g : F) : AudioBlock F :=
  block.map (fun data => data.map (fun x => x * g))

/-- Multiply sample `i` of a channel by `gains[i]`, for every index the gain list covers. -/
def mulGains : List F → List F → List F
  | x :: xs, g :: gs => (x * g) :: mulGains xs gs
  | xs, [] => xs
  | [], _ => []

/-! ## `EQProcessor.cpp` -/

/-- The constructor `EQProcessor::EQProcessor`; `uninit` stands for the indeterminate value of
the default-initialised member `currentSpec`. -/
def EQProcessor.new (J : Juce F) (uninit : ProcessSpec F) : EQProcessor J :=
  { eqChain :=
      { lowCut := { state := .null, mem := J.dupNew }
        lowShelf := { state := .null, mem := J.dupNew }
        mid1 := { state := .null, mem := J.dupNew }
        mid2 := { state := .null, mem := J.dupNew }
        highShelf := { state := .null, mem := J.dupNew }
        airBand := { state := .null, mem := J.dupNew } }
    currentParams := EQParameters.init
    currentSpec := uninit }

/-- The lambda `safeGain` of `EQProcessor::updateFilterCoefficients`. -/
def EQProcessor.safeGain (g : F) : F :=
  if FloatClassify.isnan g || FloatClassify.isinf g || decide (g ≤ 0.0) then 1.0
  else jlimit 0.05 8.0 g

/-- The lambda `safeFreq` of `EQProcessor::updateFilterCoefficients`. -/
def EQProcessor.safeFreq (sr : F) (f : F) : F := jlimit 20.0 (sr * 0.45) f

/-- The lambda `safeQ` of `EQProcessor::updateFilterCoefficients`. -/
def EQProcessor.safeQ (q : F) : F := jlimit 0.2 4.0 q

/-- The method `EQProcessor::updateFilterCoefficients`. -/
def EQProcessor.updateFilterCoefficients (self : EQProcessor J) : EQProcessor J :=
  let sr := self.currentSpec.sampleRate
  let cp := self.currentParams
  let lowCut := EQProcessor.safeFreq sr cp.lowCutFreq
  let lowShelf := EQProcessor.safeFreq sr cp.lowShelfFreq
  let mid1 := EQProcessor.safeFreq sr cp.mid1Freq
  let mid2 := EQProcessor.safeFreq sr cp.mid2Freq
  let highShelf := EQProcessor.safeFreq sr cp.highShelfFreq
  let airBand := EQProcessor.safeFreq sr cp.airBandFreq
  let lowShelfG := EQProcessor.safeGain cp.lowShelfGain
  let mid1G := EQProcessor.safeGain cp.mid1Gain
  let mid2G := EQProcessor.safeGain cp.mid2Gain
  let highShelfG := EQProcessor.safeGain cp.highShelfGain
  let airBandG := EQProcessor.safeGain cp.airBandGain
  let q1 := EQProcessor.safeQ cp.mid1Q
  let q2 := EQProcessor.safeQ cp.mid2Q
  let c := self.eqChain
  { self with
    eqChain :=
      { lowCut := { c.lowCut with state := .makeHighPass sr lowCut }
        lowShelf := { c.lowShelf with state := .makeLowShelf sr lowShelf 0.7 lowShelfG }
        mid1 := { c.mid1 with state := .makePeakFilter sr mid1 q1 mid1G }
        mid2 := { c.mid2 with state := .makePeakFilter sr mid2 q2 mid2G }
        highShelf := { c.highShelf with state := .makeHighShelf sr highShelf 0.7 highShelfG }
        airBand := { c.airBand with state := .makeHighShelf sr airBand 0.7 airBandG } } }

/-- The call `eqChain.reset ()`. -/
def EQChain.reset (c : EQChain J) : EQChain J :=
  { lowCut := { c.lowCut with mem := J.dupReset c.lowCut.mem }
    lowShelf := { c.lowShelf with mem := J.dupReset c.lowShelf.mem }
    mid1 := { c.mid1 with mem := J.dupReset c.mid1.mem }
    mid2 := { c.mid2 with mem := J.dupReset c.mid2.mem }
    highShelf := { c.highShelf with mem := J.dupReset c.highShelf.mem }
    airBand := { c.airBand with mem := J.dupReset c.airBand.mem } }

/-- The call `eqChain.prepare (spec)`. -/
def EQChain.prepare (c : EQChain J) (spec : ProcessSpec F) : EQChain J :=
  { lowCut := { c.lowCut with mem := J.dupPrepare spec c.lowCut.mem }
    lowShelf := { c.lowShelf with mem := J.dupPrepare spec c.lowShelf.mem }
    mid1 := { c.mid1 with mem := J.dupPrepare spec c.mid1.mem }
    mid2 := { c.mid2 with mem := J.dupPrepare spec c.mid2.mem }
    highShelf := { c.highShelf with mem := J.dupPrepare spec c.highShelf.mem }
    airBand := { c.airBand with mem := J.dupPrepare spec c.airBand.mem } }

/-- The call `eqChain.process (context)`: the six sections in series. -/
def EQChain.process (c : EQChain J) (block : AudioBlock F) : EQChain J × AudioBlock F :=
  let r1 := J.dupProcess c.lowCut.state c.lowCut.mem block
  let r2 := J.dupProcess c.lowShelf.state c.lowShelf.mem r1.2
  let r3 := J.dupProcess c.mid1.state c.mid1.mem r2.2
  let r4 := J.dupProcess c.mid2.state c.mid2.mem r3.2
  let r5 := J.dupProcess c.highShelf.state c.highShelf.mem r4.2
  let r6 := J.dupProcess c.airBand.state c.airBand.mem r5.2
  ({ lowCut := { c.lowCut with mem := r1.1 }
     lowShelf := { c.lowShelf with mem := r2.1 }
     mid1 := { c.mid1 with mem := r3.1 }
     mid2 := { c.mid2 with mem := r4.1 }
     highShelf := { c.highShelf with mem := r5.1 }
     airBand := { c.airBand with mem := r6.1 } }, r6.2)

/-- The method `EQProcessor::reset`. -/
def EQProcessor.reset (self : EQProcessor J) : EQProcessor J :=
  EQProcessor.updateFilterCoefficients { self with eqChain := self.eqChain.reset }

/-- The method `EQProcessor::prepare`. -/
def EQProcessor.prepare (self : EQProcessor J) (spec : ProcessSpec F) : EQProcessor J :=
  EQProcessor.reset { self with currentSpec := spec, eqChain := self.eqChain.prepare spec }

/-- The method `EQProcessor::setParameters`. -/
def EQProcessor.setParameters (self : EQProcessor J) (params : EQParameters F) : EQProcessor J :=
  EQProcessor.updateFilterCoefficients { self with currentParams := params }

/-- The test `isFlat` of `EQProcessor::process`. -/
def EQProcessor.isFlat (p : EQParameters F) : Bool :=
  decide (fabs (p.lowShelfGain - 1.0) < 0.001) &&
  decide (fabs (p.mid1Gain - 1.0) < 0.001) &&
  decide (fabs (p.mid2Gain - 1.0) < 0.001) &&
  decide (fabs (p.highShelfGain - 1.0) < 0.001) &&
  decide (fabs (p.airBandGain - 1.0) < 0.001)

/-- The method `EQProcessor::process`. -/
def EQProcessor.process (self : EQProcessor J) (context : ProcessContext F) :
    EQProcessor J × ProcessContext F :=
  let context := { context with calls := context.calls ++ [Stage.EQ] }
  let p := self.currentParams
  if EQProcessor.isFlat p then (self, context)
  else
    let r := self.eqChain.process context.block
    ({ self with eqChain := r.1 }, { context with block := r.2 })

/-! ## `DynamicsProcessor.cpp` -/

/-- The helper `dbToLin`. -/
def dbToLin (M : CMath F) (dB : F) : F := Decibels.decibelsToGain M dB

/-- The helper `linToDb`: `gainToDecibels (g, -150.0f)`. -/
def linToDb (M : CMath F) (g : F) : F := Decibels.gainToDecibels M g (-150.0)

/-- The constructor `DynamicsProcessor::DynamicsProcessor` with the default member
initialisers of the header. -/
def DynamicsProcessor.new (J : Juce F) : DynamicsProcessor J :=
  { comp := J.compNew
    deessHP := { coefficients := .passThrough, mem := J.iirNew }
    deessLP := { coefficients := .passThrough, mem := J.iirNew }
    deessShelf := { coefficients := .passThrough, mem := J.iirNew }
    lastDeessGainLinear := 1.0
    envFast := 0.0
    envSlow := 0.0
    atkCoeffFast := 0.0
    relCoeffFast := 0.0
    atkCoeffSlow := 0.0
    relCoeffSlow := 0.0
    makeupLinear := 1.0
    params := DynamicsParameters.init
    sampleRate := 44100.0
    isPrepared := false }

/-- The method `DynamicsProcessor::updateCompressor`. -/
def DynamicsProcessor.updateCompressor (self : DynamicsProcessor J) : DynamicsProcessor J :=
  let c1 := J.compSetThreshold self.params.compThreshold self.comp
  let c2 := J.compSetRatio (fmax 1.0 self.params.compRatio) c1
  let c3 := J.compSetAttack (fmax 0.1 self.params.compAttack) c2
  let c4 := J.compSetRelease (fmax 1.0 self.params.compRelease) c3
  { self with comp := c4 }

/-- The method `DynamicsProcessor::updateDeesserFilters`. -/
def DynamicsProcessor.updateDeesserFilters (self : DynamicsProcessor J) : DynamicsProcessor J :=
  let center := jlimit 2000.0 16000.0 self.params.deesserFreq
  let bw : F := 1.414
  let hpFreq := center / bw
  let lpFreq := center * bw
  { self with
    deessHP := { self.deessHP with coefficients := .makeHighPass self.sampleRate hpFreq }
    deessLP := { self.deessLP with coefficients := .makeLowPass self.sampleRate lpFreq } }

/-- The method `DynamicsProcessor::updateDeesserShelf`. -/
def DynamicsProcessor.updateDeesserShelf (self : DynamicsProcessor J) (linearCut : F) :
    DynamicsProcessor J :=
  let shelfFreq := jlimit 2000.0 16000.0 self.params.deesserFreq
  let coeffs : IIRCoefficients F :=
    .makeHighShelf self.sampleRate shelfFreq 0.707 (jlimit 0.1 1.0 linearCut)
  { self with deessShelf := { self.deessShelf with coefficients := coeffs } }

/-- The method `DynamicsProcessor::updateTransientEnvelopes`. -/
def DynamicsProcessor.updateTransientEnvelopes (M : CMath F) (self : DynamicsProcessor J) :
    DynamicsProcessor J :=
  let aFast : F := 0.002
  let rFast : F := 0.020
  let aSlow : F := 0.020
  let rSlow : F := 0.200
  { self with
    atkCoeffFast := M.exp (-1.0 / (aFast * self.sampleRate))
    relCoeffFast := M.exp (-1.0 / (rFast * self.sampleRate))
    atkCoeffSlow := M.exp (-1.0 / (aSlow * self.sampleRate))
    relCoeffSlow := M.exp (-1.0 / (rSlow * self.sampleRate)) }

/-- The method `DynamicsProcessor::updateMakeup`. -/
def DynamicsProcessor.updateMakeup (M : CMath F) (self : DynamicsProcessor J) :
    DynamicsProcessor J :=
  { self with makeupLinear := dbToLin M self.params.compMakeupGain }

/-- The method `DynamicsProcessor::prepare`. -/
def DynamicsProcessor.prepare (M : CMath F) (self : DynamicsProcessor J) (spec : ProcessSpec F) :
    DynamicsProcessor J :=
  let sampleRate : F := if (0.0 : F) < spec.sampleRate then spec.sampleRate else 44100.0
  let comp := J.compReset (J.compPrepare spec self.comp)
  let comp := J.compSetRatio 2.0 (J.compSetThreshold (-18.0)
    (J.compSetRelease 120.0 (J.compSetAttack 10.0 comp)))
  let s1 : DynamicsProcessor J :=
    { self with
      sampleRate := sampleRate
      comp := comp
      deessHP := { self.deessHP with mem := J.iirReset (J.iirPrepare spec self.deessHP.mem) }
      deessLP := { self.deessLP with mem := J.iirReset (J.iirPrepare spec self.deessLP.mem) }
      deessShelf :=
        { coefficients := .makeHighShelf sampleRate 6000.0 0.707 1.0
          mem := J.iirReset (J.iirPrepare spec self.deessShelf.mem) } }
  let s2 := DynamicsProcessor.updateTransientEnvelopes M s1
  { s2 with makeupLinear := 1.0, isPrepared := true }

/-- The method `DynamicsProcessor::reset`. -/
def DynamicsProcessor.reset (self : DynamicsProcessor J) : DynamicsProcessor J :=
  { self with
    comp := J.compReset self.comp
    deessHP := { self.deessHP with mem := J.iirReset self.deessHP.mem }
    deessLP := { self.deessLP with mem := J.iirReset self.deessLP.mem }
    deessShelf := { self.deessShelf with mem := J.iirReset self.deessShelf.mem }
    envFast := 0.0
    envSlow := 0.0
    lastDeessGainLinear := 1.0 }

/-- The method `DynamicsProcessor::setParameters`. -/
def DynamicsProcessor.setParameters (M : CMath F) (self : DynamicsProcessor J)
    (p : DynamicsParameters F) : DynamicsProcessor J :=
  DynamicsProcessor.updateMakeup M
    (DynamicsProcessor.updateTransientEnvelopes M
      (DynamicsProcessor.updateDeesserFilters
        (DynamicsProcessor.updateCompressor { self with params := p })))

/-- The test `isBypassed` of `DynamicsProcessor::process`. -/
def DynamicsProcessor.isBypassed (p : DynamicsParameters F) : Bool :=
  decide (fabs (p.compRatio - 1.0) < 0.01) &&
  decide ((0.0 : F) < p.compThreshold) &&
  decide (fabs p.transientAttack < 0.001) &&
  decide (fabs p.transientSustain < 0.001)

/-- The de-esser's mono downmix: `mono[i] = (sum over channels of block[ch][i]) / max (1, numCh)`
for `i < numSm`. -/
def monoDownmix (block : AudioBlock F) (numCh numSm : Nat) : List F :=
  (List.range numSm).map (fun i =>
    (block.foldl (fun s ch => s + ch.getD i 0.0) (0.0 : F)) / ((max 1 numCh : Nat) : F))

/-- One iteration of the transient-shaping loop on the magnitude `x = |ch0[i]|`: the two
envelope followers are advanced and the gain `g` of this sample index is returned. -/
def DynamicsProcessor.transientStep (self : DynamicsProcessor J) (x : F) :
    DynamicsProcessor J × F :=
  let envFast :=
    if self.envFast < x then self.atkCoeffFast * self.envFast + (1.0 - self.atkCoeffFast) * x
    else self.relCoeffFast * self.envFast + (1.0 - self.relCoeffFast) * x
  let envSlow :=
    if self.envSlow < x then self.atkCoeffSlow * self.envSlow + (1.0 - self.atkCoeffSlow) * x
    else self.relCoeffSlow * self.envSlow + (1.0 - self.relCoeffSlow) * x
  let trans := jlimit (-1.0) 1.0 (envFast - envSlow)
  let gAtk := 1.0 + self.params.transientAttack * trans * 2.0
  let gSus := 1.0 + self.params.transientSustain * (envSlow * 0.5)
  let g := jlimit 0.25 4.0 (gAtk * gSus)
  ({ self with envFast := envFast, envSlow := envSlow }, g)

/-- The transient-shaping loop over the samples of channel 0: the final envelopes and the gain
of every sample index. -/
def DynamicsProcessor.transientGains (self : DynamicsProcessor J) :
    List F → DynamicsProcessor J × List F
  | [] => (self, [])
  | s :: rest =>
    let r := self.transientStep (fabs s)
    let r2 := DynamicsProcessor.transientGains r.1 rest
    (r2.1, r.2 :: r2.2)

/-- The method `DynamicsProcessor::process`. -/
def DynamicsProcessor.process (M : CMath F) (self : DynamicsProcessor J)
    (context : ProcessContext F) : DynamicsProcessor J × ProcessContext F :=
  let context := { context with calls := context.calls ++ [Stage.Dynamics] }
  if !self.isPrepared then (self, context)
  else
    let p := self.params
    if DynamicsProcessor.isBypassed p then (self, context)
    else
      let block := context.block
      let numCh := AudioBlock.getNumChannels block
      let numSm := AudioBlock.getNumSamples block
      if numCh ≤ 0 ∨ numSm ≤ 0 then (self, context)
      else
        -- Step 1) Broadband Compression
        let rc := J.compProcess self.comp block
        let block := rc.2
        -- Step 2) De-esser
        let mono := monoDownmix block numCh numSm
        let rhp := J.iirProcess self.deessHP.coefficients self.deessHP.mem [mono]
        let rlp := J.iirProcess self.deessLP.coefficients self.deessLP.mem rhp.2
        let mono := rlp.2.headD []
        let accum := mono.foldl (fun a x => a + x * x) (0.0 : F)
        let rms := M.sqrt (accum / ((max 1 numSm : Nat) : F))
        let rmsDb := linToDb M (fmax 1.0e-8 rms)
        let over := rmsDb - self.params.deesserThreshold
        let cutDb : F :=
          if (0.0 : F) < over then over * (self.params.deesserRatio - 1.0) else 0.0
        let targetCutLinear := dbToLin M (-cutDb)
        let lastDeessGainLinear := self.lastDeessGainLinear * 0.8 + targetCutLinear * 0.2
        let s1 : DynamicsProcessor J :=
          { self with
            comp := rc.1
            deessHP := { self.deessHP with mem := rhp.1 }
            deessLP := { self.deessLP with mem := rlp.1 }
            lastDeessGainLinear := lastDeessGainLinear }
        let s2 := s1.updateDeesserShelf lastDeessGainLinear
        let rsh := J.iirProcess s2.deessShelf.coefficients s2.deessShelf.mem block
        let s3 : DynamicsProcessor J := { s2 with deessShelf := { s2.deessShelf with mem := rsh.1 } }
        let block := rsh.2
        -- Step 3) Transient shaping
        let rt := s3.transientGains (block.headD [])
        let block := block.map (fun ch => mulGains ch rt.2)
        -- Step 4) Makeup gain
        let block := AudioBlock.multiply block rt.1.makeupLinear
        (rt.1, { context with block := block })

/-- The level measurement of the de-esser in `DynamicsProcessor::process` (lines 127-152), on a
block that reaches it: the compressor's output is mixed down to mono, band-passed by `deessHP`
and `deessLP`, and the RMS of the result is converted to dB (`rmsDb`). -/
def DynamicsProcessor.deessLevel (M : CMath F) (self : DynamicsProcessor J)
    (block : AudioBlock F) : F :=
  let numCh := AudioBlock.getNumChannels block
  let numSm := AudioBlock.getNumSamples block
  let rc := J.compProcess self.comp block
  let mono := monoDownmix rc.2 numCh numSm
  let rhp := J.iirProcess self.deessHP.coefficients self.deessHP.mem [mono]
  let rlp := J.iirProcess self.deessLP.coefficients self.deessLP.mem rhp.2
  let mono := rlp.2.headD []
  let accum := mono.foldl (fun a x => a + x * x) (0.0 : F)
  let rms := M.sqrt (accum / ((max 1 numSm : Nat) : F))
  linToDb M (fmax 1.0e-8 rms)

/-- Steps 1 and 2 of `DynamicsProcessor::process` (lines 127-161), on a block that reaches them:
the compressor, the level measurement, the smoothed de-esser gain and the shelf.  Returns the
processor as it enters the transient-shaping loop and the block handed to that loop. -/
def DynamicsProcessor.compressAndDeess (M : CMath F) (self : DynamicsProcessor J)
    (block : AudioBlock F) : DynamicsProcessor J × AudioBlock F :=
  let numCh := AudioBlock.getNumChannels block
  let numSm := AudioBlock.getNumSamples block
  let rc := J.compProcess self.comp block
  let block := rc.2
  let mono := monoDownmix block numCh numSm
  let rhp := J.iirProcess self.deessHP.coefficients self.deessHP.mem [mono]
  let rlp := J.iirProcess self.deessLP.coefficients self.deessLP.mem rhp.2
  let mono := rlp.2.headD []
  let accum := mono.foldl (fun a x => a + x * x) (0.0 : F)
  let rms := M.sqrt (accum / ((max 1 numSm : Nat) : F))
  let rmsDb := linToDb M (fmax 1.0e-8 rms)
  let over := rmsDb - self.params.deesserThreshold
  let cutDb : F :=
    if (0.0 : F) < over then over * (self.params.deesserRatio - 1.0) else 0.0
  let targetCutLinear := dbToLin M (-cutDb)
  let lastDeessGainLinear := self.lastDeessGainLinear * 0.8 + targetCutLinear * 0.2
  let s1 : DynamicsProcessor J :=
    { self with
      comp := rc.1
      deessHP := { self.deessHP with mem := rhp.1 }
      deessLP := { self.deessLP with mem := rlp.1 }
      lastDeessGainLinear := lastDeessGainLinear }
  let s2 := s1.updateDeesserShelf lastDeessGainLinear
  let rsh := J.iirProcess s2.deessShelf.coefficients s2.deessShelf.mem block
  ({ s2 with deessShelf := { s2.deessShelf with mem := rsh.1 } }, rsh.2)

/-! ## `SaturationProcessor.cpp` -/

/-- The waveshaping curve `tapeShape`. -/
def tapeShape (M : CMath F) (x : F) : F := M.tanh (0.9 * x) * 0.8

/-- The waveshaping curve `tubeShape`. -/
def tubeShape (M : CMath F) (x : F) : F := M.tanh (1.5 * x - 0.2 * x * x * x)

/-- The waveshaping curve `transistorShape`. -/
def transistorShape (M : CMath F) (x : F) : F := M.tanh (2.5 * x) + 0.05 * M.sin (6.0 * x)

/-- The waveshaping curve `exciterShape`. -/
def exciterShape (M : CMath F) (x : F) : F := 0.6 * M.sin (x * 2.0) + 0.4 * x

/-- The curve that `updateWaveshaper` installs for a type. -/
def shapeOf (M : CMath F) : SaturationType → F → F
  | .Tape => tapeShape M
  | .Tube => tubeShape M
  | .Transistor => transistorShape M
  | .Exciter => exciterShape M

/-- The constructor `SaturationProcessor::SaturationProcessor` with the default member
initialisers of the header. -/
def SaturationProcessor.new (J : Juce F) : SaturationProcessor J :=
  { params := SaturationParameters.init
    currentType := .Tape
    shaperFunctionToUse := none
    toneFilter := { coefficients := .passThrough, mem := J.iirNew }
    dryWet := J.mixerNew
    oversampler := none
    driveGain := 1.0
    sampleRate := 44100.0 }

/-- The method `SaturationProcessor::updateDrive`. -/
def SaturationProcessor.updateDrive (M : CMath F) (self : SaturationProcessor J) :
    SaturationProcessor J :=
  { self with driveGain := Decibels.decibelsToGain M (self.params.drive * 18.0) }

/-- The method `SaturationProcessor::updateToneFilter`. -/
def SaturationProcessor.updateToneFilter (self : SaturationProcessor J) : SaturationProcessor J :=
  let coeffs : IIRCoefficients F :=
    .makeHighShelf self.sampleRate (jmap01 self.params.tone 2000.0 8000.0) 0.707
      (jmap01 self.params.tone 0.5 2.0)
  { self with toneFilter := { self.toneFilter with coefficients := coeffs } }

/-- The method `SaturationProcessor::updateWaveshaper`. -/
def SaturationProcessor.updateWaveshaper (self : SaturationProcessor J) : SaturationProcessor J :=
  { self with shaperFunctionToUse := some self.currentType }

/-- The method `SaturationProcessor::prepare`. -/
def SaturationProcessor.prepare (M : CMath F) (self : SaturationProcessor J)
    (spec : ProcessSpec F) : SaturationProcessor J :=
  let s1 : SaturationProcessor J :=
    { self with
      sampleRate := spec.sampleRate
      oversampler := some (J.osNew spec.numChannels 2)
      toneFilter := { self.toneFilter with mem := J.iirReset self.toneFilter.mem }
      dryWet :=
        J.mixerSetWetMixProportion self.params.mix
          (J.mixerSetMixingRuleLinear (J.mixerPrepare spec (J.mixerReset self.dryWet))) }
  let s2 := SaturationProcessor.updateDrive M
    (SaturationProcessor.updateToneFilter (SaturationProcessor.updateWaveshaper s1))
  { s2 with oversampler := s2.oversampler.map J.osReset }

/-- The method `SaturationProcessor::reset`. -/
def SaturationProcessor.reset (self : SaturationProcessor J) : SaturationProcessor J :=
  { self with
    toneFilter := { self.toneFilter with mem := J.iirReset self.toneFilter.mem }
    dryWet := J.mixerReset self.dryWet
    oversampler := self.oversampler.map J.osReset }

/-- The method `SaturationProcessor::setParameters`. -/
def SaturationProcessor.setParameters (M : CMath F) (self : SaturationProcessor J)
    (newParams : SaturationParameters F) : SaturationProcessor J :=
  let s0 : SaturationProcessor J := { self with params := newParams }
  let s1 : SaturationProcessor J :=
    if s0.params.type ≠ s0.currentType then
      SaturationProcessor.updateWaveshaper { s0 with currentType := s0.params.type }
    else s0
  let s2 := SaturationProcessor.updateToneFilter (SaturationProcessor.updateDrive M s1)
  { s2 with dryWet := J.mixerSetWetMixProportion s2.params.mix s2.dryWet }

/-- The method `SaturationProcessor::setType`. -/
def SaturationProcessor.setType (self : SaturationProcessor J) (newType : SaturationType) :
    SaturationProcessor J :=
  if self.currentType ≠ newType then
    SaturationProcessor.updateWaveshaper { self with currentType := newType }
  else self

/-- The tone-filter loop of `SaturationProcessor::process`: the one `toneFilter` object filters
the channels one after the other, each as a single-channel block. -/
def toneFilterChannels (J : Juce F) (coefficients : IIRCoefficients F) :
    J.IIRState → List (List F) → J.IIRState × List (List F)
  | mem, [] => (mem, [])
  | mem, data :: rest =>
    let r := J.iirProcess coefficients mem [data]
    let r2 := toneFilterChannels J coefficients r.1 rest
    (r2.1, r.2.headD [] :: r2.2)

/-- The method `SaturationProcessor::process`.  (`shaperFunctionToUse` is set whenever
`oversampler` is, both by `prepare`; were it unset the samples would pass unshaped.) -/
def SaturationProcessor.process (M : CMath F) (self : SaturationProcessor J)
    (context : ProcessContext F) : SaturationProcessor J × ProcessContext F :=
  let context := { context with calls := context.calls ++ [Stage.Saturation] }
  match self.oversampler with
  | none => (self, context)
  | some os =>
    let p := self.params
    if p.mix ≤ 0.0001 ∨ p.drive ≤ 0.0001 then (self, context)
    else
      let output := context.block
      let numCh := AudioBlock.getNumChannels output
      let numSm := AudioBlock.getNumSamples output
      if numCh = 0 ∨ numSm = 0 then (self, context)
      else
        let dryWet := J.mixerPushDrySamples self.dryWet output
        -- oversample
        let up := J.osProcessSamplesUp os output
        let osBlock := up.2
        -- apply drive
        let osBlock : AudioBlock F :=
          osBlock.map (fun data => data.map (fun x => (x + self.params.bias) * self.driveGain))
        -- waveshaper
        let osBlock : AudioBlock F :=
          match self.shaperFunctionToUse with
          | some t => osBlock.map (fun data => data.map (shapeOf M t))
          | none => osBlock
        -- tone filter
        let tf := toneFilterChannels J self.toneFilter.coefficients self.toneFilter.mem osBlock
        let osBlock := tf.2
        -- downsample
        let down := J.osProcessSamplesDown up.1 osBlock output
        let output := down.2
        -- output compensation
        let driveCompensity : F := 0.6
        let comp := 1.0 / jmax 1.0 (self.driveGain * driveCompensity)
        let output := AudioBlock.multiply output comp
        let mixed := J.mixerMixWetSamples dryWet output
        ({ self with
           dryWet := mixed.1
           oversampler := some down.1
           toneFilter := { self.toneFilter with mem := tf.1 } },
         { context with block := mixed.2 })

/-- The value of an integer as a 32-bit `int`: reduced modulo `2^32` into
`[-2^31, 2^31 - 1]`. -/
def toInt32 (z : Int) : Int := (z + 2147483648) % 4294967296 - 2147483648

/-- The conversion `(size_t)` of an `int` to a 64-bit unsigned integer: reduced modulo `2^64`, so
that a negative value becomes a huge one. -/
def toSizeT (z : Int) : Nat := (z % 18446744073709551616).toNat

/-! ## `SpatialProcessor.cpp` -/

/-- The constructor `SpatialProcessor::SpatialProcessor` with the default member initialisers of
the header (`rvParams` holds the defaults of `juce::Reverb::Parameters`). -/
def SpatialProcessor.new (J : Juce F) : SpatialProcessor J :=
  { params := SpatialParameters.init
    delayL := J.delayNew 48000
    delayR := J.delayNew 48000
    chorus := J.chorusNew
    reverb := J.reverbNew
    rvParams :=
      { roomSize := 0.5, damping := 0.5, wetLevel := 0.33, dryLevel := 0.4, width := 1.0
        freezeMode := 0.0 }
    delayMix := J.mixerNew
    chorusMix := J.mixerNew
    reverbMix := J.mixerNew
    sampleRate := 44100.0
    maxDelaySamples := 48000 }

/-- The method `SpatialProcessor::updateDelay`. -/
def SpatialProcessor.updateDelay (self : SpatialProcessor J) : SpatialProcessor J :=
  let dL := (self.params.delayTimeLeft / 1000.0) * self.sampleRate
  let dR := (self.params.delayTimeRight / 1000.0) * self.sampleRate
  { self with
    delayL := J.delaySetDelay (jlimit 1.0 ((self.maxDelaySamples : F) - 1.0) dL) self.delayL
    delayR := J.delaySetDelay (jlimit 1.0 ((self.maxDelaySamples : F) - 1.0) dR) self.delayR }

/-- The method `SpatialProcessor::updateChorus`. -/
def SpatialProcessor.updateChorus (self : SpatialProcessor J) : SpatialProcessor J :=
  { self with
    chorus :=
      J.chorusSetFeedback 0.0
        (J.chorusSetCentreDelay 7.0
          (J.chorusSetDepth (jlimit 0.0 1.0 self.params.chorusDepth)
            (J.chorusSetRate (jlimit 0.01 5.0 self.params.chorusRate) self.chorus))) }

/-- The method `SpatialProcessor::updateReverb`. -/
def SpatialProcessor.updateReverb (self : SpatialProcessor J) : SpatialProcessor J :=
  let rvParams : ReverbParameters F :=
    { roomSize := jlimit 0.0 1.0 self.params.reverbSize
      damping := jlimit 0.0 1.0 self.params.reverbDamping
      width := jlimit 0.0 1.0 self.params.reverbWidth
      wetLevel := 1.0
      dryLevel := 0.0
      freezeMode := 0.0 }
  { self with rvParams := rvParams, reverb := J.reverbSetParameters rvParams self.reverb }

/-- The method `SpatialProcessor::prepare`.  `maxDelaySamples` is `(size_t)` of the 32-bit `int`
that `juce::roundToInt (sampleRate * 1.5)` returns, and `(int) maxDelaySamples` is handed to the
delay lines. -/
def SpatialProcessor.prepare (self : SpatialProcessor J) (spec : ProcessSpec F) :
    SpatialProcessor J :=
  let sampleRate := spec.sampleRate
  let maxDelaySamples : Nat := toSizeT (toInt32 (J.roundToInt (sampleRate * 1.5)))
  let prep := fun (d : J.DelayState) =>
    J.delayReset
      (J.delaySetMaximumDelayInSamples (toInt32 (maxDelaySamples : Int)) (J.delayPrepare spec d))
  let s1 : SpatialProcessor J :=
    { self with
      sampleRate := sampleRate
      maxDelaySamples := maxDelaySamples
      delayL := prep self.delayL
      delayR := prep self.delayR
      chorus := J.chorusPrepare spec self.chorus
      reverb := J.reverbPrepare spec self.reverb
      delayMix := J.mixerPrepare spec self.delayMix
      chorusMix := J.mixerPrepare spec self.chorusMix
      reverbMix := J.mixerPrepare spec self.reverbMix }
  SpatialProcessor.updateReverb (SpatialProcessor.updateChorus (SpatialProcessor.updateDelay s1))

/-- The method `SpatialProcessor::reset`. -/
def SpatialProcessor.reset (self : SpatialProcessor J) : SpatialProcessor J :=
  { self with
    delayL := J.delayReset self.delayL
    delayR := J.delayReset self.delayR
    chorus := J.chorusReset self.chorus
    reverb := J.reverbReset self.reverb
    delayMix := J.mixerReset self.delayMix
    chorusMix := J.mixerReset self.chorusMix
    reverbMix := J.mixerReset self.reverbMix }

/-- The method `SpatialProcessor::setParameters`. -/
def SpatialProcessor.setParameters (self : SpatialProcessor J) (p : SpatialParameters F) :
    SpatialProcessor J :=
  let s1 := SpatialProcessor.updateReverb
    (SpatialProcessor.updateChorus (SpatialProcessor.updateDelay { self with params := p }))
  { s1 with
    delayMix := J.mixerSetWetMixProportion s1.params.delayMix s1.delayMix
    chorusMix := J.mixerSetWetMixProportion s1.params.chorusMix s1.chorusMix
    reverbMix := J.mixerSetWetMixProportion s1.params.reverbMix s1.reverbMix }

/-- The body of the loop of `SpatialProcessor::applyStereoWidth` at one sample index: from
`(L[i], R[i])` to the new `(L[i], R[i])`. -/
def stereoWidthSample (width : F) (l r : F) : F × F :=
  let M := 0.70710678 * (l + r)
  let S := 0.70710678 * (l - r) * width
  (M + S, M - S)

/-- The method `SpatialProcessor::applyStereoWidth`: nothing below two channels, otherwise
channels 0 and 1 are rewritten sample by sample and the other channels are left alone. -/
def applyStereoWidth (block : AudioBlock F) (width : F) : AudioBlock F :=
  match block with
  | L :: R :: rest =>
    List.zipWith (fun l r => (stereoWidthSample width l r).1) L R ::
      List.zipWith (fun l r => (stereoWidthSample width l r).2) L R :: rest
  | _ => block

/-- The inner loop of the delay section on one channel: each sample is replaced by the popped
delayed sample, and `in + dOut * fb` is pushed. -/
def delayChannel (J : Juce F) (fb : F) : J.DelayState → List F → J.DelayState × List F
  | line, [] => (line, [])
  | line, x :: rest =>
    let popped := J.delayPopSample line
    let dOut := popped.1
    let line := J.delayPushSample (x + dOut * fb) popped.2
    let r := delayChannel J fb line rest
    (r.1, dOut :: r.2)

/-- The delay loop over the channels after channel 0: they all go through `delayR`. -/
def delayOtherChannels (J : Juce F) (fb : F) :
    J.DelayState → List (List F) → J.DelayState × List (List F)
  | line, [] => (line, [])
  | line, data :: rest =>
    let r := delayChannel J fb line data
    let r2 := delayOtherChannels J fb r.1 rest
    (r2.1, r.2 :: r2.2)

/-- The test `allDry` of `SpatialProcessor::process`. -/
def SpatialProcessor.allDry (p : SpatialParameters F) : Bool :=
  decide (p.reverbMix ≤ 0.0001) &&
  decide (p.delayMix ≤ 0.0001) &&
  decide (p.chorusMix ≤ 0.0001) &&
  decide (fabs (p.stereoWidth - 1.0) < 0.001)

/-- The method `SpatialProcessor::process`. -/
def SpatialProcessor.process (self : SpatialProcessor J) (ctx : ProcessContext F) :
    SpatialProcessor J × ProcessContext F :=
  let ctx := { ctx with calls := ctx.calls ++ [Stage.Spatial] }
  let block := ctx.block
  let p := self.params
  if SpatialProcessor.allDry p then (self, ctx)
  else
    -- delay
    let delayMix := J.mixerPushDrySamples self.delayMix block
    let fb := jlimit 0.0 0.99 self.params.delayFeedback
    let delayed : (J.DelayState × J.DelayState) × AudioBlock F :=
      match block with
      | [] => ((self.delayL, self.delayR), [])
      | data0 :: rest =>
        let r0 := delayChannel J fb self.delayL data0
        let r1 := delayOtherChannels J fb self.delayR rest
        ((r0.1, r1.1), r0.2 :: r1.2)
    let dm := J.mixerMixWetSamples delayMix delayed.2
    -- chorus
    let chorusMix := J.mixerPushDrySamples self.chorusMix dm.2
    let ch := J.chorusProcess self.chorus dm.2
    let cm := J.mixerMixWetSamples chorusMix ch.2
    -- reverb
    let reverbMix := J.mixerPushDrySamples self.reverbMix cm.2
    let rv := J.reverbProcess self.reverb cm.2
    let rm := J.mixerMixWetSamples reverbMix rv.2
    -- widening
    let block := applyStereoWidth rm.2 (jlimit 0.0 2.0 self.params.stereoWidth)
    ({ self with
       delayL := delayed.1.1
       delayR := delayed.1.2
       delayMix := dm.1
       chorus := ch.1
       chorusMix := cm.1
       reverb := rv.1
       reverbMix := rm.1 },
     { ctx with block := block })

/-! ## `ModeProcessor.cpp` -/

/-- A default-constructed `ModeChain`. -/
def ModeChain.new (J : Juce F) (uninit : ProcessSpec F) : ModeChain J :=
  { eq := EQProcessor.new J uninit
    dynamics := DynamicsProcessor.new J
    saturation := SaturationProcessor.new J
    spatial := SpatialProcessor.new J
    order := .RHYTHM_ORDER }

/-- The constructor `ModeProcessor::ModeProcessor`. -/
def ModeProcessor.new (J : Juce F) (uninit : ProcessSpec F) : ModeProcessor J :=
  { currentMode := .RHYTHM
    rhythmChain := ModeChain.new J uninit
    leadChain := ModeChain.new J uninit
    cleanChain := ModeChain.new J uninit }

/-- The method `ModeProcessor::ModeChain::prepare`. -/
def ModeChain.prepare (M : CMath F) (self : ModeChain J) (spec : ProcessSpec F) : ModeChain J :=
  { self with
    eq := self.eq.prepare spec
    dynamics := self.dynamics.prepare M spec
    saturation := self.saturation.prepare M spec
    spatial := self.spatial.prepare spec }

/-- The method `ModeProcessor::ModeChain::setParameters`. -/
def ModeChain.setParameters (M : CMath F) (self : ModeChain J) (params : EngineParameters F) :
    ModeChain J :=
  { self with
    eq := self.eq.setParameters params.eq
    dynamics := self.dynamics.setParameters M params.dynamics
    saturation := self.saturation.setParameters M params.saturation
    spatial := self.spatial.setParameters params.spatial }

/-- The method `ModeProcessor::ModeChain::process`. -/
def ModeChain.process (M : CMath F) (self : ModeChain J) (context : ProcessContext F) :
    ModeChain J × ProcessContext F :=
  match self.order with
  | .RHYTHM_ORDER =>
    let r1 := self.eq.process context
    let r2 := self.dynamics.process M r1.2
    let r3 := self.saturation.process M r2.2
    let r4 := self.spatial.process r3.2
    ({ self with eq := r1.1, dynamics := r2.1, saturation := r3.1, spatial := r4.1 }, r4.2)
  | .LEAD_ORDER =>
    let r1 := self.saturation.process M context
    let r2 := self.eq.process r1.2
    let r3 := self.dynamics.process M r2.2
    let r4 := self.spatial.process r3.2
    ({ self with saturation := r1.1, eq := r2.1, dynamics := r3.1, spatial := r4.1 }, r4.2)
  | .CLEAN_ORDER =>
    let r1 := self.eq.process context
    let r2 := self.saturation.process M r1.2
    let r3 := self.spatial.process r2.2
    let r4 := self.dynamics.process M r3.2
    ({ self with eq := r1.1, saturation := r2.1, spatial := r3.1, dynamics := r4.1 }, r4.2)

/-- The method `ModeProcessor::ModeChain::reset`. -/
def ModeChain.reset (self : ModeChain J) : ModeChain J :=
  { self with
    eq := self.eq.reset
    dynamics := self.dynamics.reset
    saturation := self.saturation.reset
    spatial := self.spatial.reset }

/-- The method `ModeProcessor::setProcessingOrder`. -/
def ModeProcessor.setProcessingOrder (chain : ModeChain J) (mode : ToneMode) : ModeChain J :=
  match mode with
  | .LEAD => { chain with order := .LEAD_ORDER }
  | .CLEAN => { chain with order := .CLEAN_ORDER }
  | .RHYTHM => { chain with order := .RHYTHM_ORDER }

/-- The method `ModeProcessor::prepare`. -/
def ModeProcessor.prepare (M : CMath F) (self : ModeProcessor J) (spec : ProcessSpec F) :
    ModeProcessor J :=
  { self with
    rhythmChain := ModeProcessor.setProcessingOrder (self.rhythmChain.prepare M spec) .RHYTHM
    leadChain := ModeProcessor.setProcessingOrder (self.leadChain.prepare M spec) .LEAD
    cleanChain := ModeProcessor.setProcessingOrder (self.cleanChain.prepare M spec) .CLEAN }

/-- The method `ModeProcessor::setMode`. -/
def ModeProcessor.setMode (self : ModeProcessor J) (mode : ToneMode) : ModeProcessor J :=
  { self with currentMode := mode }

/-- The method `ModeProcessor::getActiveChain` (read side of the returned reference). -/
def ModeProcessor.getActiveChain (self : ModeProcessor J) : ModeChain J :=
  match self.currentMode with
  | .LEAD => self.leadChain
  | .CLEAN => self.cleanChain
  | .RHYTHM => self.rhythmChain

/-- Write side of the reference `ModeProcessor::getActiveChain` returns. -/
def ModeProcessor.setActiveChain (self : ModeProcessor J) (chain : ModeChain J) :
    ModeProcessor J :=
  match self.currentMode with
  | .LEAD => { self with leadChain := chain }
  | .CLEAN => { self with cleanChain := chain }
  | .RHYTHM => { self with rhythmChain := chain }

/-- The method `ModeProcessor::process`. -/
def ModeProcessor.process (M : CMath F) (self : ModeProcessor J) (context : ProcessContext F)
    (params : EngineParameters F) : ModeProcessor J × ProcessContext F :=
  let chain := self.getActiveChain
  let chain := chain.setParameters M params
  let r := chain.process M context
  -- global autogain
  let g := params.outputAutoGain
  let context :=
    if (0.0001 : F) < fabs (g - 1.0) then
      { r.2 with block := AudioBlock.multiply r.2.block g }
    else r.2
  (self.setActiveChain r.1, context)

/-- The method `ModeProcessor::reset`. -/
def ModeProcessor.reset (self : ModeProcessor J) : ModeProcessor J :=
  { self with
    rhythmChain := self.rhythmChain.reset
    leadChain := self.leadChain.reset
    cleanChain := self.cleanChain.reset }

/-! ## The documented stage order -/

/-- The per-mode stage order as the specification's table gives it (section 4.3):
RHYTHM = EQ, Dynamics, Saturation, Spatial; LEAD = Saturation, EQ, Dynamics, Spatial;
CLEAN = EQ, Saturation, Spatial, Dynamics. -/
def specStageOrder : ToneMode → List Stage
  | .RHYTHM => [.EQ, .Dynamics, .Saturation, .Spatial]
  | .LEAD => [.Saturation, .EQ, .Dynamics, .Spatial]
  | .CLEAN => [.EQ, .Saturation, .Spatial, .Dynamics]

/-- Run one named stage of a chain on a context: the stage's own `process`. -/
def runStage (M : CMath F) (stage : Stage) (r : ModeChain J × ProcessContext F) :
    ModeChain J × ProcessContext F :=
  match stage with
  | .EQ =>
    let x := r.1.eq.process r.2
    ({ r.1 with eq := x.1 }, x.2)
  | .Dynamics =>
    let x := r.1.dynamics.process M r.2
    ({ r.1 with dynamics := x.1 }, x.2)
  | .Saturation =>
    let x := r.1.saturation.process M r.2
    ({ r.1 with saturation := x.1 }, x.2)
  | .Spatial =>
    let x := r.1.spatial.process r.2
    ({ r.1 with spatial := x.1 }, x.2)

/-- Run a list of stages from left to right, each exactly once. -/
def runStages (M : CMath F) (stages : List Stage) (r : ModeChain J × ProcessContext F) :
    ModeChain J × ProcessContext F :=
  stages.foldl (fun acc stage => runStage M stage acc) r

end Processors

/-! ## Concrete inputs -/

/-- A concrete set of JUCE kernels over `ℚ`: every state is a call counter, every `process`
kernel halves the samples it is given. -/
def halvingJuce : Juce ℚ where
  DupState := Nat
  IIRState := Nat
  CompressorState := Nat
  OversamplingState := Nat
  MixerState := Nat
  DelayState := Nat
  ChorusState := Nat
  ReverbState := Nat
  dupNew := 0
  dupPrepare := fun _ s => s
  dupReset := fun _ => 0
  dupProcess := fun _ s b => (s + 1, AudioBlock.multiply b (1/2))
  iirNew := 0
  iirPrepare := fun _ s => s
  iirReset := fun _ => 0
  iirProcess := fun _ s b => (s + 1, AudioBlock.multiply b (1/2))
  compNew := 0
  compPrepare := fun _ s => s
  compReset := fun _ => 0
  compSetThreshold := fun _ s => s
  compSetRatio := fun _ s => s
  compSetAttack := fun _ s => s
  compSetRelease := fun _ s => s
  compProcess := fun s b => (s + 1, AudioBlock.multiply b (1/2))
  osNew := fun _ _ => 0
  osReset := fun _ => 0
  osProcessSamplesUp := fun s b => (s + 1, b)
  osProcessSamplesDown := fun s os _ => (s + 1, os)
  mixerNew := 0
  mixerPrepare := fun _ s => s
  mixerReset := fun _ => 0
  mixerSetMixingRuleLinear := fun s => s
  mixerSetWetMixProportion := fun _ s => s
  mixerPushDrySamples := fun s _ => s + 1
  mixerMixWetSamples := fun s b => (s + 1, AudioBlock.multiply b (1/2))
  delayNew := fun _ => 0
  delayPrepare := fun _ s => s
  delaySetMaximumDelayInSamples := fun _ s => s
  delayReset := fun _ => 0
  delaySetDelay := fun _ s => s
  delayPopSample := fun s => (0, s + 1)
  delayPushSample := fun _ s => s + 1
  chorusNew := 0
  chorusPrepare := fun _ s => s
  chorusReset := fun _ => 0
  chorusSetRate := fun _ s => s
  chorusSetDepth := fun _ s => s
  chorusSetCentreDelay := fun _ s => s
  chorusSetFeedback := fun _ s => s
  chorusProcess := fun s b => (s + 1, AudioBlock.multiply b (1/2))
  reverbNew := 0
  reverbPrepare := fun _ s => s
  reverbReset := fun _ => 0
  reverbSetParameters := fun _ s => s
  reverbProcess := fun s b => (s + 1, AudioBlock.multiply b (1/2))
  roundToInt := fun q => ⌊q + 1/2⌋

/-- A rational stand-in for `<cmath>`, for evaluating the model on concrete inputs. -/
def ratMath : CMath ℚ where
  tanh := fun x => x / (1 + |x|)
  pow := fun x _ => x
  exp := fun x => 1 + x
  sin := fun x => x
  sqrt := fun x => x
  log10 := fun x => x

/-- A stereo spec at 44.1 kHz. -/
def testSpec : ProcessSpec ℚ := { sampleRate := 44100, maximumBlockSize := 512, numChannels := 2 }

/-- A stereo block of two samples per channel, with an empty call log. -/
def testContext : ProcessContext ℚ := { block := [[1, 2], [3, 4]], calls := [] }

/-- The parameter snapshot of a freshly constructed `ToneEngine`. -/
def freshParams : EngineParameters ℚ := (ToneEngine.new : ToneEngine ℚ).currentParams

/-- Dynamics parameters that satisfy the bypass test: ratio 1, threshold +3 dB, no transient
shaping, with a makeup gain and de-esser settings that would otherwise act. -/
def bypassDynamics : DynamicsParameters ℚ :=
  { freshParams.dynamics with compThreshold := 3, compMakeupGain := 6, deesserRatio := 4 }

/-- The snapshot of a freshly constructed engine with the low-shelf gain replaced by `+inf`. -/
def infiniteGainParams : EngineParameters XFloat :=
  { (ToneEngine.new : ToneEngine XFloat).currentParams with
    eq := { (ToneEngine.new : ToneEngine XFloat).currentParams.eq with
            lowShelfGain := XFloat.pinf } }

/-- A snapshot whose four stages are all bypassed and whose auto-gain is `1.00005`. -/
def nearUnityGainParams : EngineParameters ℚ :=
  { freshParams with dynamics := bypassDynamics, outputAutoGain := 1.00005 }

/-- A fresh snapshot with the auto-gain replaced by `2`. -/
def doubleGainParams : EngineParameters ℚ := { freshParams with outputAutoGain := 2 }

/-- A fresh snapshot with the low-shelf gain replaced by `2` (auto-gain `1`). -/
def boostedShelfParams : EngineParameters ℚ :=
  { freshParams with eq := { freshParams.eq with lowShelfGain := 2 } }

/-- The EQ parameters of a freshly constructed engine with the low-cut frequency replaced by
NaN. -/
def nanLowCutParams : EQParameters XFloat :=
  { (ToneEngine.new : ToneEngine XFloat).currentParams.eq with lowCutFreq := XFloat.nan }

/-- A set of JUCE kernels over any number type: every state is a call counter and every
`process` kernel passes the samples through unchanged; `round` is the rounding that
`roundToInt` performs. -/
def passJuce {F : Type} [OfScientific F] (round : F → Int) : Juce F where
  DupState := Nat
  IIRState := Nat
  CompressorState := Nat
  OversamplingState := Nat
  MixerState := Nat
  DelayState := Nat
  ChorusState := Nat
  ReverbState := Nat
  dupNew := 0
  dupPrepare := fun _ s => s
  dupReset := fun _ => 0
  dupProcess := fun _ s b => (s + 1, b)
  iirNew := 0
  iirPrepare := fun _ s => s
  iirReset := fun _ => 0
  iirProcess := fun _ s b => (s + 1, b)
  compNew := 0
  compPrepare := fun _ s => s
  compReset := fun _ => 0
  compSetThreshold := fun _ s => s
  compSetRatio := fun _ s => s
  compSetAttack := fun _ s => s
  compSetRelease := fun _ s => s
  compProcess := fun s b => (s + 1, b)
  osNew := fun _ _ => 0
  osReset := fun _ => 0
  osProcessSamplesUp := fun s b => (s + 1, b)
  osProcessSamplesDown := fun s os _ => (s + 1, os)
  mixerNew := 0
  mixerPrepare := fun _ s => s
  mixerReset := fun _ => 0
  mixerSetMixingRuleLinear := fun s => s
  mixerSetWetMixProportion := fun _ s => s
  mixerPushDrySamples := fun s _ => s + 1
  mixerMixWetSamples := fun s b => (s + 1, b)
  delayNew := fun _ => 0
  delayPrepare := fun _ s => s
  delaySetMaximumDelayInSamples := fun _ s => s
  delayReset := fun _ => 0
  delaySetDelay := fun _ s => s
  delayPopSample := fun s => (0.0, s + 1)
  delayPushSample := fun _ s => s + 1
  chorusNew := 0
  chorusPrepare := fun _ s => s
  chorusReset := fun _ => 0
  chorusSetRate := fun _ s => s
  chorusSetDepth := fun _ s => s
  chorusSetCentreDelay := fun _ s => s
  chorusSetFeedback := fun _ s => s
  chorusProcess := fun s b => (s + 1, b)
  reverbNew := 0
  reverbPrepare := fun _ s => s
  reverbReset := fun _ => 0
  reverbSetParameters := fun _ s => s
  reverbProcess := fun s b => (s + 1, b)
  roundToInt := round

/-- A two-tap filter run over one channel: every output sample is the input sample plus the
previous input sample; the history is the last input sample seen. -/
def twoTap : ℚ → List ℚ → ℚ × List ℚ
  | prev, [] => (prev, [])
  | prev, x :: rest => ((twoTap x rest).1, (x + prev) :: (twoTap x rest).2)

/-- A concrete set of JUCE kernels over `ℚ` whose `IIR::Filter` has a history: it filters
channel 0 of the block it is given with `twoTap` and keeps the last input sample; every other
state is a call counter and every other `process` kernel passes the samples through. -/
def historyJuce : Juce ℚ where
  DupState := Nat
  IIRState := ℚ
  CompressorState := Nat
  OversamplingState := Nat
  MixerState := Nat
  DelayState := Nat
  ChorusState := Nat
  ReverbState := Nat
  dupNew := 0
  dupPrepare := fun _ s => s
  dupReset := fun _ => 0
  dupProcess := fun _ s b => (s + 1, b)
  iirNew := 0
  iirPrepare := fun _ s => s
  iirReset := fun _ => 0
  iirProcess := fun _ s b =>
    match b with
    | [] => (s, [])
    | ch :: rest => ((twoTap s ch).1, (twoTap s ch).2 :: rest)
  compNew := 0
  compPrepare := fun _ s => s
  compReset := fun _ => 0
  compSetThreshold := fun _ s => s
  compSetRatio := fun _ s => s
  compSetAttack := fun _ s => s
  compSetRelease := fun _ s => s
  compProcess := fun s b => (s + 1, b)
  osNew := fun _ _ => 0
  osReset := fun _ => 0
  osProcessSamplesUp := fun s b => (s + 1, b)
  osProcessSamplesDown := fun s os _ => (s + 1, os)
  mixerNew := 0
  mixerPrepare := fun _ s => s
  mixerReset := fun _ => 0
  mixerSetMixingRuleLinear := fun s => s
  mixerSetWetMixProportion := fun _ s => s
  mixerPushDrySamples := fun s _ => s + 1
  mixerMixWetSamples := fun s b => (s + 1, b)
  delayNew := fun _ => 0
  delayPrepare := fun _ s => s
  delaySetMaximumDelayInSamples := fun _ s => s
  delayReset := fun _ => 0
  delaySetDelay := fun _ s => s
  delayPopSample := fun s => (0, s + 1)
  delayPushSample := fun _ s => s + 1
  chorusNew := 0
  chorusPrepare := fun _ s => s
  chorusReset := fun _ => 0
  chorusSetRate := fun _ s => s
  chorusSetDepth := fun _ s => s
  chorusSetCentreDelay := fun _ s => s
  chorusSetFeedback := fun _ s => s
  chorusProcess := fun s b => (s + 1, b)
  reverbNew := 0
  reverbPrepare := fun _ s => s
  reverbReset := fun _ => 0
  reverbSetParameters := fun _ s => s
  reverbProcess := fun s b => (s + 1, b)
  roundToInt := fun q => ⌊q + 1/2⌋

/-- Saturation parameters that take the processing path: Tape, drive and mix 1/2. -/
def activeSaturation : SaturationParameters ℚ :=
  { type := .Tape, drive := 1/2, mix := 1/2, tone := 1/2, bias := 0 }

/-! # Theorems -/

/-! ## Arithmetic of `XFloat` -/

namespace XFloat

@[simp] theorem lit_eq (m : ℕ) (s : Bool) (e : ℕ) :
    (OfScientific.ofScientific m s e : XFloat) = fin (OfScientific.ofScientific m s e) := rfl

@[simp] theorem fin_add (a b : ℚ) : fin a + fin b = fin (a + b) := rfl

@[simp] theorem fin_mul (a b : ℚ) : fin a * fin b = fin (a * b) := rfl

@[simp] theorem fin_neg (a : ℚ) : -fin a = fin (-a) := rfl

@[simp] theorem fin_sub (a b : ℚ) : fin a - fin b = fin (a - b) := by
  show fin (a + -b) = fin (a - b)
  rw [sub_eq_add_neg]

theorem fin_div_eq (a b : ℚ) :
    fin a / fin b =
      if b = 0 then (if a = 0 then nan else if 0 < a then pinf else ninf) else fin (a / b) := rfl

theorem fin_div (a b : ℚ) (hb : b ≠ 0) : fin a / fin b = fin (a / b) := by
  show div (fin a) (fin b) = fin (a / b)
  simp [div, hb]

@[simp] theorem fin_lt (a b : ℚ) : fin a < fin b ↔ a < b := by
  show ltb (fin a) (fin b) = true ↔ a < b
  simp [ltb]

@[simp] theorem fin_le (a b : ℚ) : fin a ≤ fin b ↔ a ≤ b := by
  show leb (fin a) (fin b) = true ↔ a ≤ b
  simp [leb]

@[simp] theorem nan_add (x : XFloat) : nan + x = nan := by
  show add nan x = nan
  cases x <;> rfl

@[simp] theorem add_nan (x : XFloat) : x + nan = nan := by
  show add x nan = nan
  cases x <;> rfl

@[simp] theorem nan_mul (x : XFloat) : nan * x = nan := by
  show mul nan x = nan
  cases x <;> rfl

@[simp] theorem mul_nan (x : XFloat) : x * nan = nan := by
  show mul x nan = nan
  cases x <;> rfl

@[simp] theorem nan_div (x : XFloat) : nan / x = nan := by
  show div nan x = nan
  cases x <;> rfl

@[simp] theorem div_nan (x : XFloat) : x / nan = nan := by
  show div x nan = nan
  cases x <;> rfl

@[simp] theorem not_nan_lt (x : XFloat) : ¬ nan < x := by
  show ¬ ltb nan x = true
  cases x <;> simp [ltb]

@[simp] theorem not_lt_nan (x : XFloat) : ¬ x < nan := by
  show ¬ ltb x nan = true
  cases x <;> simp [ltb]

@[simp] theorem not_nan_le (x : XFloat) : ¬ nan ≤ x := by
  show ¬ leb nan x = true
  cases x <;> simp [leb]

@[simp] theorem not_le_nan (x : XFloat) : ¬ x ≤ nan := by
  show ¬ leb x nan = true
  cases x <;> simp [leb]

@[simp] theorem isfinite_fin (a : ℚ) : FloatClassify.isfinite (fin a) = true := rfl

@[simp] theorem isfinite_nan : FloatClassify.isfinite nan = false := rfl

@[simp] theorem isfinite_pinf : FloatClassify.isfinite pinf = false := rfl

@[simp] theorem isfinite_ninf : FloatClassify.isfinite ninf = false := rfl

@[simp] theorem isnan_nan : FloatClassify.isnan nan = true := rfl

@[simp] theorem isnan_fin (a : ℚ) : FloatClassify.isnan (fin a) = false := rfl

@[simp] theorem isinf_pinf : FloatClassify.isinf pinf = true := rfl

@[simp] theorem isinf_ninf : FloatClassify.isinf ninf = true := rfl

@[simp] theorem isinf_fin (a : ℚ) : FloatClassify.isinf (fin a) = false := rfl

@[simp] theorem pinf_mul_fin (b : ℚ) : pinf * fin b = infTimes true b := rfl

@[simp] theorem ninf_mul_fin (b : ℚ) : ninf * fin b = infTimes false b := rfl

@[simp] theorem pinf_add_fin (b : ℚ) : pinf + fin b = pinf := rfl

@[simp] theorem ninf_add_fin (b : ℚ) : ninf + fin b = ninf := rfl

@[simp] theorem pinf_div_fin (b : ℚ) : pinf / fin b = if b < 0 then ninf else pinf := rfl

@[simp] theorem not_pinf_lt (x : XFloat) : ¬ pinf < x := by
  show ¬ ltb pinf x = true
  cases x <;> simp [ltb]

@[simp] theorem fin_lt_pinf (a : ℚ) : fin a < pinf := by
  show ltb (fin a) pinf = true
  rfl

@[simp] theorem jlimit_nan (lo hi : XFloat) : jlimit lo hi nan = nan := by
  simp [jlimit]

/-- A clamp between two rationals `lo ≤ hi` returns NaN on NaN and otherwise a rational of
`[lo, hi]`. -/
theorem jlimit_fin_cases (lo hi : ℚ) (h : lo ≤ hi) (x : XFloat) :
    jlimit (fin lo) (fin hi) x = nan ∨
      ∃ q, jlimit (fin lo) (fin hi) x = fin q ∧ lo ≤ q ∧ q ≤ hi := by
  cases x with
  | nan => left; simp
  | ninf =>
    right
    refine ⟨lo, ?_, le_refl _, h⟩
    have : ninf < fin lo := by show ltb ninf (fin lo) = true; rfl
    simp [jlimit, this]
  | pinf =>
    right
    refine ⟨hi, ?_, h, le_refl _⟩
    simp [jlimit]
  | fin a =>
    right
    by_cases h1 : a < lo
    · exact ⟨lo, by simp [jlimit, h1], le_refl _, h⟩
    · by_cases h2 : hi < a
      · exact ⟨hi, by simp [jlimit, h1, h2], h, le_refl _⟩
      · exact ⟨a, by simp [jlimit, h1, h2], not_lt.mp h1, not_lt.mp h2⟩

end XFloat

/-! ## The helpers on an ordered field -/

section Field

variable {K : Type} [LinearOrderedField K]

theorem fabs_eq_abs (x : K) : fabs x = |x| := by
  unfold fabs
  have h0 : (0.0 : K) = 0 := by norm_num
  rw [h0]
  split_ifs with h
  · rw [abs_of_neg h]
  · rw [abs_of_nonneg (not_lt.mp h)]

theorem fmax_eq_max (a b : K) : fmax a b = max a b := by
  unfold fmax
  split_ifs with h
  · rw [max_eq_right h.le]
  · rw [max_eq_left (not_lt.mp h)]

theorem jlimit_eq (lo hi v : K) (h : lo ≤ hi) : jlimit lo hi v = max lo (min hi v) := by
  unfold jlimit
  split_ifs with h1 h2
  · rw [max_eq_left]; exact le_trans (min_le_right _ _) h1.le
  · rw [min_eq_left h2.le, max_eq_right h]
  · rw [min_eq_right (not_lt.mp h2), max_eq_right (not_lt.mp h1)]

end Field

/-! ## Loudness compensation (`ToneEngine.cpp`) -/

section AutoGain

open XFloat

/-- Fail-safe, reciprocal and clamp: whatever the product `total` of the four estimates is (NaN
and the infinities included), the result is a rational of `[1/4, 4]`. -/
theorem autoGain_tail (total : XFloat) :
    ∃ q, jlimit (0.25 : XFloat) 4.0
        (1.0 / (if (!FloatClassify.isfinite total) || decide (total ≤ 0.0) then (1.0 : XFloat)
          else total)) = fin q ∧ 1/4 ≤ q ∧ q ≤ 4 := by
  have one : jlimit (0.25 : XFloat) 4.0 (1.0 / 1.0) = fin 1 := by
    rw [lit_eq, lit_eq, lit_eq, fin_div _ _ (by norm_num)]
    simp [jlimit]
    norm_num
  cases total with
  | nan => exact ⟨1, by simpa using one, by norm_num, by norm_num⟩
  | ninf => exact ⟨1, by simpa using one, by norm_num, by norm_num⟩
  | pinf => exact ⟨1, by simpa using one, by norm_num, by norm_num⟩
  | fin t =>
    by_cases ht : t ≤ 0
    · refine ⟨1, ?_, by norm_num, by norm_num⟩
      have ht0 : t ≤ (0.0 : ℚ) := by norm_num; exact ht
      simpa [ht0] using one
    · have hne : t ≠ 0 := by intro h; exact ht (le_of_eq h)
      have hpos : 0 < t := lt_of_not_ge ht
      have hnle : ¬ (fin t ≤ (0.0 : XFloat)) := by rw [lit_eq, fin_le]; norm_num; exact hpos
      have hq : (1.0 : XFloat) / fin t = fin (1 / t) := by
        rw [lit_eq, fin_div _ _ hne]; norm_num
      simp only [isfinite_fin, Bool.not_true, Bool.false_or, decide_eq_true_eq, hnle, if_false, hq]
      rcases jlimit_fin_cases (1/4) 4 (by norm_num) (fin (1 / t)) with h | ⟨q, h, h1, h2⟩
      · simp [jlimit] at h
        split_ifs at h
      · refine ⟨q, ?_, h1, h2⟩
        rw [← h, lit_eq, lit_eq]
        norm_num

theorem computeAutoGain_bounded (p : EngineParameters XFloat) :
    ∃ q, computeAutoGain p = fin q ∧ 1/4 ≤ q ∧ q ≤ 4 :=
  autoGain_tail _

/-- One NaN among the five EQ gains makes the EQ estimate NaN. -/
theorem computeEqComp_nan (eq : EQParameters XFloat)
    (h : eq.lowShelfGain = nan ∨ eq.mid1Gain = nan ∨ eq.mid2Gain = nan ∨
      eq.highShelfGain = nan ∨ eq.airBandGain = nan) : computeEqComp eq = nan := by
  unfold computeEqComp
  rcases h with h | h | h | h | h <;> simp [h]

/-- A NaN EQ estimate trips the fail-safe: the compensation is exactly `1.0`. -/
theorem computeAutoGain_nan (p : EngineParameters XFloat)
    (h : computeEqComp p.eq = nan) : computeAutoGain p = 1.0 := by
  unfold computeAutoGain
  simp only [h, nan_mul, isfinite_nan, Bool.not_false, Bool.true_or, if_true]
  rw [lit_eq, lit_eq, lit_eq, fin_div _ _ (by norm_num)]
  simp [jlimit]
  norm_num

/-- C1 (as amended).  In the model with IEEE special values: (1) for every macro input (finite
or not), every mode, every behaviour of `<cmath>` and every previous state, the `outputAutoGain`
that `ToneEngine::updateParameters` leaves in the snapshot is finite and lies in `[0.25, 4.0]`;
(2) the compensation computation yields a finite value of `[0.25, 4.0]` for any parameter values
whatsoever (`compRatio = 0`, NaN and infinite fields included); (3) when one of the five EQ gains
is NaN it yields exactly `1.0`. -/
theorem autoGain_finite_and_bounded :
    (∀ (M : CMath XFloat) (self : ToneEngine XFloat)
        (character thump body shimmer spank space : XFloat) (mode : ToneMode),
        ∃ q, (self.updateParameters M character thump body shimmer spank space
                mode).currentParams.outputAutoGain = fin q ∧ 1/4 ≤ q ∧ q ≤ 4) ∧
    (∀ p : EngineParameters XFloat, ∃ q, computeAutoGain p = fin q ∧ 1/4 ≤ q ∧ q ≤ 4) ∧
    (∀ p : EngineParameters XFloat,
        (p.eq.lowShelfGain = nan ∨ p.eq.mid1Gain = nan ∨ p.eq.mid2Gain = nan ∨
          p.eq.highShelfGain = nan ∨ p.eq.airBandGain = nan) →
        computeAutoGain p = 1.0) :=
  ⟨fun _ _ _ _ _ _ _ _ _ => computeAutoGain_bounded _,
   computeAutoGain_bounded,
   fun p h => computeAutoGain_nan p (computeEqComp_nan p.eq h)⟩

/-- C1, counterexample to "a non-finite EQ gain yields exactly 1.0": with the low-shelf gain
`+inf` (the other fields as the constructor sets them) the EQ estimate is clamped to `2.0`, the
product is `1.8` and the compensation is `5/9`, not `1.0`. -/
theorem autoGain_infinite_gain_not_unity :
    FloatClassify.isfinite infiniteGainParams.eq.lowShelfGain = false ∧
      computeEqComp infiniteGainParams.eq = 2.0 ∧
      computeAutoGain infiniteGainParams = fin (5/9) ∧
      computeAutoGain infiniteGainParams ≠ 1.0 := by
  have h : computeAutoGain infiniteGainParams = fin (5/9) := by
    norm_num [computeAutoGain, computeEqComp, computeDynComp, computeSatComp, computeSpatialComp,
      infiniteGainParams, ToneEngine.new, jlimit, infTimes, fin_div_eq]
  refine ⟨rfl, ?_, h, ?_⟩
  · norm_num [computeEqComp, infiniteGainParams, ToneEngine.new, jlimit, infTimes, fin_div_eq]
  · rw [h, lit_eq]
    intro h2
    injection h2 with h3
    norm_num at h3

end AutoGain

/-! ## The scenario `character = 0.4, thump = 0.7, body = 0.5, shimmer = 0.2` in RHYTHM -/

theorem musicalCurve_scenario (M : CMath ℝ) :
    musicalCurve M (centreAround0 0.7) = M.tanh (15/34) := by
  norm_num [musicalCurve, centreAround0, fabs, jlimit, softSat]

/-- The value `tanh (15/34)` lies strictly between 0.41 and 0.42 (from the Taylor bounds of
`exp (15/17)`). -/
theorem tanh_15_34_bounds : (41/100 : ℝ) < Real.tanh (15/34) ∧ Real.tanh (15/34) < 42/100 := by
  have hlo : (2.39 : ℝ) < Real.exp (15/17) := by
    have := Real.sum_le_exp_of_nonneg (x := (15/17 : ℝ)) (by norm_num) 5
    refine lt_of_lt_of_le ?_ this
    norm_num [Finset.sum_range_succ, Nat.factorial]
  have hhi : Real.exp (15/17) < (2.44 : ℝ) := by
    have := Real.exp_bound' (x := (15/17 : ℝ)) (by norm_num) (by norm_num) (n := 5) (by norm_num)
    refine lt_of_le_of_lt this ?_
    norm_num [Finset.sum_range_succ, Nat.factorial]
  have hpos := Real.exp_pos (15/17 : ℝ)
  have ht : Real.tanh (15/34) = (Real.exp (15/17) - 1) / (Real.exp (15/17) + 1) := by
    rw [Real.tanh_eq_sinh_div_cosh, Real.sinh_eq, Real.cosh_eq]
    have h2 : Real.exp (15/17) = Real.exp (15/34) * Real.exp (15/34) := by
      rw [← Real.exp_add]; norm_num
    have hp := Real.exp_pos (15/34 : ℝ)
    rw [h2, Real.exp_neg]
    field_simp
  rw [ht]
  constructor
  · rw [lt_div_iff₀ (by linarith)]; linarith
  · rw [div_lt_iff₀ (by linarith)]; linarith

theorem mapEQ_lowCutFreq_rhythm (M : CMath ℝ) (character thump body shimmer : ℝ) :
    (mapEQ M character thump body shimmer .RHYTHM).lowCutFreq =
      40 + 100 * max 0 (musicalCurve M (2 * (thump - 0.5))) := by
  have hc : centreAround0 thump = 2 * (thump - 0.5) := by unfold centreAround0; ring
  simp only [mapEQ, jmap, fmax_eq_max, hc]
  norm_num

/-- With the real `tanh`, the scenario's low-cut frequency is `40 + 100 * tanh (15/34)`. -/
theorem mapEQ_lowCutFreq_value (M : CMath ℝ) (hM : M.tanh = Real.tanh) :
    (mapEQ M 0.4 0.7 0.5 0.2 .RHYTHM).lowCutFreq = 40 + 100 * Real.tanh (15/34) := by
  have hm : musicalCurve M (centreAround0 0.7) = Real.tanh (15/34) := by
    rw [musicalCurve_scenario, hM]
  have hl : (mapEQ M 0.4 0.7 0.5 0.2 .RHYTHM).lowCutFreq
      = 40 + 100 * max 0 (Real.tanh (15/34)) := by
    simp only [mapEQ, jmap, fmax_eq_max, hm]
    norm_num
  rw [hl, max_eq_right (by linarith [tanh_15_34_bounds.1])]

/-- C10 (as amended).  In RHYTHM mode `mapEQ` returns
`lowCutFreq = 40 + 100 * max (0, musicalCurve (2 * (thump - 0.5)))` for every input and every
`<cmath>`; with the real `tanh`, the scenario `thump = 0.7` (character 0.4, body 0.5, shimmer 0.2)
gives `lowCutFreq = 40 + 100 * tanh (15/34)`, about 81.5 Hz: strictly between 81 Hz and 82 Hz. -/
theorem mapEQ_lowCutFreq_scenario (M : CMath ℝ) :
    (∀ character thump body shimmer : ℝ,
      (mapEQ M character thump body shimmer .RHYTHM).lowCutFreq =
        40 + 100 * max 0 (musicalCurve M (2 * (thump - 0.5)))) ∧
    81 < (mapEQ { M with tanh := Real.tanh } 0.4 0.7 0.5 0.2 .RHYTHM).lowCutFreq ∧
    (mapEQ { M with tanh := Real.tanh } 0.4 0.7 0.5 0.2 .RHYTHM).lowCutFreq < 82 := by
  refine ⟨mapEQ_lowCutFreq_rhythm M, ?_⟩
  rw [mapEQ_lowCutFreq_value _ rfl]
  constructor <;> linarith [tanh_15_34_bounds.1, tanh_15_34_bounds.2]

/-- C10, counterexample: with the real `tanh` the scenario's `lowCutFreq` is not between 121 Hz
and 131 Hz (it is below 82 Hz). -/
theorem mapEQ_lowCutFreq_not_126 :
    ¬ (121 ≤ (mapEQ (CMath.mk Real.tanh Real.rpow Real.exp Real.sin Real.sqrt (Real.logb 10))
          0.4 0.7 0.5 0.2 .RHYTHM).lowCutFreq ∧
        (mapEQ (CMath.mk Real.tanh Real.rpow Real.exp Real.sin Real.sqrt (Real.logb 10))
          0.4 0.7 0.5 0.2 .RHYTHM).lowCutFreq ≤ 131) := by
  rw [mapEQ_lowCutFreq_value _ rfl]
  intro h
  linarith [h.1, tanh_15_34_bounds.2]

/-- The value `0.4 ^ 0.75` lies in `[0.35, 0.70)`: its fourth power is `0.4 ^ 3 = 0.064`. -/
theorem rpow_scenario : (0.35 : ℝ) ≤ Real.rpow 0.4 0.75 ∧ Real.rpow 0.4 0.75 < 0.70 := by
  have hx0 : 0 < Real.rpow 0.4 0.75 := Real.rpow_pos_of_pos (by norm_num) _
  have hx4 : (Real.rpow 0.4 0.75) ^ 4 = 0.064 := by
    show ((0.4 : ℝ) ^ (0.75 : ℝ)) ^ 4 = 0.064
    rw [← Real.rpow_natCast, ← Real.rpow_mul (by norm_num)]
    have : (0.75 : ℝ) * ((4 : ℕ) : ℝ) = ((3 : ℕ) : ℝ) := by norm_num
    rw [this, Real.rpow_natCast]
    norm_num
  constructor
  · by_contra h
    have h1 : Real.rpow 0.4 0.75 < 0.35 := not_le.mp h
    have := pow_lt_pow_left₀ h1 hx0.le (n := 4) (by norm_num)
    rw [hx4] at this
    norm_num at this
  · by_contra h
    have h1 : (0.70 : ℝ) ≤ Real.rpow 0.4 0.75 := not_lt.mp h
    have := pow_le_pow_left₀ (by norm_num) h1 4
    rw [hx4] at this
    norm_num at this

/-- C2 (the code at the failing input).  `ToneEngine::updateParameters` copies every field of the
EQ, dynamics and spatial groups and the drive, mix, tone and bias of the saturation group from the
mapper's results, but the saturation `type` keeps the value it had before the call.  On a freshly
constructed engine, `character = 0.4` in RHYTHM therefore publishes `Tape`, while
`ParameterMapper::mapSaturation` (with the real `pow`) returns `Tube`. -/
theorem updateParameters_keeps_saturation_type (M : CMath ℝ) :
    (∀ (self : ToneEngine ℝ) (character thump body shimmer spank space : ℝ) (mode : ToneMode),
      (self.updateParameters M character thump body shimmer spank space
          mode).currentParams.eq = mapEQ M character thump body shimmer mode ∧
      (self.updateParameters M character thump body shimmer spank space
          mode).currentParams.dynamics = mapDynamics M thump body shimmer spank mode ∧
      (self.updateParameters M character thump body shimmer spank space
          mode).currentParams.spatial = mapSpatial M body shimmer space mode ∧
      (self.updateParameters M character thump body shimmer spank space
          mode).currentParams.saturation =
        { mapSaturation M character body shimmer mode with
          type := self.currentParams.saturation.type }) ∧
    ((ToneEngine.new : ToneEngine ℝ).updateParameters { M with pow := Real.rpow }
        0.4 0.7 0.5 0.2 0.4 0.0 .RHYTHM).currentParams.saturation.type = SaturationType.Tape ∧
    (mapSaturation { M with pow := Real.rpow } 0.4 0.5 0.2 .RHYTHM).type
      = SaturationType.Tube := by
  refine ⟨fun _ _ _ _ _ _ _ _ => ⟨rfl, rfl, rfl, rfl⟩, rfl, ?_⟩
  have h := rpow_scenario
  have hc : jlimit (0.0 : ℝ) 1.0 0.4 = 0.4 := by norm_num [jlimit]
  simp only [mapSaturation, hc]
  rw [if_neg (not_lt.mpr h.1), if_pos h.2]

/-! ## Stage order (`ModeProcessor.cpp`) -/

section Stages

variable {F : Type} [Add F] [Sub F] [Mul F] [Div F] [Neg F] [LT F] [LE F]
  [@DecidableRel F (· < ·)] [@DecidableRel F (· ≤ ·)] [OfScientific F] [NatCast F]
  [FloatClassify F] {J : Juce F}

theorem eq_process_calls (self : EQProcessor J) (context : ProcessContext F) :
    (self.process context).2.calls = context.calls ++ [Stage.EQ] := by
  unfold EQProcessor.process
  dsimp only
  split_ifs <;> rfl

theorem dynamics_process_calls (M : CMath F) (self : DynamicsProcessor J)
    (context : ProcessContext F) :
    (self.process M context).2.calls = context.calls ++ [Stage.Dynamics] := by
  unfold DynamicsProcessor.process
  dsimp only
  split_ifs <;> rfl

theorem saturation_process_calls (M : CMath F) (self : SaturationProcessor J)
    (context : ProcessContext F) :
    (self.process M context).2.calls = context.calls ++ [Stage.Saturation] := by
  unfold SaturationProcessor.process
  dsimp only
  split
  · rfl
  · split_ifs <;> rfl

theorem spatial_process_calls (self : SpatialProcessor J) (ctx : ProcessContext F) :
    (self.process ctx).2.calls = ctx.calls ++ [Stage.Spatial] := by
  unfold SpatialProcessor.process
  dsimp only
  split_ifs <;> rfl

theorem chain_process_calls (M : CMath F) (self : ModeChain J) (context : ProcessContext F) :
    (self.process M context).2.calls = context.calls ++
      (match self.order with
        | .RHYTHM_ORDER => [Stage.EQ, Stage.Dynamics, Stage.Saturation, Stage.Spatial]
        | .LEAD_ORDER => [Stage.Saturation, Stage.EQ, Stage.Dynamics, Stage.Spatial]
        | .CLEAN_ORDER => [Stage.EQ, Stage.Saturation, Stage.Spatial, Stage.Dynamics]) := by
  unfold ModeChain.process
  cases h : self.order <;>
    simp [eq_process_calls, dynamics_process_calls, saturation_process_calls,
      spatial_process_calls]

theorem mode_process_calls (M : CMath F) (self : ModeProcessor J)
    (context : ProcessContext F) (params : EngineParameters F) :
    (self.process M context params).2.calls =
      (((self.getActiveChain).setParameters M params).process M context).2.calls := by
  unfold ModeProcessor.process
  dsimp only
  split_ifs <;> rfl

/-- C3.  After `ModeProcessor::prepare`, for every mode `m`, a `process` call made with
`setMode (m)` (1) enters the four stages exactly once each in the documented order (the call log
grows by exactly the documented list), (2) works on chain `m`, whose order tag is the one of `m`,
and (3) computes on that chain what running the documented list of stages from left to right
computes.  This holds for every behaviour of the DSP kernels and of `<cmath>`, every snapshot and
every block. -/
theorem process_runs_stages_in_documented_order (M : CMath F) (self : ModeProcessor J)
    (spec : ProcessSpec F) (m : ToneMode) (context : ProcessContext F)
    (params : EngineParameters F) :
    (((self.prepare M spec).setMode m).process M context params).2.calls =
        context.calls ++ specStageOrder m ∧
    ((self.prepare M spec).setMode m).getActiveChain =
        (match m with
          | .RHYTHM => (self.prepare M spec).rhythmChain
          | .LEAD => (self.prepare M spec).leadChain
          | .CLEAN => (self.prepare M spec).cleanChain) ∧
    ((self.prepare M spec).setMode m).getActiveChain.order =
        (match m with
          | .RHYTHM => ProcessingOrder.RHYTHM_ORDER
          | .LEAD => ProcessingOrder.LEAD_ORDER
          | .CLEAN => ProcessingOrder.CLEAN_ORDER) ∧
    ((((self.prepare M spec).setMode m).getActiveChain.setParameters M params).process M
        context) =
      runStages M (specStageOrder m)
        ((((self.prepare M spec).setMode m).getActiveChain.setParameters M params), context) := by
  refine ⟨?_, ?_, ?_, ?_⟩
  · rw [mode_process_calls, chain_process_calls]
    cases m <;> rfl
  · cases m <;> rfl
  · cases m <;> rfl
  · cases m <;> rfl

end Stages

/-! ## Bypass paths of the four stages -/

section Bypass

variable {K : Type} [LinearOrderedField K] {J : Juce K}

theorem isFlat_of_near_unity (p : EQParameters K)
    (h1 : |p.lowShelfGain - 1| < 0.001) (h2 : |p.mid1Gain - 1| < 0.001)
    (h3 : |p.mid2Gain - 1| < 0.001) (h4 : |p.highShelfGain - 1| < 0.001)
    (h5 : |p.airBandGain - 1| < 0.001) : EQProcessor.isFlat p = true := by
  have e : (1.0 : K) = 1 := by norm_num
  simp only [EQProcessor.isFlat, fabs_eq_abs, e, h1, h2, h3, h4, h5, decide_True, Bool.and_self]

/-- C4.  For every `EQParameters` whose five gains are each within 0.001 of 1.0 (whatever the
frequencies and Q values are), `EQProcessor::process` with those parameters set leaves every
sample of every channel unchanged and leaves the processor, filter histories included, exactly
as `setParameters` left it. -/
theorem eq_process_flat_is_identity (self : EQProcessor J) (p : EQParameters K)
    (context : ProcessContext K)
    (h1 : |p.lowShelfGain - 1| < 0.001) (h2 : |p.mid1Gain - 1| < 0.001)
    (h3 : |p.mid2Gain - 1| < 0.001) (h4 : |p.highShelfGain - 1| < 0.001)
    (h5 : |p.airBandGain - 1| < 0.001) :
    ((self.setParameters p).process context).2.block = context.block ∧
      ((self.setParameters p).process context).1 = self.setParameters p := by
  have hf : EQProcessor.isFlat (self.setParameters p).currentParams = true :=
    isFlat_of_near_unity p h1 h2 h3 h4 h5
  unfold EQProcessor.process
  simp only [hf, if_true, and_self]

/-- C4, witness: a prepared EQ on the halving kernels, with the five gains of a fresh snapshot
(all 1.0), leaves the stereo test block and its own state unchanged. -/
theorem eq_process_flat_is_identity_witness :
    (|freshParams.eq.lowShelfGain - 1| < 0.001 ∧ |freshParams.eq.airBandGain - 1| < 0.001) ∧
    ((((EQProcessor.new halvingJuce testSpec).prepare testSpec).setParameters
        freshParams.eq).process testContext).2.block = [[1, 2], [3, 4]] ∧
    ((((EQProcessor.new halvingJuce testSpec).prepare testSpec).setParameters
        freshParams.eq).process testContext).1 =
      ((EQProcessor.new halvingJuce testSpec).prepare testSpec).setParameters freshParams.eq :=
  ⟨⟨by norm_num [freshParams, ToneEngine.new], by norm_num [freshParams, ToneEngine.new]⟩,
    eq_process_flat_is_identity _ _ testContext
      (by norm_num [freshParams, ToneEngine.new]) (by norm_num [freshParams, ToneEngine.new])
      (by norm_num [freshParams, ToneEngine.new]) (by norm_num [freshParams, ToneEngine.new])
      (by norm_num [freshParams, ToneEngine.new])⟩

theorem isBypassed_of (p : DynamicsParameters K)
    (h1 : |p.compRatio - 1| < 0.01) (h2 : 0 < p.compThreshold)
    (h3 : |p.transientAttack| < 0.001) (h4 : |p.transientSustain| < 0.001) :
    DynamicsProcessor.isBypassed p = true := by
  have e : (1.0 : K) = 1 := by norm_num
  have e0 : (0.0 : K) = 0 := by norm_num
  simp only [DynamicsProcessor.isBypassed, fabs_eq_abs, e, e0, h1, h2, h3, h4, decide_True,
    Bool.and_self]

/-- C5.  For every `DynamicsParameters` with `|compRatio - 1| < 0.01`, `compThreshold > 0`,
`|transientAttack| < 0.001` and `|transientSustain| < 0.001` (whatever the makeup gain and the
de-esser settings are), `DynamicsProcessor::process` with those parameters set leaves every
sample of every channel unchanged, and the processor as `setParameters` left it; prepared or
not. -/
theorem dynamics_process_bypassed_is_identity (M : CMath K) (self : DynamicsProcessor J)
    (p : DynamicsParameters K) (context : ProcessContext K)
    (h1 : |p.compRatio - 1| < 0.01) (h2 : 0 < p.compThreshold)
    (h3 : |p.transientAttack| < 0.001) (h4 : |p.transientSustain| < 0.001) :
    ((self.setParameters M p).process M context).2.block = context.block ∧
      ((self.setParameters M p).process M context).1 = self.setParameters M p := by
  have hb : DynamicsProcessor.isBypassed (self.setParameters M p).params = true :=
    isBypassed_of p h1 h2 h3 h4
  unfold DynamicsProcessor.process
  simp only [hb, if_true]
  split_ifs <;> exact ⟨rfl, rfl⟩

/-- C5, witness: a prepared dynamics stage on the halving kernels with ratio 1, threshold +3 dB,
no transient shaping, 6 dB of makeup gain and a de-esser ratio of 4 leaves the stereo test block
unchanged. -/
theorem dynamics_process_bypassed_is_identity_witness :
    (|bypassDynamics.compRatio - 1| < 0.01 ∧ 0 < bypassDynamics.compThreshold) ∧
    ((((DynamicsProcessor.new halvingJuce).prepare ratMath testSpec).setParameters ratMath
        bypassDynamics).process ratMath testContext).2.block = [[1, 2], [3, 4]] ∧
    ((((DynamicsProcessor.new halvingJuce).prepare ratMath testSpec).setParameters ratMath
        bypassDynamics).process ratMath testContext).1 =
      ((DynamicsProcessor.new halvingJuce).prepare ratMath testSpec).setParameters ratMath
        bypassDynamics :=
  ⟨⟨by norm_num [bypassDynamics, freshParams, ToneEngine.new],
      by norm_num [bypassDynamics]⟩,
    dynamics_process_bypassed_is_identity ratMath _ _ testContext
      (by norm_num [bypassDynamics, freshParams, ToneEngine.new])
      (by norm_num [bypassDynamics])
      (by norm_num [bypassDynamics, freshParams, ToneEngine.new])
      (by norm_num [bypassDynamics, freshParams, ToneEngine.new])⟩

/-- C6.  For every `SaturationParameters` with `drive <= 0.0001` or `mix <= 0.0001` (in
particular `drive <= 0` or `mix <= 0`), whatever type, tone and bias are,
`SaturationProcessor::process` with those parameters set leaves every sample of every channel
unchanged, and the processor as `setParameters` left it. -/
theorem saturation_process_bypassed_is_identity (M : CMath K) (self : SaturationProcessor J)
    (p : SaturationParameters K) (context : ProcessContext K)
    (h : p.drive ≤ 0.0001 ∨ p.mix ≤ 0.0001) :
    ((self.setParameters M p).process M context).2.block = context.block ∧
      ((self.setParameters M p).process M context).1 = self.setParameters M p := by
  have hp : (self.setParameters M p).params = p := by
    unfold SaturationProcessor.setParameters
    dsimp only
    split_ifs <;> rfl
  have hc : (self.setParameters M p).params.mix ≤ 0.0001 ∨
      (self.setParameters M p).params.drive ≤ 0.0001 := by
    rw [hp]; exact h.symm
  unfold SaturationProcessor.process
  dsimp only
  split
  · exact ⟨rfl, rfl⟩
  · rw [if_pos hc]
    exact ⟨rfl, rfl⟩

/-- C6, witness: a prepared saturation stage on the halving kernels with drive 0.5 and mix 0
(the values of a fresh snapshot) leaves the stereo test block unchanged. -/
theorem saturation_process_bypassed_is_identity_witness :
    (freshParams.saturation.drive ≤ 0.0001 ∨ freshParams.saturation.mix ≤ 0.0001) ∧
    ((((SaturationProcessor.new halvingJuce).prepare ratMath testSpec).setParameters ratMath
        freshParams.saturation).process ratMath testContext).2.block = [[1, 2], [3, 4]] ∧
    ((((SaturationProcessor.new halvingJuce).prepare ratMath testSpec).setParameters ratMath
        freshParams.saturation).process ratMath testContext).1 =
      ((SaturationProcessor.new halvingJuce).prepare ratMath testSpec).setParameters ratMath
        freshParams.saturation :=
  ⟨Or.inr (by norm_num [freshParams, ToneEngine.new]),
    saturation_process_bypassed_is_identity ratMath _ _ testContext
      (Or.inr (by norm_num [freshParams, ToneEngine.new]))⟩

theorem allDry_of (p : SpatialParameters K)
    (hr : p.reverbMix = 0) (hd : p.delayMix = 0) (hc : p.chorusMix = 0)
    (hw : p.stereoWidth = 1) : SpatialProcessor.allDry p = true := by
  simp only [SpatialProcessor.allDry, fabs_eq_abs, hr, hd, hc, hw]
  norm_num

/-- C7.  For every `SpatialParameters` with `reverbMix = delayMix = chorusMix = 0` and
`stereoWidth = 1`, `SpatialProcessor::process` with those parameters set leaves every sample of
every channel unchanged and leaves the processor, both delay lines included, exactly as
`setParameters` left it. -/
theorem spatial_process_allDry_is_identity (self : SpatialProcessor J) (p : SpatialParameters K)
    (ctx : ProcessContext K)
    (hr : p.reverbMix = 0) (hd : p.delayMix = 0) (hc : p.chorusMix = 0)
    (hw : p.stereoWidth = 1) :
    ((self.setParameters p).process ctx).2.block = ctx.block ∧
      ((self.setParameters p).process ctx).1 = self.setParameters p ∧
      ((self.setParameters p).process ctx).1.delayL = (self.setParameters p).delayL ∧
      ((self.setParameters p).process ctx).1.delayR = (self.setParameters p).delayR := by
  have ha : SpatialProcessor.allDry (self.setParameters p).params = true :=
    allDry_of p hr hd hc hw
  unfold SpatialProcessor.process
  simp only [ha, if_true, and_self]

/-- C7, witness: a prepared spatial stage on the halving kernels with the spatial values of a
fresh snapshot (all mixes 0, width 1) leaves the stereo test block unchanged. -/
theorem spatial_process_allDry_is_identity_witness :
    (freshParams.spatial.reverbMix = 0 ∧ freshParams.spatial.stereoWidth = 1) ∧
    ((((SpatialProcessor.new halvingJuce).prepare testSpec).setParameters
        freshParams.spatial).process testContext).2.block = [[1, 2], [3, 4]] :=
  ⟨⟨by norm_num [freshParams, ToneEngine.new], by norm_num [freshParams, ToneEngine.new]⟩,
    (spatial_process_allDry_is_identity _ _ testContext
      (by norm_num [freshParams, ToneEngine.new]) (by norm_num [freshParams, ToneEngine.new])
      (by norm_num [freshParams, ToneEngine.new]) (by norm_num [freshParams, ToneEngine.new])).1⟩

/-! ## Stereo width (`SpatialProcessor::applyStereoWidth`) -/

theorem stereoWidthSample_one (l r : K) :
    stereoWidthSample 1 l r = (1.41421356 * l, 1.41421356 * r) := by
  unfold stereoWidthSample
  simp only [Prod.mk.injEq]
  constructor <;> norm_num <;> ring

theorem stereoWidthSample_zero (l r : K) :
    stereoWidthSample 0 l r = (0.70710678 * (l + r), 0.70710678 * (l + r)) := by
  unfold stereoWidthSample
  simp

/-- C8 (the code at the failing input).  At width 1 the loop body of `applyStereoWidth` returns
`L' = 1.41421356 * L` and `R' = 1.41421356 * R` for every pair of samples: `M + S` is
`0.70710678 * 2 * L`, there is no second `0.70710678` on the way back.  On the block `L = [1]`,
`R = [1]` the result is `[1.41421356]`, `[1.41421356]`, not the input. -/
theorem applyStereoWidth_unity_width_scales :
    (∀ l r : ℚ, stereoWidthSample 1 l r = (1.41421356 * l, 1.41421356 * r)) ∧
    applyStereoWidth ([[1], [1]] : AudioBlock ℚ) 1 = [[1.41421356], [1.41421356]] ∧
    applyStereoWidth ([[1], [1]] : AudioBlock ℚ) 1 ≠ [[1], [1]] := by
  have h : applyStereoWidth ([[1], [1]] : AudioBlock ℚ) 1 = [[1.41421356], [1.41421356]] := by
    simp [applyStereoWidth, stereoWidthSample_one]
  refine ⟨stereoWidthSample_one, h, ?_⟩
  rw [h]
  norm_num

/-- C9.  At width 0 the loop body of `applyStereoWidth` returns `L' = R' = M` with
`M = 0.70710678 * (L + R)` for every pair of samples; on a block of at least two channels,
channels 0 and 1 both become the list of these `M` and the other channels are untouched; and on
a block with fewer than two channels `applyStereoWidth` changes nothing, whatever the width. -/
theorem applyStereoWidth_zero_width_collapses :
    (∀ l r : K, stereoWidthSample 0 l r = (0.70710678 * (l + r), 0.70710678 * (l + r))) ∧
    (∀ (L R : List K) (rest : List (List K)),
      applyStereoWidth (L :: R :: rest) 0 =
        List.zipWith (fun l r => 0.70710678 * (l + r)) L R ::
          List.zipWith (fun l r => 0.70710678 * (l + r)) L R :: rest) ∧
    (∀ (block : AudioBlock K) (width : K),
      AudioBlock.getNumChannels block < 2 → applyStereoWidth block width = block) := by
  refine ⟨stereoWidthSample_zero, ?_, ?_⟩
  · intro L R rest
    simp [applyStereoWidth, stereoWidthSample_zero]
  · intro block width h
    match block, h with
    | [], _ => rfl
    | [_], _ => rfl
    | _ :: _ :: _, h => simp [AudioBlock.getNumChannels] at h; omega

end Bypass

/-! ## Ranges of the mapped parameters (`ParameterMapper.cpp`) -/

section MapperBounds

variable {K : Type} [LinearOrderedField K]

theorem jlimit_mem (lo hi v : K) (h : lo ≤ hi) : lo ≤ jlimit lo hi v ∧ jlimit lo hi v ≤ hi := by
  unfold jlimit
  split_ifs with h1 h2
  · exact ⟨le_refl _, h⟩
  · exact ⟨h, le_refl _⟩
  · exact ⟨not_lt.mp h1, not_lt.mp h2⟩

theorem jmap_unit (v a b : K) : jmap v 0.0 1.0 a b = a + v * (b - a) := by
  unfold jmap
  norm_num
  ring

/-- C18.  For every macro input (any character, body and shimmer of an ordered field, also
outside `[0, 1]`), every mode and every `<cmath>`, `mapSaturation` returns drive, mix and tone in
`[0, 1]` and bias in `[-0.25, 0.25]`. -/
theorem mapSaturation_ranges (M : CMath K) (character body shimmer : K) (mode : ToneMode) :
    (0 ≤ (mapSaturation M character body shimmer mode).drive ∧
      (mapSaturation M character body shimmer mode).drive ≤ 1) ∧
    (0 ≤ (mapSaturation M character body shimmer mode).mix ∧
      (mapSaturation M character body shimmer mode).mix ≤ 1) ∧
    (0 ≤ (mapSaturation M character body shimmer mode).tone ∧
      (mapSaturation M character body shimmer mode).tone ≤ 1) ∧
    (-0.25 ≤ (mapSaturation M character body shimmer mode).bias ∧
      (mapSaturation M character body shimmer mode).bias ≤ 0.25) := by
  have e0 : (0.0 : K) = 0 := by norm_num
  have e1 : (1.0 : K) = 1 := by norm_num
  have h01 : ∀ v : K, 0 ≤ jlimit 0.0 1.0 v ∧ jlimit 0.0 1.0 v ≤ 1 := by
    intro v
    have := jlimit_mem (0.0 : K) 1.0 v (by norm_num)
    rwa [e0, e1] at this ⊢
  have hb : ∀ v : K, -0.25 ≤ jlimit (-0.25) 0.25 v ∧ jlimit (-0.25) 0.25 v ≤ 0.25 :=
    fun v => jlimit_mem _ _ v (by norm_num)
  simp only [mapSaturation]
  refine ⟨?_, ?_, h01 _, hb _⟩
  · split_ifs <;> first | exact h01 _ | (rw [e0]; exact ⟨le_refl _, zero_le_one⟩)
  · split_ifs <;> first | exact h01 _ | (rw [e0]; exact ⟨le_refl _, zero_le_one⟩)

/-! ### `mapSpatial`, mode by mode -/

theorem mapSpatial_rhythm (M : CMath K) (body shimmer space : K) :
    mapSpatial M body shimmer space .RHYTHM =
      { reverbSize := jmap (jlimit 0.0 1.0 space) 0.0 1.0 0.10 0.50
        reverbDamping := jlimit 0.0 1.0 (0.55 + (-musicalCurve M (centreAround0 body)) * 0.25)
        reverbWidth := 1.0
        reverbMix := jlimit 0.0 1.0 space * 0.35
        stereoWidth := jmap (jlimit 0.0 1.0 space) 0.0 1.0 1.0 1.10
        delayTimeLeft := 260.0 + jlimit 0.0 1.0 space * 140.0
        delayTimeRight := (260.0 + jlimit 0.0 1.0 space * 140.0) * 1.5
        delayFeedback := jmap (jlimit 0.0 1.0 space) 0.0 1.0 0.15 0.45
        delayMix := jlimit 0.0 0.25 (0.25 * jlimit 0.0 1.0 space * 0.6)
        chorusRate := jmap (jlimit 0.0 1.0 space) 0.0 1.0 0.1 0.9
        chorusDepth := jmap (jlimit 0.0 1.0 space) 0.0 1.0 0.2 0.5
        chorusMix := 0.25 * jlimit 0.0 1.0 space } := rfl

theorem mapSpatial_lead (M : CMath K) (body shimmer space : K) :
    mapSpatial M body shimmer space .LEAD =
      { reverbSize := jmap (jlimit 0.0 1.0 space) 0.0 1.0 0.25 0.80
        reverbDamping := jlimit 0.0 1.0 (0.55 + (-musicalCurve M (centreAround0 body)) * 0.25)
        reverbWidth := 1.0
        reverbMix := jlimit 0.0 1.0 space * 0.40
        stereoWidth := jmap (jlimit 0.0 1.0 space) 0.0 1.0 1.0 1.25
        delayTimeLeft := 280.0 + jlimit 0.0 1.0 space * 180.0
        delayTimeRight := (280.0 + jlimit 0.0 1.0 space * 180.0) * 1.5
        delayFeedback := jmap (jlimit 0.0 1.0 space) 0.0 1.0 0.20 0.55
        delayMix := jlimit 0.0 0.30 (0.30 * jlimit 0.0 1.0 space * 0.8)
        chorusRate := jmap (jlimit 0.0 1.0 space) 0.0 1.0 0.1 1.0
        chorusDepth := jmap (jlimit 0.0 1.0 space) 0.0 1.0 0.2 0.6
        chorusMix := 0.35 * jlimit 0.0 1.0 space } := rfl

theorem mapSpatial_clean (M : CMath K) (body shimmer space : K) :
    mapSpatial M body shimmer space .CLEAN =
      { reverbSize := jmap (jlimit 0.0 1.0 space) 0.0 1.0 0.40 1.00
        reverbDamping := jlimit 0.0 1.0 (0.55 + (-musicalCurve M (centreAround0 body)) * 0.25)
        reverbWidth := 1.0
        reverbMix := jlimit 0.0 1.0 space * 0.65
        stereoWidth := jmap (jlimit 0.0 1.0 space) 0.0 1.0 1.0 1.40
        delayTimeLeft := 300.0 + jlimit 0.0 1.0 space * 200.0
        delayTimeRight := (300.0 + jlimit 0.0 1.0 space * 200.0) * 1.5
        delayFeedback := jmap (jlimit 0.0 1.0 space) 0.0 1.0 0.20 0.60
        delayMix := jlimit 0.0 0.40 (0.40 * jlimit 0.0 1.0 space * 0.7)
        chorusRate := jmap (jlimit 0.0 1.0 space) 0.0 1.0 0.1 1.2
        chorusDepth := jmap (jlimit 0.0 1.0 space) 0.0 1.0 0.2 0.7
        chorusMix := 0.50 * jlimit 0.0 1.0 space } := rfl

/-- C13.  For every mode (and every body, shimmer, space and `<cmath>`), `mapSpatial` returns
`reverbMix = clamp (space, 0, 1) * maxRevMix (mode)` and
`reverbSize = sizeMin + clamp (space, 0, 1) * (sizeMax - sizeMin)` with the mode's table values
(0.35, 0.40, 0.65 for the mix; 0.10..0.50, 0.25..0.80, 0.40..1.00 for the size); `space = 1.0` in
CLEAN gives `reverbMix = 0.65` and `reverbSize = 1.0`, and `space = 0` gives `reverbMix = 0` in
every mode. -/
theorem mapSpatial_reverb_mix_and_size (M : CMath K) (body shimmer : K) :
    (∀ (space : K) (mode : ToneMode),
      (mapSpatial M body shimmer space mode).reverbMix =
          max 0 (min 1 space) *
            (match mode with
              | .RHYTHM => 0.35
              | .LEAD => 0.40
              | .CLEAN => 0.65) ∧
      (mapSpatial M body shimmer space mode).reverbSize =
          (match mode with
              | .RHYTHM => (0.10 : K)
              | .LEAD => 0.25
              | .CLEAN => 0.40) +
            max 0 (min 1 space) *
              ((match mode with
                | .RHYTHM => (0.50 : K)
                | .LEAD => 0.80
                | .CLEAN => 1.00) -
               (match mode with
                | .RHYTHM => (0.10 : K)
                | .LEAD => 0.25
                | .CLEAN => 0.40))) ∧
    (mapSpatial M body shimmer 1.0 .CLEAN).reverbMix = 0.65 ∧
    (mapSpatial M body shimmer 1.0 .CLEAN).reverbSize = 1.0 ∧
    (∀ mode : ToneMode, (mapSpatial M body shimmer 0 mode).reverbMix = 0) := by
  have hc : ∀ space : K, jlimit (0.0 : K) 1.0 space = max 0 (min 1 space) := by
    intro space
    rw [jlimit_eq _ _ _ (by norm_num)]; norm_num
  refine ⟨?_, ?_, ?_, ?_⟩
  · intro space mode
    cases mode <;>
      simp only [mapSpatial_rhythm, mapSpatial_lead, mapSpatial_clean, jmap_unit, hc] <;>
      exact ⟨trivial, trivial⟩
  · simp only [mapSpatial_clean, hc]; norm_num
  · simp only [mapSpatial_clean, jmap_unit, hc]; norm_num
  · intro mode
    cases mode <;>
      simp only [mapSpatial_rhythm, mapSpatial_lead, mapSpatial_clean, hc] <;> norm_num

/-- C19.  For every macro input (any body, shimmer and space of an ordered field), every mode
and every `<cmath>`, `mapSpatial` returns reverbSize, reverbDamping, reverbWidth and reverbMix in
`[0, 1]`, stereoWidth in `[0, 2]`, delayFeedback in `[0, 0.99]`, delayMix in `[0, 1]`, chorusRate
in `[0.01, 5]`, chorusDepth in `[0, 1]` and chorusMix in `[0, 1]`. -/
theorem mapSpatial_ranges (M : CMath K) (body shimmer space : K) (mode : ToneMode) :
    (0 ≤ (mapSpatial M body shimmer space mode).reverbSize ∧
      (mapSpatial M body shimmer space mode).reverbSize ≤ 1) ∧
    (0 ≤ (mapSpatial M body shimmer space mode).reverbDamping ∧
      (mapSpatial M body shimmer space mode).reverbDamping ≤ 1) ∧
    (0 ≤ (mapSpatial M body shimmer space mode).reverbWidth ∧
      (mapSpatial M body shimmer space mode).reverbWidth ≤ 1) ∧
    (0 ≤ (mapSpatial M body shimmer space mode).reverbMix ∧
      (mapSpatial M body shimmer space mode).reverbMix ≤ 1) ∧
    (0 ≤ (mapSpatial M body shimmer space mode).stereoWidth ∧
      (mapSpatial M body shimmer space mode).stereoWidth ≤ 2) ∧
    (0 ≤ (mapSpatial M body shimmer space mode).delayFeedback ∧
      (mapSpatial M body shimmer space mode).delayFeedback ≤ 0.99) ∧
    (0 ≤ (mapSpatial M body shimmer space mode).delayMix ∧
      (mapSpatial M body shimmer space mode).delayMix ≤ 1) ∧
    (0.01 ≤ (mapSpatial M body shimmer space mode).chorusRate ∧
      (mapSpatial M body shimmer space mode).chorusRate ≤ 5) ∧
    (0 ≤ (mapSpatial M body shimmer space mode).chorusDepth ∧
      (mapSpatial M body shimmer space mode).chorusDepth ≤ 1) ∧
    (0 ≤ (mapSpatial M body shimmer space mode).chorusMix ∧
      (mapSpatial M body shimmer space mode).chorusMix ≤ 1) := by
  have hs := jlimit_mem (0.0 : K) 1.0 space (by norm_num)
  norm_num at hs
  obtain ⟨hs0, hs1⟩ := hs
  cases mode <;>
    simp only [mapSpatial_rhythm, mapSpatial_lead, mapSpatial_clean, jmap_unit] <;>
    refine ⟨⟨?_, ?_⟩,
      ⟨le_trans (by norm_num) (jlimit_mem _ _ _ (by norm_num)).1,
        le_trans (jlimit_mem _ _ _ (by norm_num)).2 (by norm_num)⟩,
      ⟨?_, ?_⟩, ⟨?_, ?_⟩, ⟨?_, ?_⟩, ⟨?_, ?_⟩,
      ⟨le_trans (by norm_num) (jlimit_mem _ _ _ (by norm_num)).1,
        le_trans (jlimit_mem _ _ _ (by norm_num)).2 (by norm_num)⟩,
      ⟨?_, ?_⟩, ⟨?_, ?_⟩, ⟨?_, ?_⟩⟩ <;>
    norm_num <;>
    linarith

end MapperBounds

/-! ## Frame of `setMode` and `process`, and the global auto-gain (`ModeProcessor.cpp`) -/

section Frame

variable {F : Type} [Add F] [Sub F] [Mul F] [Div F] [Neg F] [LT F] [LE F]
  [@DecidableRel F (· < ·)] [@DecidableRel F (· ≤ ·)] [OfScientific F] [NatCast F]
  [FloatClassify F] {J : Juce F}

theorem eq_process_of_flat (self : EQProcessor J) (context : ProcessContext F)
    (h : EQProcessor.isFlat self.currentParams = true) :
    (self.process context).2.block = context.block ∧ (self.process context).1 = self := by
  unfold EQProcessor.process
  simp only [h, if_true, and_self]

theorem dynamics_process_of_bypassed (M : CMath F) (self : DynamicsProcessor J)
    (context : ProcessContext F)
    (h : self.isPrepared = false ∨ DynamicsProcessor.isBypassed self.params = true) :
    (self.process M context).2.block = context.block ∧ (self.process M context).1 = self := by
  unfold DynamicsProcessor.process
  dsimp only
  rcases h with h | h
  · simp only [h, Bool.not_false, if_true, and_self]
  · simp only [h, if_true]
    split_ifs <;> exact ⟨rfl, rfl⟩

theorem saturation_process_of_bypassed (M : CMath F) (self : SaturationProcessor J)
    (context : ProcessContext F)
    (h : self.oversampler = none ∨ self.params.mix ≤ 0.0001 ∨ self.params.drive ≤ 0.0001) :
    (self.process M context).2.block = context.block ∧ (self.process M context).1 = self := by
  unfold SaturationProcessor.process
  dsimp only
  split
  · exact ⟨rfl, rfl⟩
  · rename_i os hos
    rcases h with h | h
    · rw [h] at hos; cases hos
    · rw [if_pos h]
      exact ⟨rfl, rfl⟩

theorem spatial_process_of_allDry (self : SpatialProcessor J) (ctx : ProcessContext F)
    (h : SpatialProcessor.allDry self.params = true) :
    (self.process ctx).2.block = ctx.block ∧ (self.process ctx).1 = self := by
  unfold SpatialProcessor.process
  simp only [h, if_true, and_self]

/-- A chain whose four stages all take their early return leaves the block unchanged. -/
theorem chain_process_of_all_bypassed (M : CMath F) (self : ModeChain J)
    (context : ProcessContext F)
    (he : EQProcessor.isFlat self.eq.currentParams = true)
    (hd : self.dynamics.isPrepared = false ∨
      DynamicsProcessor.isBypassed self.dynamics.params = true)
    (hs : self.saturation.oversampler = none ∨ self.saturation.params.mix ≤ 0.0001 ∨
      self.saturation.params.drive ≤ 0.0001)
    (hp : SpatialProcessor.allDry self.spatial.params = true) :
    (self.process M context).2.block = context.block := by
  unfold ModeChain.process
  cases self.order <;> dsimp only <;>
    simp only [(eq_process_of_flat self.eq _ he).1,
      (dynamics_process_of_bypassed M self.dynamics _ hd).1,
      (saturation_process_of_bypassed M self.saturation _ hs).1,
      (spatial_process_of_allDry self.spatial _ hp).1]

theorem setParameters_eq_params (M : CMath F) (self : ModeChain J) (p : EngineParameters F) :
    (self.setParameters M p).eq.currentParams = p.eq ∧
    (self.setParameters M p).dynamics.params = p.dynamics ∧
    (self.setParameters M p).dynamics.isPrepared = self.dynamics.isPrepared ∧
    (self.setParameters M p).saturation.params = p.saturation ∧
    (self.setParameters M p).saturation.oversampler = self.saturation.oversampler ∧
    (self.setParameters M p).spatial.params = p.spatial ∧
    (self.setParameters M p).order = self.order := by
  refine ⟨rfl, rfl, rfl, ?_, ?_, rfl, rfl⟩
  · unfold ModeChain.setParameters SaturationProcessor.setParameters
    dsimp only
    split_ifs <;> rfl
  · unfold ModeChain.setParameters SaturationProcessor.setParameters
    dsimp only
    split_ifs <;> rfl

theorem chain_process_order (M : CMath F) (self : ModeChain J) (context : ProcessContext F) :
    (self.process M context).1.order = self.order := by
  unfold ModeChain.process
  cases h : self.order <;> simp [h]

/-- C16.  `ModeProcessor::setMode` sets the selected mode and leaves the three chains exactly
as they were; a `process` call made while mode `m` is selected keeps the selected mode, leaves
the two chains other than chain `m` exactly as they were, and leaves in chain `m` what
`setParameters` followed by the chain's `process` make of it.  For every behaviour of the DSP
kernels and of `<cmath>`. -/
theorem setMode_and_process_frame (M : CMath F) (self : ModeProcessor J) (m : ToneMode)
    (context : ProcessContext F) (params : EngineParameters F) :
    ((self.setMode m).currentMode = m ∧
      (self.setMode m).rhythmChain = self.rhythmChain ∧
      (self.setMode m).leadChain = self.leadChain ∧
      (self.setMode m).cleanChain = self.cleanChain) ∧
    (((self.setMode m).process M context params).1.currentMode = m ∧
      (m ≠ .RHYTHM →
        ((self.setMode m).process M context params).1.rhythmChain = self.rhythmChain) ∧
      (m ≠ .LEAD →
        ((self.setMode m).process M context params).1.leadChain = self.leadChain) ∧
      (m ≠ .CLEAN →
        ((self.setMode m).process M context params).1.cleanChain = self.cleanChain)) ∧
    ((self.setMode m).process M context params).1.getActiveChain =
      (((self.setMode m).getActiveChain.setParameters M params).process M context).1 := by
  refine ⟨⟨rfl, rfl, rfl, rfl⟩, ?_, ?_⟩
  · cases m <;> simp [ModeProcessor.process, ModeProcessor.setMode, ModeProcessor.setActiveChain]
  · cases m <;> rfl

end Frame

section AutoGainApplied

variable {K : Type} [LinearOrderedField K] {J : Juce K}

/-- The buffer `ModeProcessor::process` leaves, in terms of the selected chain's output. -/
theorem process_block_eq (M : CMath K) (self : ModeProcessor J) (context : ProcessContext K)
    (params : EngineParameters K) :
    (self.process M context params).2.block =
      if (0.0001 : K) < |params.outputAutoGain - 1| then
        (((self.getActiveChain).setParameters M params).process M context).2.block.map
          (fun ch => ch.map (fun x => x * params.outputAutoGain))
      else (((self.getActiveChain).setParameters M params).process M context).2.block := by
  have e : (1.0 : K) = 1 := by norm_num
  unfold ModeProcessor.process
  dsimp only
  rw [fabs_eq_abs, e]
  split_ifs <;> rfl

/-- C14 (as amended).  For every snapshot and every block, the buffer left by
`ModeProcessor::process` equals the output of the selected chain with every sample of every
channel multiplied by the snapshot's `outputAutoGain` when `|outputAutoGain - 1| > 0.0001`; when
`|outputAutoGain - 1| <= 0.0001` the multiplication is skipped and the buffer is the output of
the selected chain itself. -/
theorem process_applies_autoGain_outside_guard (M : CMath K) (self : ModeProcessor J)
    (context : ProcessContext K) (params : EngineParameters K) :
    (0.0001 < |params.outputAutoGain - 1| →
      (self.process M context params).2.block =
        (((self.getActiveChain).setParameters M params).process M context).2.block.map
          (fun ch => ch.map (fun x => x * params.outputAutoGain))) ∧
    (|params.outputAutoGain - 1| ≤ 0.0001 →
      (self.process M context params).2.block =
        (((self.getActiveChain).setParameters M params).process M context).2.block) := by
  rw [process_block_eq]
  constructor
  · intro h; rw [if_pos h]
  · intro h; rw [if_neg (not_lt.mpr h)]

/-- Before `prepare`, with a flat EQ and dry spatial parameters, the selected chain of a freshly
constructed `ModeProcessor` leaves the block unchanged. -/
theorem fresh_chain_all_bypassed (M : CMath K) (p : EngineParameters K) (uninit : ProcessSpec K)
    (context : ProcessContext K)
    (he : EQProcessor.isFlat p.eq = true) (hp : SpatialProcessor.allDry p.spatial = true) :
    ((((ModeProcessor.new J uninit).getActiveChain).setParameters M p).process M context).2.block
      = context.block := by
  apply chain_process_of_all_bypassed
  · exact he
  · left; rfl
  · left
    rw [(setParameters_eq_params M _ p).2.2.2.2.1]
    rfl
  · exact hp

end AutoGainApplied

/-- C14, counterexample: with `outputAutoGain = 1.00005` (all four stages bypassed, prepared
processor on the halving kernels) the buffer left by `process` is the chain's output
`[[1, 2], [3, 4]]`, not that output multiplied by `1.00005`. -/
theorem process_skips_near_unity_autoGain :
    (((ModeProcessor.new halvingJuce testSpec).prepare ratMath testSpec).process ratMath
        testContext nearUnityGainParams).2.block = [[1, 2], [3, 4]] ∧
    (((((ModeProcessor.new halvingJuce testSpec).prepare ratMath testSpec).getActiveChain
        ).setParameters ratMath nearUnityGainParams).process ratMath testContext).2.block
      = [[1, 2], [3, 4]] ∧
    nearUnityGainParams.outputAutoGain = 1.00005 ∧
    (((ModeProcessor.new halvingJuce testSpec).prepare ratMath testSpec).process ratMath
        testContext nearUnityGainParams).2.block ≠
      (((((ModeProcessor.new halvingJuce testSpec).prepare ratMath testSpec).getActiveChain
        ).setParameters ratMath nearUnityGainParams).process ratMath testContext).2.block.map
        (fun ch => ch.map (fun x => x * nearUnityGainParams.outputAutoGain)) := by
  have hchain : (((((ModeProcessor.new halvingJuce testSpec).prepare ratMath testSpec
        ).getActiveChain).setParameters ratMath nearUnityGainParams).process ratMath
        testContext).2.block = [[1, 2], [3, 4]] := by
    apply chain_process_of_all_bypassed
    · rw [(setParameters_eq_params ratMath _ _).1]
      norm_num [EQProcessor.isFlat, nearUnityGainParams, freshParams, ToneEngine.new, fabs]
    · right
      rw [(setParameters_eq_params ratMath _ _).2.1]
      norm_num [DynamicsProcessor.isBypassed, nearUnityGainParams, bypassDynamics, freshParams,
        ToneEngine.new, fabs]
    · right; left
      rw [(setParameters_eq_params ratMath _ _).2.2.2.1]
      norm_num [nearUnityGainParams, freshParams, ToneEngine.new]
    · rw [(setParameters_eq_params ratMath _ _).2.2.2.2.2.1]
      norm_num [SpatialProcessor.allDry, nearUnityGainParams, freshParams, ToneEngine.new, fabs]
  have hproc : (((ModeProcessor.new halvingJuce testSpec).prepare ratMath testSpec).process
      ratMath testContext nearUnityGainParams).2.block = [[1, 2], [3, 4]] := by
    rw [process_block_eq, hchain]
    norm_num [nearUnityGainParams, abs_le]
  refine ⟨hproc, hchain, rfl, ?_⟩
  rw [hproc, hchain]
  norm_num [nearUnityGainParams]

/-! ## `process` before `prepare` -/

section Neutral

variable {K : Type} [LinearOrderedField K]

theorem musicalCurve_centre (M : CMath K) : musicalCurve M (centreAround0 0.5) = 0 := by
  norm_num [musicalCurve, centreAround0, fabs]

theorem neutral_rhythm_eq (M : CMath K) (hpow : M.pow 10 0 = 1) (character : K) :
    mapEQ M character 0.5 0.5 0.5 .RHYTHM =
      { lowCutFreq := 40, lowShelfFreq := 100, lowShelfGain := 1
        mid1Freq := 800, mid1Gain := 1, mid1Q := 1
        mid2Freq := 2000, mid2Gain := 1, mid2Q := 1
        highShelfFreq := 8000, highShelfGain := 1
        airBandFreq := 12000, airBandGain := 1 } := by
  simp only [mapEQ, musicalCurve_centre, reduceCtorEq, ↓reduceIte, or_false, or_true, true_or]
  norm_num [fmax, jlimit, jmap, linFromDbClamped, Decibels.decibelsToGain, hpow, fabs]

theorem neutral_rhythm_autoGain (M : CMath K) (hpow : M.pow 10 0 = 1) (engine : ToneEngine K) :
    (engine.updateParameters M 0 0.5 0.5 0.5 0.5 0 .RHYTHM).currentParams.outputAutoGain
      = 10 / 7 := by
  have heq := neutral_rhythm_eq M hpow 0
  simp only [ToneEngine.updateParameters, computeAutoGain, computeEqComp, computeDynComp,
    computeSatComp, computeSpatialComp, heq, mapDynamics, mapSaturation, mapSpatial,
    musicalCurve_centre, reduceCtorEq, ↓reduceIte]
  norm_num [fmax, jlimit, jmap, FloatClassify.isfinite]

theorem neutral_rhythm_bypasses (M : CMath K) (hpow : M.pow 10 0 = 1) (engine : ToneEngine K) :
    EQProcessor.isFlat
        (engine.updateParameters M 0 0.5 0.5 0.5 0.5 0 .RHYTHM).currentParams.eq = true ∧
    SpatialProcessor.allDry
        (engine.updateParameters M 0 0.5 0.5 0.5 0.5 0 .RHYTHM).currentParams.spatial = true := by
  constructor
  · have h : (engine.updateParameters M 0 0.5 0.5 0.5 0.5 0 .RHYTHM).currentParams.eq
        = mapEQ M 0 0.5 0.5 0.5 .RHYTHM := rfl
    rw [h, neutral_rhythm_eq M hpow 0]
    norm_num [EQProcessor.isFlat, fabs]
  · have h : (engine.updateParameters M 0 0.5 0.5 0.5 0.5 0 .RHYTHM).currentParams.spatial
        = mapSpatial M 0.5 0.5 0 .RHYTHM := rfl
    rw [h, mapSpatial_rhythm]
    norm_num [SpatialProcessor.allDry, fabs, jlimit, jmap]

end Neutral

theorem halvingJuce_dupProcess (c : IIRCoefficients ℚ) (s : halvingJuce.DupState)
    (b : AudioBlock ℚ) :
    (halvingJuce.dupProcess c s b).2 = AudioBlock.multiply b (1/2) := rfl

/-- C15 (the code at the failing input).  On a freshly constructed `ModeProcessor`, `process`
is not a no-op.  (1) With the snapshot `ToneEngine::updateParameters` computes for the neutral
setting in RHYTHM (character 0, space 0, the other macros 0.5; real `pow`), every stage returns
early but the auto-gain `10/7` is applied: every sample of every channel is multiplied by `10/7`,
for every behaviour of the DSP kernels.  (2) On the halving kernels, the constructor's snapshot
with `outputAutoGain = 2` turns the block `[[1, 2], [3, 4]]` into `[[2, 4], [6, 8]]`.  (3) With
a low-shelf gain of 2 the EQ is not flat and its six filter sections run, unprepared: the block
becomes `[[1/64, 1/32], [3/64, 1/16]]`. -/
theorem process_before_prepare_changes_buffer :
    (∀ (J : Juce ℝ) (M : CMath ℝ) (uninit : ProcessSpec ℝ) (engine : ToneEngine ℝ)
        (context : ProcessContext ℝ),
      ((ModeProcessor.new J uninit).process { M with pow := Real.rpow } context
          (engine.updateParameters { M with pow := Real.rpow } 0 0.5 0.5 0.5 0.5 0
            .RHYTHM).currentParams).2.block =
        context.block.map (fun ch => ch.map (fun x => x * (10 / 7)))) ∧
    ((ModeProcessor.new halvingJuce testSpec).process ratMath testContext
        doubleGainParams).2.block = [[2, 4], [6, 8]] ∧
    ((ModeProcessor.new halvingJuce testSpec).process ratMath testContext
        boostedShelfParams).2.block = [[1/64, 1/32], [3/64, 1/16]] := by
  refine ⟨?_, ?_, ?_⟩
  · intro J M uninit engine context
    have hpow : ({ M with pow := Real.rpow } : CMath ℝ).pow 10 0 = 1 := Real.rpow_zero 10
    have hb := neutral_rhythm_bypasses _ hpow engine
    have hg := neutral_rhythm_autoGain _ hpow engine
    rw [process_block_eq, fresh_chain_all_bypassed _ _ _ _ hb.1 hb.2, hg]
    rw [if_pos (by norm_num [abs_of_pos])]
  · rw [process_block_eq, fresh_chain_all_bypassed]
    · norm_num [doubleGainParams, testContext]
    · norm_num [EQProcessor.isFlat, doubleGainParams, freshParams, ToneEngine.new, fabs]
    · norm_num [SpatialProcessor.allDry, doubleGainParams, freshParams, ToneEngine.new, fabs]
  · rw [process_block_eq]
    norm_num [boostedShelfParams, freshParams, ToneEngine.new, ModeProcessor.new,
      ModeProcessor.getActiveChain, ModeChain.new, ModeChain.setParameters, ModeChain.process,
      EQProcessor.process, EQProcessor.isFlat, EQProcessor.setParameters,
      EQProcessor.updateFilterCoefficients, EQProcessor.new, EQChain.process, fabs,
      DynamicsProcessor.process, DynamicsProcessor.setParameters, DynamicsProcessor.new,
      DynamicsProcessor.updateMakeup, DynamicsProcessor.updateTransientEnvelopes,
      DynamicsProcessor.updateDeesserFilters, DynamicsProcessor.updateCompressor,
      SaturationProcessor.process, SaturationProcessor.setParameters, SaturationProcessor.new,
      SaturationProcessor.updateToneFilter, SaturationProcessor.updateDrive,
      SpatialProcessor.process, SpatialProcessor.allDry, SpatialProcessor.setParameters,
      SpatialProcessor.new, SpatialProcessor.updateReverb, SpatialProcessor.updateChorus,
      SpatialProcessor.updateDelay, halvingJuce_dupProcess, AudioBlock.multiply, testContext]

/-! ## The shaping curve and the ranges of `mapDynamics` (`ParameterMapper.cpp`) -/

theorem real_tanh_continuous : Continuous Real.tanh := by
  have h : Real.tanh = fun x => Real.sinh x / Real.cosh x := by
    funext x; exact Real.tanh_eq_sinh_div_cosh x
  rw [h]
  exact Real.continuous_sinh.div Real.continuous_cosh (fun x => (Real.cosh_pos x).ne')

theorem real_tanh_mono {x y : ℝ} (h : x ≤ y) : Real.tanh x ≤ Real.tanh y := by
  rw [Real.tanh_eq_sinh_div_cosh, Real.tanh_eq_sinh_div_cosh,
    div_le_div_iff₀ (Real.cosh_pos x) (Real.cosh_pos y)]
  have hs : Real.sinh (x - y) ≤ 0 := Real.sinh_nonpos_iff.mpr (by linarith)
  rw [Real.sinh_sub] at hs
  linarith

theorem real_tanh_abs_lt_one (x : ℝ) : |Real.tanh x| < 1 := by
  rw [Real.tanh_eq_sinh_div_cosh, abs_div, abs_of_pos (Real.cosh_pos x),
    div_lt_one (Real.cosh_pos x), abs_lt]
  have h1 := Real.sinh_lt_cosh x
  have h2 : 0 < Real.cosh x + Real.sinh x := by
    rw [Real.cosh_add_sinh]; exact Real.exp_pos x
  constructor <;> linarith

theorem real_tanh_nonneg {x : ℝ} (h : 0 ≤ x) : 0 ≤ Real.tanh x := by
  have := real_tanh_mono h
  rwa [Real.tanh_zero] at this

section Curve

variable {K : Type} [LinearOrderedField K]

/-- The closed form of `musicalCurve` on an ordered field. -/
theorem musicalCurve_eq (M : CMath K) (x : K) :
    musicalCurve M x =
      if |x| < 0.15 then 0
      else M.tanh (1.5 * (min 1 ((|x| - 0.15) / 0.85) * (if x < 0 then -1 else 1))) := by
  have e0 : (0.0 : K) = 0 := by norm_num
  have e1 : (1.0 : K) = 1 := by norm_num
  have e2 : (1 : K) - 0.15 = 0.85 := by norm_num
  unfold musicalCurve softSat
  simp only [fabs_eq_abs, e0, e1]
  by_cases h : |x| < 0.15
  · rw [if_pos h, if_pos h]
  · rw [if_neg h, if_neg h]
    have hm : (0 : K) ≤ (|x| - 0.15) / 0.85 :=
      div_nonneg (sub_nonneg.mpr (not_lt.mp h)) (by norm_num)
    rw [jlimit_eq _ _ _ zero_le_one, e2, max_eq_right (le_min zero_le_one hm)]

theorem musicalCurve_abs_le (M : CMath K) (hM : ∀ y, |M.tanh y| ≤ 1) (x : K) :
    |musicalCurve M x| ≤ 1 := by
  rw [musicalCurve_eq]
  split_ifs <;> first | exact hM _ | simp

end Curve

theorem musicalCurve_real_clamped (M : CMath ℝ) (hM : M.tanh = Real.tanh) (x : ℝ) :
    musicalCurve M x =
      Real.tanh (1.5 * (min 1 (max 0 ((x - 0.15) / 0.85)) -
        min 1 (max 0 ((-x - 0.15) / 0.85)))) := by
  rw [musicalCurve_eq, hM]
  by_cases h : |x| < 0.15
  · rw [if_pos h]
    obtain ⟨h1, h2⟩ := abs_lt.mp h
    have a1 : (x - 0.15) / 0.85 ≤ 0 := div_nonpos_of_nonpos_of_nonneg (by linarith) (by norm_num)
    have a2 : (-x - 0.15) / 0.85 ≤ 0 :=
      div_nonpos_of_nonpos_of_nonneg (by linarith) (by norm_num)
    rw [max_eq_left a1, max_eq_left a2]
    norm_num
  · rw [if_neg h]
    have h' : (0.15 : ℝ) ≤ |x| := not_lt.mp h
    by_cases hx : x < 0
    · rw [if_pos hx, abs_of_neg hx]
      rw [abs_of_neg hx] at h'
      have a1 : (x - 0.15) / 0.85 ≤ 0 :=
        div_nonpos_of_nonpos_of_nonneg (by linarith) (by norm_num)
      have a2 : 0 ≤ (-x - 0.15) / 0.85 := div_nonneg (by linarith) (by norm_num)
      rw [max_eq_left a1, max_eq_right a2, min_eq_right (zero_le_one)]
      congr 1
      ring
    · rw [if_neg hx, abs_of_nonneg (not_lt.mp hx)]
      rw [abs_of_nonneg (not_lt.mp hx)] at h'
      have a1 : 0 ≤ (x - 0.15) / 0.85 := div_nonneg (by linarith) (by norm_num)
      have a2 : (-x - 0.15) / 0.85 ≤ 0 :=
        div_nonpos_of_nonpos_of_nonneg (by linarith) (by norm_num)
      rw [max_eq_right a1, max_eq_left a2, min_eq_right (zero_le_one)]
      congr 1
      ring

theorem musicalCurve_real_continuous (M : CMath ℝ) (hM : M.tanh = Real.tanh) :
    Continuous (musicalCurve M) := by
  have h : musicalCurve M = fun x => Real.tanh (1.5 * (min 1 (max 0 ((x - 0.15) / 0.85)) -
        min 1 (max 0 ((-x - 0.15) / 0.85)))) := by
    funext x; exact musicalCurve_real_clamped M hM x
  rw [h]
  have c1 : Continuous fun x : ℝ => min 1 (max 0 ((x - 0.15) / 0.85)) :=
    continuous_const.min (continuous_const.max ((continuous_id.sub continuous_const).div_const _))
  have c2 : Continuous fun x : ℝ => min 1 (max 0 ((-x - 0.15) / 0.85)) :=
    continuous_const.min
      (continuous_const.max ((continuous_id.neg.sub continuous_const).div_const _))
  exact real_tanh_continuous.comp (continuous_const.mul (c1.sub c2))

theorem musicalCurve_real_outside (M : CMath ℝ) (hM : M.tanh = Real.tanh) (x : ℝ)
    (h : 0.15 ≤ |x|) :
    musicalCurve M x = Real.sign x * Real.tanh (1.5 * min 1 ((|x| - 0.15) / 0.85)) := by
  rw [musicalCurve_eq, hM, if_neg (not_lt.mpr h)]
  by_cases hx : x < 0
  · rw [if_pos hx, Real.sign_of_neg hx]
    have : (1.5 : ℝ) * (min 1 ((|x| - 0.15) / 0.85) * -1)
        = -(1.5 * min 1 ((|x| - 0.15) / 0.85)) := by ring
    rw [this, Real.tanh_neg]
    ring
  · have hpos : 0 < x := by
      rcases lt_or_eq_of_le (not_lt.mp hx) with h1 | h1
      · exact h1
      · rw [← h1] at h; norm_num at h
    rw [if_neg hx, Real.sign_of_pos hpos]
    simp

theorem musicalCurve_real_bound (M : CMath ℝ) (hM : M.tanh = Real.tanh) (x : ℝ) :
    |musicalCurve M x| ≤ Real.tanh 1.5 := by
  by_cases h : |x| < 0.15
  · rw [musicalCurve_eq, if_pos h, abs_zero]
    exact real_tanh_nonneg (by norm_num)
  · have h' : (0.15 : ℝ) ≤ |x| := not_lt.mp h
    have hm : (0 : ℝ) ≤ (|x| - 0.15) / 0.85 := div_nonneg (by linarith) (by norm_num)
    have h0 : (0 : ℝ) ≤ 1.5 * min 1 ((|x| - 0.15) / 0.85) :=
      mul_nonneg (by norm_num) (le_min zero_le_one hm)
    have h1 : (1.5 : ℝ) * min 1 ((|x| - 0.15) / 0.85) ≤ 1.5 := by
      have := min_le_left (1 : ℝ) ((|x| - 0.15) / 0.85)
      linarith
    rw [musicalCurve_real_outside M hM x h', abs_mul, abs_of_nonneg (real_tanh_nonneg h0)]
    have hs : |Real.sign x| ≤ 1 := by
      rcases Real.sign_apply_eq x with hs | hs | hs <;> rw [hs] <;> norm_num
    calc |Real.sign x| * Real.tanh (1.5 * min 1 ((|x| - 0.15) / 0.85))
        ≤ 1 * Real.tanh (1.5 * min 1 ((|x| - 0.15) / 0.85)) :=
          mul_le_mul_of_nonneg_right hs (real_tanh_nonneg h0)
      _ = Real.tanh (1.5 * min 1 ((|x| - 0.15) / 0.85)) := one_mul _
      _ ≤ Real.tanh 1.5 := real_tanh_mono h1

/-- C17.  With the real `tanh`, `musicalCurve` returns exactly 0 for every `x` with
`|x| < 0.15` (so for every macro value `v` with `|v - 0.5| < 0.075`), and for `|x| >= 0.15`
returns `sign (x) * tanh (1.5 * min (1, (|x| - 0.15) / 0.85))`; for every real `x` its magnitude
is at most `tanh 1.5`, which is below 1; and it is continuous, in particular at the two edges
`0.15` and `-0.15` of the dead zone. -/
theorem musicalCurve_dead_zone_and_shape (M : CMath ℝ) :
    (∀ x : ℝ, |x| < 0.15 → musicalCurve { M with tanh := Real.tanh } x = 0) ∧
    (∀ v : ℝ, |v - 0.5| < 0.075 →
      musicalCurve { M with tanh := Real.tanh } (centreAround0 v) = 0) ∧
    (∀ x : ℝ, 0.15 ≤ |x| →
      musicalCurve { M with tanh := Real.tanh } x =
        Real.sign x * Real.tanh (1.5 * min 1 ((|x| - 0.15) / 0.85))) ∧
    (∀ x : ℝ, |musicalCurve { M with tanh := Real.tanh } x| ≤ Real.tanh 1.5) ∧
    Real.tanh 1.5 < 1 ∧
    Continuous (musicalCurve { M with tanh := Real.tanh }) ∧
    ContinuousAt (musicalCurve { M with tanh := Real.tanh }) 0.15 ∧
    ContinuousAt (musicalCurve { M with tanh := Real.tanh }) (-0.15) := by
  have hdead : ∀ x : ℝ, |x| < 0.15 → musicalCurve { M with tanh := Real.tanh } x = 0 := by
    intro x h
    rw [musicalCurve_eq, if_pos h]
  have hc := musicalCurve_real_continuous { M with tanh := Real.tanh } rfl
  refine ⟨hdead, ?_, fun x h => musicalCurve_real_outside _ rfl x h,
    fun x => musicalCurve_real_bound _ rfl x, ?_, hc, hc.continuousAt, hc.continuousAt⟩
  · intro v h
    apply hdead
    have : centreAround0 v = 2 * (v - 0.5) := by unfold centreAround0; ring
    rw [this, abs_mul, abs_of_pos (by norm_num : (0:ℝ) < 2)]
    linarith
  · exact lt_of_le_of_lt (le_abs_self _) (real_tanh_abs_lt_one _)

section DynBounds

variable {K : Type} [LinearOrderedField K]

/-- The shape of the fields of `mapDynamics`: threshold and ratio in terms of the curve value of
spank, every other bounded field as the clamp the source ends it with. -/
theorem mapDynamics_shape (M : CMath K) (thump body shimmer spank : K) (mode : ToneMode) :
    (mapDynamics M thump body shimmer spank mode).compThreshold =
      (match mode with
        | .RHYTHM => (3.0 : K)
        | .LEAD => 1.0
        | .CLEAN => 4.0) +
      (0.5 + musicalCurve M (centreAround0 spank) * 0.30) *
        ((match mode with
          | .RHYTHM => (-24.0 : K)
          | .LEAD => -28.0
          | .CLEAN => -12.0) -
         (match mode with
          | .RHYTHM => (3.0 : K)
          | .LEAD => 1.0
          | .CLEAN => 4.0)) ∧
    (mapDynamics M thump body shimmer spank mode).compRatio =
      fmax 1.0
        ((match mode with
          | .RHYTHM => (1.8 : K)
          | .LEAD => 2.0
          | .CLEAN => 1.2) +
         fmax 0.0 (musicalCurve M (centreAround0 spank)) *
          (match mode with
            | .RHYTHM => (3.0 : K)
            | .LEAD => 1.3
            | .CLEAN => 0.6)) ∧
    (∃ a, (mapDynamics M thump body shimmer spank mode).compAttack = jlimit 1.0 150.0 a) ∧
    (∃ r, (mapDynamics M thump body shimmer spank mode).compRelease = jlimit 50.0 600.0 r) ∧
    (∃ g, (mapDynamics M thump body shimmer spank mode).compMakeupGain = jlimit 0.0 8.0 g) ∧
    (∃ a, (mapDynamics M thump body shimmer spank mode).transientAttack
      = jlimit (-1.0) 1.0 a) ∧
    (∃ a, (mapDynamics M thump body shimmer spank mode).transientSustain
      = jlimit (-1.0) 1.0 a) ∧
    (∃ f, (mapDynamics M thump body shimmer spank mode).deesserFreq
      = jlimit 3000.0 9000.0 f) := by
  cases mode <;>
    exact ⟨rfl, rfl, ⟨_, rfl⟩, ⟨_, rfl⟩, ⟨_, rfl⟩, ⟨_, rfl⟩, ⟨_, rfl⟩, ⟨_, rfl⟩⟩

theorem mapDynamics_threshold_bounds (M : CMath K) (hM : ∀ y, |M.tanh y| ≤ 1)
    (thump body shimmer spank : K) (mode : ToneMode) :
    (match mode with
        | .RHYTHM => (-24 : K)
        | .LEAD => -28
        | .CLEAN => -12) ≤ (mapDynamics M thump body shimmer spank mode).compThreshold ∧
      (mapDynamics M thump body shimmer spank mode).compThreshold ≤
        (match mode with
          | .RHYTHM => (3 : K)
          | .LEAD => 1
          | .CLEAN => 4) := by
  have hk := abs_le.mp (musicalCurve_abs_le M hM (centreAround0 spank))
  rw [(mapDynamics_shape M thump body shimmer spank mode).1]
  generalize musicalCurve M (centreAround0 spank) = k at hk
  cases mode <;> norm_num <;> constructor <;> linarith [hk.1, hk.2]

theorem mapDynamics_ratio_bounds (M : CMath K) (hM : ∀ y, |M.tanh y| ≤ 1)
    (thump body shimmer spank : K) (mode : ToneMode) :
    (match mode with
        | .RHYTHM => (1.8 : K)
        | .LEAD => 2.0
        | .CLEAN => 1.2) ≤ (mapDynamics M thump body shimmer spank mode).compRatio ∧
      (mapDynamics M thump body shimmer spank mode).compRatio ≤
        (match mode with
          | .RHYTHM => (1.8 + 3.0 : K)
          | .LEAD => 2.0 + 1.3
          | .CLEAN => 1.2 + 0.6) ∧
      1 ≤ (mapDynamics M thump body shimmer spank mode).compRatio := by
  have hk := abs_le.mp (musicalCurve_abs_le M hM (centreAround0 spank))
  rw [(mapDynamics_shape M thump body shimmer spank mode).2.1]
  generalize musicalCurve M (centreAround0 spank) = k at hk
  have e0 : (0.0 : K) = 0 := by norm_num
  have e1 : (1.0 : K) = 1 := by norm_num
  simp only [fmax_eq_max, e0, e1]
  have h0 : (0 : K) ≤ max 0 k := le_max_left _ _
  have h1 : max 0 k ≤ 1 := max_le zero_le_one hk.2
  generalize max 0 k = kp at h0 h1
  cases mode
  · have hb : (1 : K) ≤ 1.8 + kp * 3.0 := by norm_num; linarith
    rw [max_eq_right hb]
    norm_num
    refine ⟨?_, ?_, ?_⟩ <;> linarith
  · have hb : (1 : K) ≤ 2.0 + kp * 1.3 := by norm_num; linarith
    rw [max_eq_right hb]
    norm_num
    refine ⟨?_, ?_, ?_⟩ <;> linarith
  · have hb : (1 : K) ≤ 1.2 + kp * 0.6 := by norm_num; linarith
    rw [max_eq_right hb]
    norm_num
    refine ⟨?_, ?_, ?_⟩ <;> linarith

theorem mapDynamics_clamped_bounds (M : CMath K)
    (thump body shimmer spank : K) (mode : ToneMode) :
    (1 ≤ (mapDynamics M thump body shimmer spank mode).compAttack ∧
      (mapDynamics M thump body shimmer spank mode).compAttack ≤ 150) ∧
    (50 ≤ (mapDynamics M thump body shimmer spank mode).compRelease ∧
      (mapDynamics M thump body shimmer spank mode).compRelease ≤ 600) ∧
    (0 ≤ (mapDynamics M thump body shimmer spank mode).compMakeupGain ∧
      (mapDynamics M thump body shimmer spank mode).compMakeupGain ≤ 8) ∧
    (-1 ≤ (mapDynamics M thump body shimmer spank mode).transientAttack ∧
      (mapDynamics M thump body shimmer spank mode).transientAttack ≤ 1) ∧
    (-1 ≤ (mapDynamics M thump body shimmer spank mode).transientSustain ∧
      (mapDynamics M thump body shimmer spank mode).transientSustain ≤ 1) ∧
    (3000 ≤ (mapDynamics M thump body shimmer spank mode).deesserFreq ∧
      (mapDynamics M thump body shimmer spank mode).deesserFreq ≤ 9000) := by
  obtain ⟨-, -, ⟨a, ha⟩, ⟨r, hr⟩, ⟨g, hg⟩, ⟨ta, hta⟩, ⟨ts, hts⟩, ⟨f, hf⟩⟩ :=
    mapDynamics_shape M thump body shimmer spank mode
  rw [ha, hr, hg, hta, hts, hf]
  exact ⟨
    ⟨le_trans (by norm_num) (jlimit_mem _ _ a (by norm_num)).1,
      le_trans (jlimit_mem _ _ a (by norm_num)).2 (by norm_num)⟩,
    ⟨le_trans (by norm_num) (jlimit_mem _ _ r (by norm_num)).1,
      le_trans (jlimit_mem _ _ r (by norm_num)).2 (by norm_num)⟩,
    ⟨le_trans (by norm_num) (jlimit_mem _ _ g (by norm_num)).1,
      le_trans (jlimit_mem _ _ g (by norm_num)).2 (by norm_num)⟩,
    ⟨le_trans (by norm_num) (jlimit_mem _ _ ta (by norm_num)).1,
      le_trans (jlimit_mem _ _ ta (by norm_num)).2 (by norm_num)⟩,
    ⟨le_trans (by norm_num) (jlimit_mem _ _ ts (by norm_num)).1,
      le_trans (jlimit_mem _ _ ts (by norm_num)).2 (by norm_num)⟩,
    ⟨le_trans (by norm_num) (jlimit_mem _ _ f (by norm_num)).1,
      le_trans (jlimit_mem _ _ f (by norm_num)).2 (by norm_num)⟩⟩

end DynBounds

/-- C12.  With the real `tanh`, for every macro input and every mode `mapDynamics` returns
`compThreshold` within the mode's table bounds (RHYTHM `[-24, 3]`, LEAD `[-28, 1]`, CLEAN
`[-12, 4]`), `compRatio` within `[baseRatio, baseRatio + ratioExtra]` and at least 1,
`compAttack` in `[1, 150]`, `compRelease` in `[50, 600]`, `compMakeupGain` in `[0, 8]`,
`transientAttack` and `transientSustain` in `[-1, 1]` and `deesserFreq` in `[3000, 9000]`. -/
theorem mapDynamics_ranges (M : CMath ℝ) (thump body shimmer spank : ℝ) (mode : ToneMode) :
    ((match mode with
        | .RHYTHM => (-24 : ℝ)
        | .LEAD => -28
        | .CLEAN => -12) ≤
        (mapDynamics { M with tanh := Real.tanh } thump body shimmer spank mode).compThreshold ∧
      (mapDynamics { M with tanh := Real.tanh } thump body shimmer spank mode).compThreshold ≤
        (match mode with
          | .RHYTHM => (3 : ℝ)
          | .LEAD => 1
          | .CLEAN => 4)) ∧
    ((match mode with
        | .RHYTHM => (1.8 : ℝ)
        | .LEAD => 2.0
        | .CLEAN => 1.2) ≤
        (mapDynamics { M with tanh := Real.tanh } thump body shimmer spank mode).compRatio ∧
      (mapDynamics { M with tanh := Real.tanh } thump body shimmer spank mode).compRatio ≤
        (match mode with
          | .RHYTHM => (1.8 + 3.0 : ℝ)
          | .LEAD => 2.0 + 1.3
          | .CLEAN => 1.2 + 0.6) ∧
      1 ≤ (mapDynamics { M with tanh := Real.tanh } thump body shimmer spank mode).compRatio) ∧
    (1 ≤ (mapDynamics { M with tanh := Real.tanh } thump body shimmer spank mode).compAttack ∧
      (mapDynamics { M with tanh := Real.tanh } thump body shimmer spank mode).compAttack
        ≤ 150) ∧
    (50 ≤ (mapDynamics { M with tanh := Real.tanh } thump body shimmer spank mode).compRelease ∧
      (mapDynamics { M with tanh := Real.tanh } thump body shimmer spank mode).compRelease
        ≤ 600) ∧
    (0 ≤ (mapDynamics { M with tanh := Real.tanh } thump body shimmer spank
        mode).compMakeupGain ∧
      (mapDynamics { M with tanh := Real.tanh } thump body shimmer spank mode).compMakeupGain
        ≤ 8) ∧
    (-1 ≤ (mapDynamics { M with tanh := Real.tanh } thump body shimmer spank
        mode).transientAttack ∧
      (mapDynamics { M with tanh := Real.tanh } thump body shimmer spank mode).transientAttack
        ≤ 1) ∧
    (-1 ≤ (mapDynamics { M with tanh := Real.tanh } thump body shimmer spank
        mode).transientSustain ∧
      (mapDynamics { M with tanh := Real.tanh } thump body shimmer spank mode).transientSustain
        ≤ 1) ∧
    (3000 ≤ (mapDynamics { M with tanh := Real.tanh } thump body shimmer spank
        mode).deesserFreq ∧
      (mapDynamics { M with tanh := Real.tanh } thump body shimmer spank mode).deesserFreq
        ≤ 9000) :=
  ⟨mapDynamics_threshold_bounds _ (fun y => (real_tanh_abs_lt_one y).le) _ _ _ _ _,
   mapDynamics_ratio_bounds _ (fun y => (real_tanh_abs_lt_one y).le) _ _ _ _ _,
   mapDynamics_clamped_bounds _ _ _ _ _ _⟩

/-! ## The safety clamps of `EQProcessor::updateFilterCoefficients` -/

section SafeClamps

open XFloat

theorem jlimit_fin_of_ne_nan (lo hi : ℚ) (h : lo ≤ hi) (x : XFloat) (hx : x ≠ nan) :
    ∃ q, jlimit (fin lo) (fin hi) x = fin q ∧ lo ≤ q ∧ q ≤ hi := by
  rcases jlimit_fin_cases lo hi h x with h1 | h1
  · exfalso
    cases x with
    | nan => exact hx rfl
    | ninf =>
      have : ninf < fin lo := by show ltb ninf (fin lo) = true; rfl
      simp [jlimit, this] at h1
    | pinf => simp [jlimit] at h1
    | fin a =>
      simp only [jlimit, fin_lt] at h1
      split_ifs at h1
  · exact h1

theorem safeGain_cases (g : XFloat) :
    ∃ q, EQProcessor.safeGain g = fin q ∧ 1/20 ≤ q ∧ q ≤ 8 := by
  unfold EQProcessor.safeGain
  cases g with
  | nan => exact ⟨1, by simp; norm_num, by norm_num, by norm_num⟩
  | ninf => exact ⟨1, by simp; norm_num, by norm_num, by norm_num⟩
  | pinf => exact ⟨1, by simp; norm_num, by norm_num, by norm_num⟩
  | fin a =>
    by_cases ha : a ≤ 0
    · have ha0 : a ≤ (0.0 : ℚ) := by norm_num; exact ha
      exact ⟨1, by simp [ha0]; norm_num, by norm_num, by norm_num⟩
    · have ha0 : ¬ a ≤ (0.0 : ℚ) := by norm_num; exact not_le.mp ha
      obtain ⟨q, hq, h1, h2⟩ := jlimit_fin_of_ne_nan (1/20) 8 (by norm_num) (fin a) (by simp)
      refine ⟨q, ?_, h1, h2⟩
      simp only [isnan_fin, isinf_fin, Bool.or_self, Bool.false_or, decide_eq_true_eq, lit_eq,
        fin_le, ha0, if_false]
      rw [← hq]
      norm_num

theorem safeGain_invalid (g : XFloat)
    (h : FloatClassify.isnan g = true ∨ FloatClassify.isinf g = true ∨ g ≤ 0.0) :
    EQProcessor.safeGain g = 1.0 := by
  unfold EQProcessor.safeGain
  rcases h with h | h | h
  · simp [h]
  · simp [h]
  · rw [lit_eq] at h
    simp [h]

theorem safeFreq_range (s : ℚ) (hs : 20 ≤ 0.45 * s) (f : XFloat) (hf : f ≠ nan) :
    ∃ q, EQProcessor.safeFreq (fin s) f = fin q ∧ 20 ≤ q ∧ q ≤ 0.45 * s := by
  obtain ⟨q, hq, h1, h2⟩ := jlimit_fin_of_ne_nan 20 (0.45 * s) hs f hf
  refine ⟨q, ?_, h1, h2⟩
  unfold EQProcessor.safeFreq
  rw [← hq, lit_eq, lit_eq, fin_mul]
  norm_num [mul_comm]

theorem safeQ_range (x : XFloat) (hx : x ≠ nan) :
    ∃ q, EQProcessor.safeQ x = fin q ∧ 1/5 ≤ q ∧ q ≤ 4 := by
  obtain ⟨q, hq, h1, h2⟩ := jlimit_fin_of_ne_nan (1/5) 4 (by norm_num) x hx
  refine ⟨q, ?_, h1, h2⟩
  unfold EQProcessor.safeQ
  rw [← hq, lit_eq, lit_eq]
  norm_num

theorem safeFreq_nan (sr : XFloat) : EQProcessor.safeFreq sr nan = nan := by
  unfold EQProcessor.safeFreq
  exact jlimit_nan _ _

theorem safeQ_nan : EQProcessor.safeQ (nan : XFloat) = nan := by
  unfold EQProcessor.safeQ
  exact jlimit_nan _ _

end SafeClamps

section Designs

variable {F : Type} [Add F] [Sub F] [Mul F] [Div F] [Neg F] [LT F] [LE F]
  [@DecidableRel F (· < ·)] [@DecidableRel F (· ≤ ·)] [OfScientific F] [NatCast F]
  [FloatClassify F] {J : Juce F}

/-- The six design calls of `updateFilterCoefficients`, with their arguments. -/
theorem updateFilterCoefficients_designs (self : EQProcessor J) :
    (self.updateFilterCoefficients).eqChain.lowCut.state =
      .makeHighPass self.currentSpec.sampleRate
        (EQProcessor.safeFreq self.currentSpec.sampleRate self.currentParams.lowCutFreq) ∧
    (self.updateFilterCoefficients).eqChain.lowShelf.state =
      .makeLowShelf self.currentSpec.sampleRate
        (EQProcessor.safeFreq self.currentSpec.sampleRate self.currentParams.lowShelfFreq) 0.7
        (EQProcessor.safeGain self.currentParams.lowShelfGain) ∧
    (self.updateFilterCoefficients).eqChain.mid1.state =
      .makePeakFilter self.currentSpec.sampleRate
        (EQProcessor.safeFreq self.currentSpec.sampleRate self.currentParams.mid1Freq)
        (EQProcessor.safeQ self.currentParams.mid1Q)
        (EQProcessor.safeGain self.currentParams.mid1Gain) ∧
    (self.updateFilterCoefficients).eqChain.mid2.state =
      .makePeakFilter self.currentSpec.sampleRate
        (EQProcessor.safeFreq self.currentSpec.sampleRate self.currentParams.mid2Freq)
        (EQProcessor.safeQ self.currentParams.mid2Q)
        (EQProcessor.safeGain self.currentParams.mid2Gain) ∧
    (self.updateFilterCoefficients).eqChain.highShelf.state =
      .makeHighShelf self.currentSpec.sampleRate
        (EQProcessor.safeFreq self.currentSpec.sampleRate self.currentParams.highShelfFreq) 0.7
        (EQProcessor.safeGain self.currentParams.highShelfGain) ∧
    (self.updateFilterCoefficients).eqChain.airBand.state =
      .makeHighShelf self.currentSpec.sampleRate
        (EQProcessor.safeFreq self.currentSpec.sampleRate self.currentParams.airBandFreq) 0.7
        (EQProcessor.safeGain self.currentParams.airBandGain) :=
  ⟨rfl, rfl, rfl, rfl, rfl, rfl⟩

end Designs

/-- C20 (the code at the failing input).  In the model with IEEE special values: the six design
calls of `updateFilterCoefficients` receive `safeFreq`, `safeGain` and `safeQ` of the current
parameters; `safeGain` returns a finite value of `[0.05, 8.0]` for every input and exactly `1.0`
for a NaN, infinite or non-positive gain; for a finite sample rate with `0.45 * sr >= 20`,
`safeFreq` returns a value of `[20, 0.45 * sr]` for every frequency that is not NaN, and `safeQ`
a value of `[0.2, 4.0]` for every Q that is not NaN.  But a NaN frequency or Q passes through the
clamp: `safeFreq (sr, NaN)` and `safeQ (NaN)` are NaN, and with `lowCutFreq = NaN` the high-pass
design is called with the frequency NaN. -/
theorem updateFilterCoefficients_clamps :
    (∀ (J : Juce XFloat) (self : EQProcessor J),
      (self.updateFilterCoefficients).eqChain.lowCut.state =
        .makeHighPass self.currentSpec.sampleRate
          (EQProcessor.safeFreq self.currentSpec.sampleRate self.currentParams.lowCutFreq) ∧
      (self.updateFilterCoefficients).eqChain.lowShelf.state =
        .makeLowShelf self.currentSpec.sampleRate
          (EQProcessor.safeFreq self.currentSpec.sampleRate self.currentParams.lowShelfFreq) 0.7
          (EQProcessor.safeGain self.currentParams.lowShelfGain) ∧
      (self.updateFilterCoefficients).eqChain.mid1.state =
        .makePeakFilter self.currentSpec.sampleRate
          (EQProcessor.safeFreq self.currentSpec.sampleRate self.currentParams.mid1Freq)
          (EQProcessor.safeQ self.currentParams.mid1Q)
          (EQProcessor.safeGain self.currentParams.mid1Gain) ∧
      (self.updateFilterCoefficients).eqChain.mid2.state =
        .makePeakFilter self.currentSpec.sampleRate
          (EQProcessor.safeFreq self.currentSpec.sampleRate self.currentParams.mid2Freq)
          (EQProcessor.safeQ self.currentParams.mid2Q)
          (EQProcessor.safeGain self.currentParams.mid2Gain) ∧
      (self.updateFilterCoefficients).eqChain.highShelf.state =
        .makeHighShelf self.currentSpec.sampleRate
          (EQProcessor.safeFreq self.currentSpec.sampleRate self.currentParams.highShelfFreq) 0.7
          (EQProcessor.safeGain self.currentParams.highShelfGain) ∧
      (self.updateFilterCoefficients).eqChain.airBand.state =
        .makeHighShelf self.currentSpec.sampleRate
          (EQProcessor.safeFreq self.currentSpec.sampleRate self.currentParams.airBandFreq) 0.7
          (EQProcessor.safeGain self.currentParams.airBandGain)) ∧
    (∀ g : XFloat, ∃ q, EQProcessor.safeGain g = XFloat.fin q ∧ 1/20 ≤ q ∧ q ≤ 8) ∧
    (∀ g : XFloat,
      (FloatClassify.isnan g = true ∨ FloatClassify.isinf g = true ∨ g ≤ 0.0) →
        EQProcessor.safeGain g = 1.0) ∧
    (∀ (s : ℚ) (f : XFloat), 20 ≤ 0.45 * s → f ≠ XFloat.nan →
      ∃ q, EQProcessor.safeFreq (XFloat.fin s) f = XFloat.fin q ∧ 20 ≤ q ∧ q ≤ 0.45 * s) ∧
    (∀ x : XFloat, x ≠ XFloat.nan →
      ∃ q, EQProcessor.safeQ x = XFloat.fin q ∧ 1/5 ≤ q ∧ q ≤ 4) ∧
    (∀ sr : XFloat, EQProcessor.safeFreq sr XFloat.nan = XFloat.nan) ∧
    EQProcessor.safeQ XFloat.nan = XFloat.nan ∧
    (∀ (J : Juce XFloat) (self : EQProcessor J),
      (self.setParameters nanLowCutParams).eqChain.lowCut.state =
        .makeHighPass self.currentSpec.sampleRate XFloat.nan) := by
  refine ⟨fun J self => updateFilterCoefficients_designs self, safeGain_cases, safeGain_invalid,
    fun s f hs hf => safeFreq_range s hs f hf, safeQ_range, safeFreq_nan, safeQ_nan, ?_⟩
  intro J self
  have h := (updateFilterCoefficients_designs
    ({ self with currentParams := nanLowCutParams } : EQProcessor J)).1
  have hn : EQProcessor.safeFreq self.currentSpec.sampleRate nanLowCutParams.lowCutFreq
      = XFloat.nan := safeFreq_nan _
  rw [← hn]
  exact h

/-! ## The dynamics stage: de-esser and transient shaper (`DynamicsProcessor.cpp`) -/

section DynFrame

variable {F : Type} [Add F] [Sub F] [Mul F] [Div F] [Neg F] [LT F] [LE F]
  [@DecidableRel F (· < ·)] [@DecidableRel F (· ≤ ·)] [OfScientific F] [NatCast F]
  [FloatClassify F] {J : Juce F}

/-- On a prepared, not bypassed processor and a non-empty block, `process` is steps 1 and 2
followed by the transient-shaping loop over channel 0 and the makeup gain. -/
theorem dynamics_process_active (M : CMath F) (self : DynamicsProcessor J)
    (context : ProcessContext F) (hp : self.isPrepared = true)
    (hb : DynamicsProcessor.isBypassed self.params = false)
    (hn : ¬ (AudioBlock.getNumChannels context.block ≤ 0 ∨
      AudioBlock.getNumSamples context.block ≤ 0)) :
    self.process M context =
      (((self.compressAndDeess M context.block).1.transientGains
          ((self.compressAndDeess M context.block).2.headD [])).1,
       { block :=
           AudioBlock.multiply
             ((self.compressAndDeess M context.block).2.map (fun ch => mulGains ch
               ((self.compressAndDeess M context.block).1.transientGains
                 ((self.compressAndDeess M context.block).2.headD [])).2))
             ((self.compressAndDeess M context.block).1.transientGains
               ((self.compressAndDeess M context.block).2.headD [])).1.makeupLinear
         calls := context.calls ++ [Stage.Dynamics] }) := by
  unfold DynamicsProcessor.process
  dsimp only
  rw [if_neg (by simp [hp]), if_neg (by simp [hb]), if_neg hn]
  rfl

/-- The smoothed gain and the shelf coefficients that steps 1 and 2 leave. -/
theorem compressAndDeess_gain (M : CMath F) (self : DynamicsProcessor J) (block : AudioBlock F) :
    (self.compressAndDeess M block).1.lastDeessGainLinear =
      self.lastDeessGainLinear * 0.8 +
        dbToLin M (-(if (0.0 : F) < self.deessLevel M block - self.params.deesserThreshold then
          (self.deessLevel M block - self.params.deesserThreshold) *
            (self.params.deesserRatio - 1.0) else 0.0)) * 0.2 ∧
    (self.compressAndDeess M block).1.deessShelf.coefficients =
      .makeHighShelf self.sampleRate (jlimit 2000.0 16000.0 self.params.deesserFreq) 0.707
        (jlimit 0.1 1.0 (self.compressAndDeess M block).1.lastDeessGainLinear) ∧
    (self.compressAndDeess M block).1.params = self.params ∧
    (self.compressAndDeess M block).1.envFast = self.envFast ∧
    (self.compressAndDeess M block).1.envSlow = self.envSlow ∧
    (self.compressAndDeess M block).1.atkCoeffFast = self.atkCoeffFast ∧
    (self.compressAndDeess M block).1.relCoeffFast = self.relCoeffFast ∧
    (self.compressAndDeess M block).1.atkCoeffSlow = self.atkCoeffSlow ∧
    (self.compressAndDeess M block).1.relCoeffSlow = self.relCoeffSlow :=
  ⟨rfl, rfl, rfl, rfl, rfl, rfl, rfl, rfl, rfl⟩

/-- The transient-shaping loop writes the two envelopes and nothing else. -/
theorem transientGains_frame (s : DynamicsProcessor J) (xs : List F) :
    ∃ ef es, (s.transientGains xs).1 = { s with envFast := ef, envSlow := es } := by
  induction xs generalizing s with
  | nil => exact ⟨s.envFast, s.envSlow, rfl⟩
  | cons x rest ih =>
    obtain ⟨ef, es, h⟩ := ih (s.transientStep (fabs x)).1
    refine ⟨ef, es, ?_⟩
    show ((s.transientStep (fabs x)).1.transientGains rest).1 = _
    rw [h]
    rfl

/-- What `process` leaves in the de-esser fields: nothing new on the three early returns, the
result of steps 1 and 2 otherwise. -/
theorem dynamics_process_deess (M : CMath F) (self : DynamicsProcessor J)
    (context : ProcessContext F) :
    (self.process M context).1.params = self.params ∧
    (((self.process M context).1.lastDeessGainLinear = self.lastDeessGainLinear ∧
        (self.process M context).1.deessShelf.coefficients = self.deessShelf.coefficients) ∨
      ((self.process M context).1.lastDeessGainLinear =
          (self.compressAndDeess M context.block).1.lastDeessGainLinear ∧
        (self.process M context).1.deessShelf.coefficients =
          (self.compressAndDeess M context.block).1.deessShelf.coefficients)) := by
  by_cases hp : self.isPrepared = true
  · by_cases hb : DynamicsProcessor.isBypassed self.params = true
    · rw [(dynamics_process_of_bypassed M self context (Or.inr hb)).2]
      exact ⟨rfl, Or.inl ⟨rfl, rfl⟩⟩
    · by_cases hn : (AudioBlock.getNumChannels context.block ≤ 0 ∨
          AudioBlock.getNumSamples context.block ≤ 0)
      · have e : (self.process M context).1 = self := by
          unfold DynamicsProcessor.process
          simp only [hp, hb, Bool.not_true, if_false, hn, if_true, Bool.false_eq_true]
        rw [e]
        exact ⟨rfl, Or.inl ⟨rfl, rfl⟩⟩
      · rw [dynamics_process_active M self context hp (by simpa using hb) hn]
        obtain ⟨ef, es, h⟩ := transientGains_frame (self.compressAndDeess M context.block).1
          ((self.compressAndDeess M context.block).2.headD [])
        dsimp only
        rw [h]
        exact ⟨rfl, Or.inr ⟨rfl, rfl⟩⟩
  · rw [(dynamics_process_of_bypassed M self context (Or.inl (by simpa using hp))).2]
    exact ⟨rfl, Or.inl ⟨rfl, rfl⟩⟩

end DynFrame

section Deesser

variable {K : Type} [LinearOrderedField K] {J : Juce K}

/-- The level `linToDb` returns is never below its floor of -150 dB. -/
theorem linToDb_ge (M : CMath K) (g : K) : -150 ≤ linToDb M g := by
  have e : (-150.0 : K) = -150 := by norm_num
  unfold linToDb Decibels.gainToDecibels jmax
  rw [e]
  split_ifs with h1 h2
  · exact h2.le
  · exact le_refl _
  · exact le_refl _

/-- The value of `dbToLin`: `pow (10, dB / 20)` above the floor of -100 dB, and 0 from the floor
down. -/
theorem dbToLin_eq (M : CMath K) (d : K) :
    dbToLin M (-d) = if d < 100 then M.pow 10 (-d / 20) else 0 := by
  have e1 : (-100.0 : K) = -100 := by norm_num
  have e2 : (10.0 : K) = 10 := by norm_num
  have e3 : -d * 0.05 = -d / 20 := by norm_num; ring
  have e4 : (0.0 : K) = 0 := by norm_num
  unfold dbToLin Decibels.decibelsToGain
  rw [e1, e2, e3, e4]
  by_cases h : d < 100
  · rw [if_pos h, if_pos (by linarith)]
  · rw [if_neg h, if_neg (by linarith)]

/-- The smoothing step keeps `[0, 1]`. -/
theorem smooth_range (old target : K) (h0 : 0 ≤ old) (h1 : old ≤ 1) (t0 : 0 ≤ target)
    (t1 : target ≤ 1) : 0 ≤ old * 0.8 + target * 0.2 ∧ old * 0.8 + target * 0.2 ≤ 1 := by
  norm_num
  constructor <;> linarith

end Deesser

section DeesserReal

variable {J : Juce ℝ}

/-- With the real `pow` and a de-esser ratio of at least 1 the target gain lies in `[0, 1]`. -/
theorem deess_target_range (M : CMath ℝ) (level thr ratio : ℝ) (hr : 1 ≤ ratio) :
    0 ≤ dbToLin { M with pow := Real.rpow }
        (-(if (0.0 : ℝ) < level - thr then (level - thr) * (ratio - 1.0) else 0.0)) ∧
    dbToLin { M with pow := Real.rpow }
        (-(if (0.0 : ℝ) < level - thr then (level - thr) * (ratio - 1.0) else 0.0)) ≤ 1 := by
  have hc : (0 : ℝ) ≤ (if (0.0 : ℝ) < level - thr then (level - thr) * (ratio - 1.0) else 0.0) := by
    split_ifs with h
    · norm_num at h ⊢
      exact mul_nonneg (by linarith) (by linarith)
    · norm_num
  generalize (if (0.0 : ℝ) < level - thr then (level - thr) * (ratio - 1.0) else 0.0) = c at hc
  rw [dbToLin_eq]
  split_ifs
  · constructor
    · exact Real.rpow_nonneg (by norm_num) _
    · exact Real.rpow_le_one_of_one_le_of_nonpos (by norm_num) (by linarith)
  · exact ⟨le_refl _, zero_le_one⟩

/-- With the real `pow`, one `process` call keeps the smoothed gain in `[0, 1]` when the
de-esser ratio is at least 1. -/
theorem process_deess_invariant (M : CMath ℝ) (self : DynamicsProcessor J)
    (context : ProcessContext ℝ) (hr : 1 ≤ self.params.deesserRatio)
    (h : 0 ≤ self.lastDeessGainLinear ∧ self.lastDeessGainLinear ≤ 1) :
    (0 ≤ (self.process { M with pow := Real.rpow } context).1.lastDeessGainLinear ∧
      (self.process { M with pow := Real.rpow } context).1.lastDeessGainLinear ≤ 1) ∧
    (self.process { M with pow := Real.rpow } context).1.params = self.params := by
  have hd := dynamics_process_deess { M with pow := Real.rpow } self context
  refine ⟨?_, hd.1⟩
  rcases hd.2 with h1 | h1
  · rw [h1.1]; exact h
  · rw [h1.1, (compressAndDeess_gain _ self context.block).1]
    exact smooth_range _ _ h.1 h.2 (deess_target_range M _ _ _ hr).1
      (deess_target_range M _ _ _ hr).2

/-- Any sequence of `process` calls keeps the smoothed gain in `[0, 1]`. -/
theorem process_sequence_deess (M : CMath ℝ) (blocks : List (ProcessContext ℝ))
    (self : DynamicsProcessor J) (hr : 1 ≤ self.params.deesserRatio)
    (h : 0 ≤ self.lastDeessGainLinear ∧ self.lastDeessGainLinear ≤ 1) :
    0 ≤ (blocks.foldl (fun s c => (s.process { M with pow := Real.rpow } c).1)
        self).lastDeessGainLinear ∧
    (blocks.foldl (fun s c => (s.process { M with pow := Real.rpow } c).1)
        self).lastDeessGainLinear ≤ 1 := by
  induction blocks generalizing self with
  | nil => exact h
  | cons c rest ih =>
    have hp := process_deess_invariant M self c hr h
    exact ih (self.process { M with pow := Real.rpow } c).1 (by rw [hp.2]; exact hr) hp.1

/-- Any sequence of `setParameters` and `process` calls keeps the smoothed gain in `[0, 1]`,
when every parameter set has a de-esser ratio of at least 1. -/
theorem update_sequence_deess (M : CMath ℝ)
    (steps : List (DynamicsParameters ℝ × ProcessContext ℝ))
    (hr : ∀ pc ∈ steps, 1 ≤ pc.1.deesserRatio) (self : DynamicsProcessor J)
    (h : 0 ≤ self.lastDeessGainLinear ∧ self.lastDeessGainLinear ≤ 1) :
    0 ≤ (steps.foldl (fun s pc => ((s.setParameters { M with pow := Real.rpow } pc.1).process
        { M with pow := Real.rpow } pc.2).1) self).lastDeessGainLinear ∧
    (steps.foldl (fun s pc => ((s.setParameters { M with pow := Real.rpow } pc.1).process
        { M with pow := Real.rpow } pc.2).1) self).lastDeessGainLinear ≤ 1 := by
  induction steps generalizing self with
  | nil => exact h
  | cons pc rest ih =>
    have hp := process_deess_invariant M (self.setParameters { M with pow := Real.rpow } pc.1)
      pc.2 (hr pc (List.mem_cons_self _ _)) h
    exact ih (fun q hq => hr q (List.mem_cons_of_mem _ hq)) _ hp.1

end DeesserReal

/-- With a threshold of at most -160 dB and a ratio of at least 11, the cut is at least 100 dB
whatever the block, and the target gain is 0: the smoothed gain is multiplied by 0.8. -/
theorem process_deess_floor (J : Juce ℝ) (M : CMath ℝ) (self : DynamicsProcessor J)
    (context : ProcessContext ℝ) (hp : self.isPrepared = true)
    (hb : DynamicsProcessor.isBypassed self.params = false)
    (hn : ¬ (AudioBlock.getNumChannels context.block ≤ 0 ∨
      AudioBlock.getNumSamples context.block ≤ 0))
    (hthr : self.params.deesserThreshold ≤ -160) (hratio : 11 ≤ self.params.deesserRatio) :
    (self.process M context).1.lastDeessGainLinear = self.lastDeessGainLinear * 0.8 ∧
    0 < self.deessLevel M context.block - self.params.deesserThreshold ∧
    100 ≤ (self.deessLevel M context.block - self.params.deesserThreshold) *
      (self.params.deesserRatio - 1) := by
  have hL : -150 ≤ self.deessLevel M context.block := linToDb_ge M _
  have hover : 0 < self.deessLevel M context.block - self.params.deesserThreshold := by
    linarith
  have hcut : 100 ≤ (self.deessLevel M context.block - self.params.deesserThreshold) *
      (self.params.deesserRatio - 1) := by nlinarith
  refine ⟨?_, hover, hcut⟩
  have ha := dynamics_process_active M self context hp hb hn
  obtain ⟨ef, es, hf⟩ := transientGains_frame (self.compressAndDeess M context.block).1
    ((self.compressAndDeess M context.block).2.headD [])
  have h1 : (self.process M context).1.lastDeessGainLinear =
      (self.compressAndDeess M context.block).1.lastDeessGainLinear := by
    rw [ha]; dsimp only; rw [hf]
  have e0 : (0.0 : ℝ) = 0 := by norm_num
  have e1 : (1.0 : ℝ) = 1 := by norm_num
  rw [h1, (compressAndDeess_gain M self context.block).1, dbToLin_eq, e0, e1, if_pos hover,
    if_neg (not_lt.mpr hcut)]
  ring

/-- C21 (as amended).  With the real `pow`, on a prepared, not bypassed processor and a non-empty
block, `process` updates the smoothed de-esser gain to `0.8 * old + 0.2 * target`, where
`over = rmsDb - deesserThreshold`, `cutDb = over * (deesserRatio - 1)` when `over > 0` and `0`
otherwise, and `target = 10 ^ (-cutDb / 20)` when `cutDb < 100` but `0` when `cutDb >= 100` (the
floor of `decibelsToGain`); the shelf is redesigned with the gain `clamp (new, 0.1, 1.0)`.
Starting from `reset`, after any sequence of `process` calls at a de-esser ratio of at least 1,
and after any sequence of `setParameters` and `process` calls whose ratios are at least 1, the
smoothed gain is in `[0, 1]`.  For any ratio the gain of the shelf that filters the block is
`clamp (new, 0.1, 1.0)`, which is in `[0.1, 1.0]`. -/
theorem deesser_gain_update_and_range (M : CMath ℝ) (J : Juce ℝ) :
    (∀ (self : DynamicsProcessor J) (context : ProcessContext ℝ) (over cutDb : ℝ),
      self.isPrepared = true → DynamicsProcessor.isBypassed self.params = false →
      ¬ (AudioBlock.getNumChannels context.block ≤ 0 ∨
        AudioBlock.getNumSamples context.block ≤ 0) →
      over = self.deessLevel { M with pow := Real.rpow } context.block
        - self.params.deesserThreshold →
      cutDb = (if 0 < over then over * (self.params.deesserRatio - 1) else 0) →
      (self.process { M with pow := Real.rpow } context).1.lastDeessGainLinear =
        0.8 * self.lastDeessGainLinear +
          0.2 * (if cutDb < 100 then Real.rpow 10 (-cutDb / 20) else 0) ∧
      (self.process { M with pow := Real.rpow } context).1.deessShelf.coefficients =
        .makeHighShelf self.sampleRate (jlimit 2000.0 16000.0 self.params.deesserFreq) 0.707
          (jlimit 0.1 1.0
            (self.process { M with pow := Real.rpow } context).1.lastDeessGainLinear)) ∧
    (∀ (self : DynamicsProcessor J) (blocks : List (ProcessContext ℝ)),
      1 ≤ self.params.deesserRatio →
      0 ≤ (blocks.foldl (fun s c => (s.process { M with pow := Real.rpow } c).1)
          self.reset).lastDeessGainLinear ∧
      (blocks.foldl (fun s c => (s.process { M with pow := Real.rpow } c).1)
          self.reset).lastDeessGainLinear ≤ 1) ∧
    (∀ (self : DynamicsProcessor J) (steps : List (DynamicsParameters ℝ × ProcessContext ℝ)),
      (∀ pc ∈ steps, 1 ≤ pc.1.deesserRatio) →
      0 ≤ (steps.foldl (fun s pc => ((s.setParameters { M with pow := Real.rpow } pc.1).process
          { M with pow := Real.rpow } pc.2).1) self.reset).lastDeessGainLinear ∧
      (steps.foldl (fun s pc => ((s.setParameters { M with pow := Real.rpow } pc.1).process
          { M with pow := Real.rpow } pc.2).1) self.reset).lastDeessGainLinear ≤ 1) ∧
    (∀ (self : DynamicsProcessor J) (block : AudioBlock ℝ),
      (self.compressAndDeess { M with pow := Real.rpow } block).2 =
        (J.iirProcess
          (.makeHighShelf self.sampleRate (jlimit 2000.0 16000.0 self.params.deesserFreq) 0.707
            (jlimit 0.1 1.0
              (self.compressAndDeess { M with pow := Real.rpow } block).1.lastDeessGainLinear))
          self.deessShelf.mem (J.compProcess self.comp block).2).2 ∧
      0.1 ≤ jlimit (0.1 : ℝ) 1.0
        (self.compressAndDeess { M with pow := Real.rpow } block).1.lastDeessGainLinear ∧
      jlimit (0.1 : ℝ) 1.0
        (self.compressAndDeess { M with pow := Real.rpow } block).1.lastDeessGainLinear
          ≤ 1.0) := by
  refine ⟨?_, ?_, ?_, ?_⟩
  · intro self context over cutDb hp hb hn hover hcut
    have hd := dynamics_process_deess { M with pow := Real.rpow } self context
    have ha := dynamics_process_active { M with pow := Real.rpow } self context hp hb hn
    obtain ⟨ef, es, hf⟩ := transientGains_frame
      (self.compressAndDeess { M with pow := Real.rpow } context.block).1
      ((self.compressAndDeess { M with pow := Real.rpow } context.block).2.headD [])
    have hg := compressAndDeess_gain { M with pow := Real.rpow } self context.block
    have h1 : (self.process { M with pow := Real.rpow } context).1.lastDeessGainLinear =
        (self.compressAndDeess { M with pow := Real.rpow } context.block).1.lastDeessGainLinear
        := by
      rw [ha]; dsimp only; rw [hf]
    have h2 : (self.process { M with pow := Real.rpow } context).1.deessShelf.coefficients =
        (self.compressAndDeess { M with pow := Real.rpow }
          context.block).1.deessShelf.coefficients := by
      rw [ha]; dsimp only; rw [hf]
    have e0 : (0.0 : ℝ) = 0 := by norm_num
    have e1 : (1.0 : ℝ) = 1 := by norm_num
    constructor
    · rw [h1, hg.1, dbToLin_eq, e0, e1, ← hover, ← hcut]
      show self.lastDeessGainLinear * 0.8 +
        (if cutDb < 100 then Real.rpow 10 (-cutDb / 20) else 0) * 0.2 = _
      ring
    · rw [h2, hg.2.1, h1]
  · intro self blocks hr
    refine process_sequence_deess M blocks self.reset hr ?_
    show 0 ≤ (1.0 : ℝ) ∧ (1.0 : ℝ) ≤ 1
    norm_num
  · intro self steps hr
    refine update_sequence_deess M steps hr self.reset ?_
    show 0 ≤ (1.0 : ℝ) ∧ (1.0 : ℝ) ≤ 1
    norm_num
  · intro self block
    exact ⟨rfl, jlimit_mem _ _ _ (by norm_num)⟩

theorem logb_ten_1em8 : Real.logb 10 (1.0e-8 : ℝ) = -8 := by
  have e : (1.0e-8 : ℝ) = ((10 : ℝ) ^ 8)⁻¹ := by norm_num
  rw [e, Real.logb_inv, Real.logb_pow, Real.logb_self_eq_one (by norm_num)]
  norm_num

theorem rpow_ten_neg5 : Real.rpow 10 (-5) = 1 / 100000 := by
  show (10 : ℝ) ^ (-5 : ℝ) = 1 / 100000
  rw [Real.rpow_neg (by norm_num)]
  have : ((10 : ℝ) ^ (5 : ℝ)) = 10 ^ (5 : ℕ) := by
    rw [← Real.rpow_natCast]; norm_num
  rw [this]
  norm_num

/-- On pass-through kernels with the real `sqrt` and `log10`, a silent one-sample block measures
the floor level of -150 dB. -/
theorem passJuce_silent_level (round : ℝ → Int) (M : CMath ℝ)
    (self : DynamicsProcessor (passJuce round)) :
    self.deessLevel { M with sqrt := Real.sqrt, log10 := Real.logb 10 } [[0]] = -150 := by
  have h : self.deessLevel { M with sqrt := Real.sqrt, log10 := Real.logb 10 } [[0]] =
      linToDb { M with sqrt := Real.sqrt, log10 := Real.logb 10 }
        (fmax 1.0e-8 (Real.sqrt ((0.0 + (0.0 + 0) / ((max 1 1 : ℕ) : ℝ) *
          ((0.0 + 0) / ((max 1 1 : ℕ) : ℝ))) / ((max 1 1 : ℕ) : ℝ)))) := rfl
  rw [h]
  have e0 : ((0.0 + (0.0 + 0) / ((max 1 1 : ℕ) : ℝ) *
      ((0.0 + 0) / ((max 1 1 : ℕ) : ℝ))) / ((max 1 1 : ℕ) : ℝ)) = (0 : ℝ) := by norm_num
  rw [e0, Real.sqrt_zero]
  have e1 : fmax (1.0e-8 : ℝ) 0 = 1.0e-8 := by
    unfold fmax; rw [if_neg (by norm_num)]
  rw [e1]
  unfold linToDb Decibels.gainToDecibels jmax
  rw [if_pos (by norm_num)]
  show (if (-150.0 : ℝ) < Real.logb 10 1.0e-8 * 20.0 then Real.logb 10 1.0e-8 * 20.0
    else -150.0) = -150
  rw [logb_ten_1em8, if_neg (by norm_num)]
  norm_num

/-- C21, counterexample: with the real `<cmath>` functions, on pass-through kernels, a prepared
processor with `deesserThreshold = -160` and `deesserRatio = 11` (other parameters at their
defaults, smoothed gain 1.0) is given the silent block `[[0]]`.  The level is the floor
`rmsDb = -150`, so `over = 10 > 0` and `cutDb = 10 * (11 - 1) = 100`.  The code leaves the
smoothed gain at exactly `0.8`; the formula `0.8 * old + 0.2 * 10 ^ (-cutDb / 20)` gives
`0.800002`. -/
theorem deesser_target_floors_at_100_dB :
    (((DynamicsProcessor.new (passJuce (fun x : ℝ => ⌊x + 1 / 2⌋))).prepare
        (CMath.mk Real.tanh Real.rpow Real.exp Real.sin Real.sqrt (Real.logb 10))
        { sampleRate := 44100, maximumBlockSize := 512, numChannels := 1 }).setParameters
        (CMath.mk Real.tanh Real.rpow Real.exp Real.sin Real.sqrt (Real.logb 10))
        { (DynamicsParameters.init : DynamicsParameters ℝ) with
          deesserThreshold := -160, deesserRatio := 11 }).lastDeessGainLinear = 1.0 ∧
    (((DynamicsProcessor.new (passJuce (fun x : ℝ => ⌊x + 1 / 2⌋))).prepare
        (CMath.mk Real.tanh Real.rpow Real.exp Real.sin Real.sqrt (Real.logb 10))
        { sampleRate := 44100, maximumBlockSize := 512, numChannels := 1 }).setParameters
        (CMath.mk Real.tanh Real.rpow Real.exp Real.sin Real.sqrt (Real.logb 10))
        { (DynamicsParameters.init : DynamicsParameters ℝ) with
          deesserThreshold := -160, deesserRatio := 11 }).deessLevel
        (CMath.mk Real.tanh Real.rpow Real.exp Real.sin Real.sqrt (Real.logb 10)) [[0]] = -150 ∧
    ((((DynamicsProcessor.new (passJuce (fun x : ℝ => ⌊x + 1 / 2⌋))).prepare
        (CMath.mk Real.tanh Real.rpow Real.exp Real.sin Real.sqrt (Real.logb 10))
        { sampleRate := 44100, maximumBlockSize := 512, numChannels := 1 }).setParameters
        (CMath.mk Real.tanh Real.rpow Real.exp Real.sin Real.sqrt (Real.logb 10))
        { (DynamicsParameters.init : DynamicsParameters ℝ) with
          deesserThreshold := -160, deesserRatio := 11 }).process
        (CMath.mk Real.tanh Real.rpow Real.exp Real.sin Real.sqrt (Real.logb 10))
        { block := [[0]], calls := [] }).1.lastDeessGainLinear = 0.8 ∧
    0.8 * (1.0 : ℝ) + 0.2 * Real.rpow 10 (-((-150 - (-160)) * (11 - 1)) / 20) = 0.800002 ∧
    ((((DynamicsProcessor.new (passJuce (fun x : ℝ => ⌊x + 1 / 2⌋))).prepare
        (CMath.mk Real.tanh Real.rpow Real.exp Real.sin Real.sqrt (Real.logb 10))
        { sampleRate := 44100, maximumBlockSize := 512, numChannels := 1 }).setParameters
        (CMath.mk Real.tanh Real.rpow Real.exp Real.sin Real.sqrt (Real.logb 10))
        { (DynamicsParameters.init : DynamicsParameters ℝ) with
          deesserThreshold := -160, deesserRatio := 11 }).process
        (CMath.mk Real.tanh Real.rpow Real.exp Real.sin Real.sqrt (Real.logb 10))
        { block := [[0]], calls := [] }).1.lastDeessGainLinear ≠
      0.8 * (((DynamicsProcessor.new (passJuce (fun x : ℝ => ⌊x + 1 / 2⌋))).prepare
        (CMath.mk Real.tanh Real.rpow Real.exp Real.sin Real.sqrt (Real.logb 10))
        { sampleRate := 44100, maximumBlockSize := 512, numChannels := 1 }).setParameters
        (CMath.mk Real.tanh Real.rpow Real.exp Real.sin Real.sqrt (Real.logb 10))
        { (DynamicsParameters.init : DynamicsParameters ℝ) with
          deesserThreshold := -160, deesserRatio := 11 }).lastDeessGainLinear +
        0.2 * Real.rpow 10
          (-(((((DynamicsProcessor.new (passJuce (fun x : ℝ => ⌊x + 1 / 2⌋))).prepare
            (CMath.mk Real.tanh Real.rpow Real.exp Real.sin Real.sqrt (Real.logb 10))
            { sampleRate := 44100, maximumBlockSize := 512, numChannels := 1 }).setParameters
            (CMath.mk Real.tanh Real.rpow Real.exp Real.sin Real.sqrt (Real.logb 10))
            { (DynamicsParameters.init : DynamicsParameters ℝ) with
              deesserThreshold := -160, deesserRatio := 11 }).deessLevel
              (CMath.mk Real.tanh Real.rpow Real.exp Real.sin Real.sqrt (Real.logb 10)) [[0]] -
            (((DynamicsProcessor.new (passJuce (fun x : ℝ => ⌊x + 1 / 2⌋))).prepare
            (CMath.mk Real.tanh Real.rpow Real.exp Real.sin Real.sqrt (Real.logb 10))
            { sampleRate := 44100, maximumBlockSize := 512, numChannels := 1 }).setParameters
            (CMath.mk Real.tanh Real.rpow Real.exp Real.sin Real.sqrt (Real.logb 10))
            { (DynamicsParameters.init : DynamicsParameters ℝ) with
              deesserThreshold := -160, deesserRatio := 11 }).params.deesserThreshold) *
            ((((DynamicsProcessor.new (passJuce (fun x : ℝ => ⌊x + 1 / 2⌋))).prepare
            (CMath.mk Real.tanh Real.rpow Real.exp Real.sin Real.sqrt (Real.logb 10))
            { sampleRate := 44100, maximumBlockSize := 512, numChannels := 1 }).setParameters
            (CMath.mk Real.tanh Real.rpow Real.exp Real.sin Real.sqrt (Real.logb 10))
            { (DynamicsParameters.init : DynamicsParameters ℝ) with
              deesserThreshold := -160, deesserRatio := 11 }).params.deesserRatio - 1)) / 20) := by
  have hl : (((DynamicsProcessor.new (passJuce (fun x : ℝ => ⌊x + 1 / 2⌋))).prepare
      (CMath.mk Real.tanh Real.rpow Real.exp Real.sin Real.sqrt (Real.logb 10))
      { sampleRate := 44100, maximumBlockSize := 512, numChannels := 1 }).setParameters
      (CMath.mk Real.tanh Real.rpow Real.exp Real.sin Real.sqrt (Real.logb 10))
      { (DynamicsParameters.init : DynamicsParameters ℝ) with
        deesserThreshold := -160, deesserRatio := 11 }).deessLevel
      (CMath.mk Real.tanh Real.rpow Real.exp Real.sin Real.sqrt (Real.logb 10)) [[0]] = -150 :=
    passJuce_silent_level _ (CMath.mk Real.tanh Real.rpow Real.exp Real.sin Real.sqrt (Real.logb 10)) _
  have h := process_deess_floor (passJuce (fun x : ℝ => ⌊x + 1 / 2⌋))
    (CMath.mk Real.tanh Real.rpow Real.exp Real.sin Real.sqrt (Real.logb 10))
    (((DynamicsProcessor.new (passJuce (fun x : ℝ => ⌊x + 1 / 2⌋))).prepare
    (CMath.mk Real.tanh Real.rpow Real.exp Real.sin Real.sqrt (Real.logb 10))
    { sampleRate := 44100, maximumBlockSize := 512, numChannels := 1 }).setParameters
    (CMath.mk Real.tanh Real.rpow Real.exp Real.sin Real.sqrt (Real.logb 10))
    { (DynamicsParameters.init : DynamicsParameters ℝ) with
      deesserThreshold := -160, deesserRatio := 11 })
    { block := [[0]], calls := [] } rfl
    (by
      show DynamicsProcessor.isBypassed
        { (DynamicsParameters.init : DynamicsParameters ℝ) with
          deesserThreshold := -160, deesserRatio := 11 } = false
      norm_num [DynamicsProcessor.isBypassed, DynamicsParameters.init, fabs])
    (by decide) (le_refl _) (le_refl _)
  have hlast : (((DynamicsProcessor.new (passJuce (fun x : ℝ => ⌊x + 1 / 2⌋))).prepare
      (CMath.mk Real.tanh Real.rpow Real.exp Real.sin Real.sqrt (Real.logb 10))
      { sampleRate := 44100, maximumBlockSize := 512, numChannels := 1 }).setParameters
      (CMath.mk Real.tanh Real.rpow Real.exp Real.sin Real.sqrt (Real.logb 10))
      { (DynamicsParameters.init : DynamicsParameters ℝ) with
        deesserThreshold := -160, deesserRatio := 11 }).lastDeessGainLinear = 1.0 := rfl
  have hthr : (((DynamicsProcessor.new (passJuce (fun x : ℝ => ⌊x + 1 / 2⌋))).prepare
      (CMath.mk Real.tanh Real.rpow Real.exp Real.sin Real.sqrt (Real.logb 10))
      { sampleRate := 44100, maximumBlockSize := 512, numChannels := 1 }).setParameters
      (CMath.mk Real.tanh Real.rpow Real.exp Real.sin Real.sqrt (Real.logb 10))
      { (DynamicsParameters.init : DynamicsParameters ℝ) with
        deesserThreshold := -160, deesserRatio := 11 }).params.deesserThreshold = -160 := rfl
  have hratio : (((DynamicsProcessor.new (passJuce (fun x : ℝ => ⌊x + 1 / 2⌋))).prepare
      (CMath.mk Real.tanh Real.rpow Real.exp Real.sin Real.sqrt (Real.logb 10))
      { sampleRate := 44100, maximumBlockSize := 512, numChannels := 1 }).setParameters
      (CMath.mk Real.tanh Real.rpow Real.exp Real.sin Real.sqrt (Real.logb 10))
      { (DynamicsParameters.init : DynamicsParameters ℝ) with
        deesserThreshold := -160, deesserRatio := 11 }).params.deesserRatio = 11 := rfl
  have hnew : ((((DynamicsProcessor.new (passJuce (fun x : ℝ => ⌊x + 1 / 2⌋))).prepare
      (CMath.mk Real.tanh Real.rpow Real.exp Real.sin Real.sqrt (Real.logb 10))
      { sampleRate := 44100, maximumBlockSize := 512, numChannels := 1 }).setParameters
      (CMath.mk Real.tanh Real.rpow Real.exp Real.sin Real.sqrt (Real.logb 10))
      { (DynamicsParameters.init : DynamicsParameters ℝ) with
        deesserThreshold := -160, deesserRatio := 11 }).process
      (CMath.mk Real.tanh Real.rpow Real.exp Real.sin Real.sqrt (Real.logb 10))
      { block := [[0]], calls := [] }).1.lastDeessGainLinear = 0.8 := by
    rw [h.1, hlast]; norm_num
  have hform : 0.8 * (1.0 : ℝ) + 0.2 * Real.rpow 10 (-((-150 - (-160)) * (11 - 1)) / 20)
      = 0.800002 := by
    have e : (-((-150 - (-160)) * (11 - 1)) / 20 : ℝ) = -5 := by norm_num
    rw [e, rpow_ten_neg5]
    norm_num
  refine ⟨hlast, hl, hnew, hform, ?_⟩
  rw [hnew, hlast, hl, hthr, hratio, hform]
  norm_num

section Transient

variable {K : Type} [LinearOrderedField K] {J : Juce K}

/-- The gain of one sample index, in terms of the two envelopes just updated. -/
theorem transientStep_gain (s : DynamicsProcessor J) (x : K) :
    (s.transientStep x).2 =
      jlimit 0.25 4.0
        ((1 + 2 * s.params.transientAttack *
            jlimit (-1) 1 ((s.transientStep x).1.envFast - (s.transientStep x).1.envSlow)) *
          (1 + 0.5 * s.params.transientSustain * (s.transientStep x).1.envSlow)) := by
  have e1 : (1.0 : K) = 1 := by norm_num
  have e2 : (2.0 : K) = 2 := by norm_num
  unfold DynamicsProcessor.transientStep
  dsimp only
  rw [e1, e2]
  congr 1
  ring

end Transient

section TransientReal

variable {J : Juce ℝ}

end TransientReal

section TransientExplicit

variable {K : Type} [LinearOrderedField K] {J : Juce K}

end TransientExplicit

theorem historyJuce_iirProcess (c : IIRCoefficients ℚ) (s : ℚ) (ch : List ℚ)
    (rest : List (List ℚ)) :
    historyJuce.iirProcess c s (ch :: rest) = ((twoTap s ch).1, (twoTap s ch).2 :: rest) := rfl

theorem historyJuce_up (s : historyJuce.OversamplingState) (b : AudioBlock ℚ) :
    (historyJuce.osProcessSamplesUp s b).2 = b := rfl

theorem historyJuce_down (s : historyJuce.OversamplingState) (os b : AudioBlock ℚ) :
    (historyJuce.osProcessSamplesDown s os b).2 = os := rfl

theorem historyJuce_mix (s : historyJuce.MixerState) (b : AudioBlock ℚ) :
    (historyJuce.mixerMixWetSamples s b).2 = b := rfl

theorem historyJuce_iirReset (s : ℚ) : historyJuce.iirReset s = (0 : ℚ) := rfl

/-- C23 (the code at the failing input).  The tone-filter loop runs the one `toneFilter` over
the channels in turn, so channel 1 is filtered from the history channel 0 left, for every
behaviour of the kernels.  On kernels whose filter has a history (`historyJuce`), the blocks
`[[1, 2], [3, 4]]` and `[[1, 7], [3, 4]]`, which differ only in channel 0, give the channel 1
outputs `[339/1330, 669/2590]` and `[291/1120, 669/2590]`: channel 1 depends on channel 0. -/
theorem toneFilter_history_crosses_channels :
    (∀ (J : Juce ℚ) (c : IIRCoefficients ℚ) (mem : J.IIRState) (a b : List ℚ)
        (rest : List (List ℚ)),
      (toneFilterChannels J c mem (a :: b :: rest)).2 =
        (J.iirProcess c mem [a]).2.headD [] ::
          (J.iirProcess c (J.iirProcess c mem [a]).1 [b]).2.headD [] ::
            (toneFilterChannels J c (J.iirProcess c (J.iirProcess c mem [a]).1 [b]).1
              rest).2) ∧
    ((((SaturationProcessor.new historyJuce).prepare ratMath testSpec).setParameters ratMath
      activeSaturation).process ratMath { block := [[1, 2], [3, 4]], calls := [] }).2.block
      = [[3/25, 117/475], [339/1330, 669/2590]] ∧
    ((((SaturationProcessor.new historyJuce).prepare ratMath testSpec).setParameters ratMath
      activeSaturation).process ratMath { block := [[1, 7], [3, 4]], calls := [] }).2.block
      = [[3/25, 201/800], [291/1120, 669/2590]] ∧
    (((((SaturationProcessor.new historyJuce).prepare ratMath testSpec).setParameters ratMath
      activeSaturation).process ratMath { block := [[1, 2], [3, 4]], calls := [] }).2.block).getD
        1 [] ≠
    (((((SaturationProcessor.new historyJuce).prepare ratMath testSpec).setParameters ratMath
      activeSaturation).process ratMath { block := [[1, 7], [3, 4]], calls := [] }).2.block).getD
        1 [] := by
  have h1 : ((((SaturationProcessor.new historyJuce).prepare ratMath testSpec).setParameters
      ratMath activeSaturation).process ratMath
        { block := [[1, 2], [3, 4]], calls := [] }).2.block
      = [[3/25, 117/475], [339/1330, 669/2590]] := by
    simp only [SaturationProcessor.process, SaturationProcessor.setParameters,
      SaturationProcessor.prepare, SaturationProcessor.new, SaturationProcessor.updateDrive,
      SaturationProcessor.updateToneFilter, SaturationProcessor.updateWaveshaper,
      activeSaturation, SaturationParameters.init, Option.map, toneFilterChannels,
      historyJuce_iirProcess, historyJuce_up, historyJuce_down, historyJuce_mix,
      historyJuce_iirReset, twoTap, shapeOf, tapeShape, ratMath, AudioBlock.multiply, jmax,
      Decibels.decibelsToGain, AudioBlock.getNumChannels, AudioBlock.getNumSamples,
      List.map, List.headD, List.length]
    norm_num
  have h2 : ((((SaturationProcessor.new historyJuce).prepare ratMath testSpec).setParameters
      ratMath activeSaturation).process ratMath
        { block := [[1, 7], [3, 4]], calls := [] }).2.block
      = [[3/25, 201/800], [291/1120, 669/2590]] := by
    simp only [SaturationProcessor.process, SaturationProcessor.setParameters,
      SaturationProcessor.prepare, SaturationProcessor.new, SaturationProcessor.updateDrive,
      SaturationProcessor.updateToneFilter, SaturationProcessor.updateWaveshaper,
      activeSaturation, SaturationParameters.init, Option.map, toneFilterChannels,
      historyJuce_iirProcess, historyJuce_up, historyJuce_down, historyJuce_mix,
      historyJuce_iirReset, twoTap, shapeOf, tapeShape, ratMath, AudioBlock.multiply, jmax,
      Decibels.decibelsToGain, AudioBlock.getNumChannels, AudioBlock.getNumSamples,
      List.map, List.headD, List.length]
    norm_num
  refine ⟨fun J c mem a b rest => rfl, h1, h2, ?_⟩
  rw [h1, h2]
  norm_num

/-! ## Bypass conditions met or missed by mapped parameters -/

section MapperBypass

variable {K : Type} [LinearOrderedField K]

theorem mapDynamics_ratio_lower (M : CMath K) (thump body shimmer spank : K) (mode : ToneMode) :
    (match mode with
        | .RHYTHM => (1.8 : K)
        | .LEAD => 2.0
        | .CLEAN => 1.2) ≤ (mapDynamics M thump body shimmer spank mode).compRatio := by
  rw [(mapDynamics_shape M thump body shimmer spank mode).2.1]
  have e0 : (0.0 : K) = 0 := by norm_num
  have e1 : (1.0 : K) = 1 := by norm_num
  simp only [fmax_eq_max, e0, e1]
  have h0 : (0 : K) ≤ max 0 (musicalCurve M (centreAround0 spank)) := le_max_left _ _
  generalize max 0 (musicalCurve M (centreAround0 spank)) = kp at h0
  cases mode
  · refine le_trans ?_ (le_max_right _ _)
    norm_num; positivity
  · refine le_trans ?_ (le_max_right _ _)
    norm_num; positivity
  · refine le_trans ?_ (le_max_right _ _)
    norm_num; positivity

theorem mapped_dynamics_runs_compressor (M : CMath K) (J : Juce K) (self : DynamicsProcessor J)
    (p : DynamicsParameters K) (context : ProcessContext K)
    (hb : DynamicsProcessor.isBypassed p = false) (hp : self.isPrepared = true)
    (hn : ¬ (AudioBlock.getNumChannels context.block ≤ 0 ∨
      AudioBlock.getNumSamples context.block ≤ 0)) :
    ((self.setParameters M p).process M context).1.comp =
      (J.compProcess (self.setParameters M p).comp context.block).1 := by
  rw [dynamics_process_active M (self.setParameters M p) context hp hb hn]
  obtain ⟨ef, es, h⟩ := transientGains_frame
    ((self.setParameters M p).compressAndDeess M context.block).1
    (((self.setParameters M p).compressAndDeess M context.block).2.headD [])
  dsimp only
  rw [h]
  rfl

/-- C24.  For every input, every mode and every `<cmath>` over an ordered field, `mapDynamics`
returns `compRatio` of at least 1.8 in RHYTHM, 2.0 in LEAD and 1.2 in CLEAN, so at least 1.2;
hence `|compRatio - 1| < 0.01` is false and the bypass test of `DynamicsProcessor::process` fails:
a prepared processor given these parameters and a non-empty block runs the compressor. -/
theorem mapDynamics_never_bypassed (M : CMath K) (thump body shimmer spank : K)
    (mode : ToneMode) :
    (match mode with
        | .RHYTHM => (1.8 : K)
        | .LEAD => 2.0
        | .CLEAN => 1.2) ≤ (mapDynamics M thump body shimmer spank mode).compRatio ∧
    1.2 ≤ (mapDynamics M thump body shimmer spank mode).compRatio ∧
    ¬ (|(mapDynamics M thump body shimmer spank mode).compRatio - 1| < 0.01) ∧
    DynamicsProcessor.isBypassed (mapDynamics M thump body shimmer spank mode) = false ∧
    (∀ (J : Juce K) (self : DynamicsProcessor J) (context : ProcessContext K),
      self.isPrepared = true →
      ¬ (AudioBlock.getNumChannels context.block ≤ 0 ∨
        AudioBlock.getNumSamples context.block ≤ 0) →
      ((self.setParameters M (mapDynamics M thump body shimmer spank mode)).process M
          context).1.comp =
        (J.compProcess
          (self.setParameters M (mapDynamics M thump body shimmer spank mode)).comp
          context.block).1) := by
  have h := mapDynamics_ratio_lower M thump body shimmer spank mode
  have h12 : (1.2 : K) ≤ (mapDynamics M thump body shimmer spank mode).compRatio := by
    refine le_trans ?_ h
    cases mode <;> norm_num
  have hn : ¬ (|(mapDynamics M thump body shimmer spank mode).compRatio - 1| < 0.01) := by
    rw [not_lt]
    refine le_trans ?_ (le_abs_self _)
    norm_num at h12 ⊢
    linarith
  have hb : DynamicsProcessor.isBypassed (mapDynamics M thump body shimmer spank mode)
      = false := by
    unfold DynamicsProcessor.isBypassed
    have e1 : (1.0 : K) = 1 := by norm_num
    rw [fabs_eq_abs, e1, decide_eq_false hn]
    rfl
  exact ⟨h, h12, hn, hb, fun J self context hp hne =>
    mapped_dynamics_runs_compressor M J self _ context hb hp hne⟩

theorem musicalCurve_dead (M : CMath K) (v : K) (h : |v - 0.5| < 0.075) :
    musicalCurve M (centreAround0 v) = 0 := by
  have e : centreAround0 v = 2 * (v - 0.5) := by unfold centreAround0; ring
  have h2 : |centreAround0 v| < 0.15 := by
    rw [e, abs_mul, abs_of_pos (by norm_num : (0:K) < 2)]
    linarith
  unfold musicalCurve
  dsimp only
  rw [fabs_eq_abs, if_pos h2]
  norm_num

/-- With the three curve values zero, the five gains of `mapEQ` are `pow (10, 0)`. -/
theorem mapEQ_gains_of_dead (M : CMath K) (hpow : M.pow 10 0 = 1)
    (character thump body shimmer : K) (mode : ToneMode)
    (ht : musicalCurve M (centreAround0 thump) = 0)
    (hb : musicalCurve M (centreAround0 body) = 0)
    (hs : musicalCurve M (centreAround0 shimmer) = 0) :
    (mapEQ M character thump body shimmer mode).lowShelfGain = 1 ∧
    (mapEQ M character thump body shimmer mode).mid1Gain = 1 ∧
    (mapEQ M character thump body shimmer mode).mid2Gain = 1 ∧
    (mapEQ M character thump body shimmer mode).highShelfGain = 1 ∧
    (mapEQ M character thump body shimmer mode).airBandGain = 1 := by
  cases mode <;>
    simp only [mapEQ, ht, hb, hs, reduceCtorEq, ↓reduceIte, or_false, or_true, true_or,
      or_self] <;>
    norm_num [linFromDbClamped, Decibels.decibelsToGain, hpow]

theorem isFlat_of_unit_gains (p : EQParameters K) (h1 : p.lowShelfGain = 1)
    (h2 : p.mid1Gain = 1) (h3 : p.mid2Gain = 1) (h4 : p.highShelfGain = 1)
    (h5 : p.airBandGain = 1) : EQProcessor.isFlat p = true := by
  unfold EQProcessor.isFlat
  rw [h1, h2, h3, h4, h5]
  norm_num [fabs]

end MapperBypass

/-- C25.  With the real `pow`, for every mode and every character, when thump, body and shimmer
each satisfy `|v - 0.5| < 0.075`, `mapEQ` returns the five gains exactly 1.0; the `isFlat` test
holds, and `EQProcessor::process` after `setParameters` with these parameters leaves the block
and the processor unchanged. -/
theorem mapEQ_dead_zone_is_flat (M : CMath ℝ) (character thump body shimmer : ℝ)
    (mode : ToneMode) (ht : |thump - 0.5| < 0.075) (hb : |body - 0.5| < 0.075)
    (hs : |shimmer - 0.5| < 0.075) :
    ((mapEQ { M with pow := Real.rpow } character thump body shimmer mode).lowShelfGain = 1 ∧
      (mapEQ { M with pow := Real.rpow } character thump body shimmer mode).mid1Gain = 1 ∧
      (mapEQ { M with pow := Real.rpow } character thump body shimmer mode).mid2Gain = 1 ∧
      (mapEQ { M with pow := Real.rpow } character thump body shimmer mode).highShelfGain = 1 ∧
      (mapEQ { M with pow := Real.rpow } character thump body shimmer mode).airBandGain = 1) ∧
    EQProcessor.isFlat (mapEQ { M with pow := Real.rpow } character thump body shimmer mode)
      = true ∧
    (∀ (J : Juce ℝ) (self : EQProcessor J) (context : ProcessContext ℝ),
      ((self.setParameters
          (mapEQ { M with pow := Real.rpow } character thump body shimmer mode)).process
            context).2.block = context.block ∧
      ((self.setParameters
          (mapEQ { M with pow := Real.rpow } character thump body shimmer mode)).process
            context).1 =
        self.setParameters
          (mapEQ { M with pow := Real.rpow } character thump body shimmer mode)) := by
  have hpow : ({ M with pow := Real.rpow } : CMath ℝ).pow 10 0 = 1 := Real.rpow_zero 10
  have hg := mapEQ_gains_of_dead _ hpow character thump body shimmer mode
    (musicalCurve_dead _ _ ht) (musicalCurve_dead _ _ hb) (musicalCurve_dead _ _ hs)
  have hf := isFlat_of_unit_gains _ hg.1 hg.2.1 hg.2.2.1 hg.2.2.2.1 hg.2.2.2.2
  refine ⟨hg, hf, ?_⟩
  intro J self context
  exact eq_process_of_flat _ context hf

theorem mapEQ_dead_zone_is_flat_witness :
    (|(0.52 : ℝ) - 0.5| < 0.075 ∧ |(0.45 : ℝ) - 0.5| < 0.075 ∧ |(0.57 : ℝ) - 0.5| < 0.075) ∧
    EQProcessor.isFlat
      (mapEQ (CMath.mk Real.tanh Real.rpow Real.exp Real.sin Real.sqrt (Real.logb 10))
        0.9 0.52 0.45 0.57 .LEAD) = true :=
  ⟨⟨by norm_num [abs_lt], by norm_num [abs_lt], by norm_num [abs_lt]⟩,
   (mapEQ_dead_zone_is_flat
      (CMath.mk Real.tanh Real.rpow Real.exp Real.sin Real.sqrt (Real.logb 10))
      0.9 0.52 0.45 0.57 .LEAD (by norm_num [abs_lt]) (by norm_num [abs_lt])
      (by norm_num [abs_lt])).2.1⟩

section SatBypass

/-- `c ^ e >= c` for `c` in `(0, 1]` and an exponent `e <= 1`. -/
theorem rpow_ge_self {c e : ℝ} (h0 : 0 < c) (h1 : c ≤ 1) (he1 : e ≤ 1) :
    c ≤ Real.rpow c e := by
  have h := Real.rpow_le_rpow_of_exponent_ge h0 h1 he1
  rw [Real.rpow_one] at h
  exact h

theorem saturation_setParameters_params (M : CMath ℝ) (J : Juce ℝ)
    (self : SaturationProcessor J) (p : SaturationParameters ℝ) :
    (self.setParameters M p).params = p := by
  unfold SaturationProcessor.setParameters
  dsimp only
  split_ifs <;> rfl

/-- The drive and mix fields of `mapSaturation`, as the source computes them. -/
theorem mapSaturation_drive_mix (M : CMath ℝ) (character body shimmer : ℝ) (mode : ToneMode) :
    (mapSaturation M character body shimmer mode).drive =
      (if jlimit 0.0 1.0 character < 0.00999999977648258209228515625 then 0.0
        else jlimit 0.0 1.0 (M.pow (jlimit 0.0 1.0 character) 0.9 *
          (if mode = .RHYTHM then 0.9 else if mode = .LEAD then 1.0 else 0.4))) ∧
    (mapSaturation M character body shimmer mode).mix =
      (if jlimit 0.0 1.0 character < 0.00999999977648258209228515625 then 0.0
        else jlimit 0.0 1.0
          ((if mode = .RHYTHM then 0.0 else if mode = .LEAD then 0.1 else 0.0) +
            M.pow (jlimit 0.0 1.0 character) 0.6 *
              ((if mode = .RHYTHM then 0.6 else if mode = .LEAD then 0.85 else 0.35) -
                (if mode = .RHYTHM then 0.0 else if mode = .LEAD then 0.1 else 0.0)))) :=
  ⟨rfl, rfl⟩

/-- The clamp of the character is below the guard constant exactly when the character is. -/
theorem character_clamp_guard (character : ℝ) :
    (jlimit (0.0 : ℝ) 1.0 character < 0.00999999977648258209228515625 ↔
      character < 0.00999999977648258209228515625) ∧
    jlimit (0.0 : ℝ) 1.0 character ≤ 1 := by
  constructor
  · unfold jlimit
    split_ifs with h1 h2
    · constructor
      · intro _; exact lt_trans h1 (by norm_num)
      · intro _; norm_num
    · constructor
      · intro h; norm_num at h
      · intro h; exfalso; norm_num at h2; linarith
    · exact Iff.rfl
  · have h := (jlimit_mem (0.0 : ℝ) 1.0 character (by norm_num)).2
    norm_num at h ⊢
    exact h

/-- A clamp to `[0, 1]` of a value above a bound below 1 is above the bound. -/
theorem lt_jlimit_unit (b v : ℝ) (hb : b < 1) (hv : b < v) : b < jlimit 0.0 1.0 v := by
  rw [jlimit_eq _ _ _ (by norm_num)]
  exact lt_of_lt_of_le (lt_min (by norm_num; exact hb) hv) (le_max_right _ _)

/-- With the real `pow`, from the guard constant on, drive and mix are above 0.0001. -/
theorem mapSaturation_active (M : CMath ℝ) (character body shimmer : ℝ) (mode : ToneMode)
    (h : 0.00999999977648258209228515625 ≤ character) :
    0.0001 < (mapSaturation { M with pow := Real.rpow } character body shimmer mode).drive ∧
    0.0001 < (mapSaturation { M with pow := Real.rpow } character body shimmer mode).mix := by
  have hg := character_clamp_guard character
  have hnc : ¬ (jlimit (0.0 : ℝ) 1.0 character < 0.00999999977648258209228515625) := by
    rw [hg.1]; exact not_lt.mpr h
  have hc0 : (0.009 : ℝ) < jlimit (0.0 : ℝ) 1.0 character :=
    lt_of_lt_of_le (by norm_num) (not_lt.mp hnc)
  have hpos : (0 : ℝ) < jlimit (0.0 : ℝ) 1.0 character := lt_trans (by norm_num) hc0
  have p9 := rpow_ge_self hpos hg.2 (by norm_num : (0.9 : ℝ) ≤ 1)
  have p6 := rpow_ge_self hpos hg.2 (by norm_num : (0.6 : ℝ) ≤ 1)
  have hd := (mapSaturation_drive_mix { M with pow := Real.rpow } character body shimmer mode).1
  have hm := (mapSaturation_drive_mix { M with pow := Real.rpow } character body shimmer mode).2
  rw [if_neg hnc] at hd hm
  rw [hd, hm]
  generalize jlimit (0.0 : ℝ) 1.0 character = c at hc0 p9 p6
  have p9' : c ≤ ({ M with pow := Real.rpow } : CMath ℝ).pow c 0.9 := p9
  have p6' : c ≤ ({ M with pow := Real.rpow } : CMath ℝ).pow c 0.6 := p6
  generalize ({ M with pow := Real.rpow } : CMath ℝ).pow c 0.9 = d9 at p9'
  generalize ({ M with pow := Real.rpow } : CMath ℝ).pow c 0.6 = d6 at p6'
  constructor
  · apply lt_jlimit_unit _ _ (by norm_num)
    cases mode <;> simp only [reduceCtorEq, ↓reduceIte] <;> norm_num <;> linarith
  · apply lt_jlimit_unit _ _ (by norm_num)
    cases mode <;> simp only [reduceCtorEq, ↓reduceIte] <;> norm_num <;> linarith

/-- C26 (as amended).  With the real `pow`, for every mode, body and shimmer, with
`T = 0.00999999977648258209228515625` the value of the constant `0.01f`: `character < T` gives
`drive = 0` and `mix = 0`, and `SaturationProcessor::process` after `setParameters` with these
parameters leaves the block unchanged; `character >= T` gives `drive > 0.0001` and
`mix > 0.0001`, so the test `mix <= 0.0001 || drive <= 0.0001` of the early return fails. -/
theorem mapSaturation_bypassed_iff_character_small (M : CMath ℝ) (body shimmer : ℝ)
    (mode : ToneMode) :
    (∀ character : ℝ, character < 0.00999999977648258209228515625 →
      (mapSaturation { M with pow := Real.rpow } character body shimmer mode).drive = 0 ∧
      (mapSaturation { M with pow := Real.rpow } character body shimmer mode).mix = 0 ∧
      (∀ (J : Juce ℝ) (self : SaturationProcessor J) (context : ProcessContext ℝ),
        ((self.setParameters { M with pow := Real.rpow }
            (mapSaturation { M with pow := Real.rpow } character body shimmer mode)).process
              { M with pow := Real.rpow } context).2.block = context.block)) ∧
    (∀ character : ℝ, 0.00999999977648258209228515625 ≤ character →
      0.0001 < (mapSaturation { M with pow := Real.rpow } character body shimmer mode).drive ∧
      0.0001 < (mapSaturation { M with pow := Real.rpow } character body shimmer mode).mix ∧
      ¬ ((mapSaturation { M with pow := Real.rpow } character body shimmer mode).mix ≤ 0.0001 ∨
        (mapSaturation { M with pow := Real.rpow } character body shimmer mode).drive
          ≤ 0.0001)) := by
  constructor
  · intro character h
    have hc := (character_clamp_guard character).1.mpr h
    have hdm := mapSaturation_drive_mix { M with pow := Real.rpow } character body shimmer mode
    rw [if_pos hc, if_pos hc] at hdm
    have hd : (mapSaturation { M with pow := Real.rpow } character body shimmer mode).drive
        = 0 := by rw [hdm.1]; norm_num
    have hm : (mapSaturation { M with pow := Real.rpow } character body shimmer mode).mix
        = 0 := by rw [hdm.2]; norm_num
    refine ⟨hd, hm, ?_⟩
    intro J self context
    refine (saturation_process_of_bypassed _ _ context (Or.inr (Or.inl ?_))).1
    rw [saturation_setParameters_params, hm]
    norm_num
  · intro character h
    have ha := mapSaturation_active M character body shimmer mode h
    refine ⟨ha.1, ha.2, ?_⟩
    rintro (h1 | h1) <;> linarith [ha.1, ha.2]

end SatBypass

/-- C26, counterexample: the input `character = 0.00999999977648258209228515625` (the `float`
`0.01f`) is below 0.01, yet in RHYTHM with body and shimmer 0.5 (real `pow`) `mapSaturation`
returns `drive > 0.0001` and `mix > 0.0001`, not 0: the stage is not bypassed. -/
theorem mapSaturation_at_float_constant_not_bypassed :
    (0.00999999977648258209228515625 : ℝ) < 0.01 ∧
    0.0001 < (mapSaturation
      (CMath.mk Real.tanh Real.rpow Real.exp Real.sin Real.sqrt (Real.logb 10))
      0.00999999977648258209228515625 0.5 0.5 .RHYTHM).drive ∧
    0.0001 < (mapSaturation
      (CMath.mk Real.tanh Real.rpow Real.exp Real.sin Real.sqrt (Real.logb 10))
      0.00999999977648258209228515625 0.5 0.5 .RHYTHM).mix ∧
    (mapSaturation
      (CMath.mk Real.tanh Real.rpow Real.exp Real.sin Real.sqrt (Real.logb 10))
      0.00999999977648258209228515625 0.5 0.5 .RHYTHM).drive ≠ 0 ∧
    (mapSaturation
      (CMath.mk Real.tanh Real.rpow Real.exp Real.sin Real.sqrt (Real.logb 10))
      0.00999999977648258209228515625 0.5 0.5 .RHYTHM).mix ≠ 0 := by
  have ha := mapSaturation_active
    (CMath.mk Real.tanh Real.rpow Real.exp Real.sin Real.sqrt (Real.logb 10))
    0.00999999977648258209228515625 0.5 0.5 .RHYTHM (le_refl _)
  have hd : (0.0001 : ℝ) < (mapSaturation
      (CMath.mk Real.tanh Real.rpow Real.exp Real.sin Real.sqrt (Real.logb 10))
      0.00999999977648258209228515625 0.5 0.5 .RHYTHM).drive := ha.1
  have hm : (0.0001 : ℝ) < (mapSaturation
      (CMath.mk Real.tanh Real.rpow Real.exp Real.sin Real.sqrt (Real.logb 10))
      0.00999999977648258209228515625 0.5 0.5 .RHYTHM).mix := ha.2
  refine ⟨by norm_num, hd, hm, ?_, ?_⟩
  · intro h0; rw [h0] at hd; norm_num at hd
  · intro h0; rw [h0] at hm; norm_num at hm

section SpatialBypass

variable {K : Type} [LinearOrderedField K]

theorem mapSpatial_dry_fields (M : CMath K) (body shimmer space : K) (mode : ToneMode)
    (h : space ≤ 0) :
    (mapSpatial M body shimmer space mode).reverbMix = 0 ∧
    (mapSpatial M body shimmer space mode).delayMix = 0 ∧
    (mapSpatial M body shimmer space mode).chorusMix = 0 ∧
    (mapSpatial M body shimmer space mode).stereoWidth = 1 := by
  have hs : jlimit (0.0 : K) 1.0 space = 0 := by
    unfold jlimit
    rcases h.lt_or_eq with h1 | h1
    · rw [if_pos (by norm_num; exact h1)]; norm_num
    · subst h1; norm_num
  cases mode
  · rw [mapSpatial_rhythm]; dsimp only; rw [hs]; norm_num [jlimit, jmap]
  · rw [mapSpatial_lead]; dsimp only; rw [hs]; norm_num [jlimit, jmap]
  · rw [mapSpatial_clean]; dsimp only; rw [hs]; norm_num [jlimit, jmap]

theorem allDry_of_fields (p : SpatialParameters K) (h1 : p.reverbMix = 0) (h2 : p.delayMix = 0)
    (h3 : p.chorusMix = 0) (h4 : p.stereoWidth = 1) : SpatialProcessor.allDry p = true := by
  unfold SpatialProcessor.allDry
  rw [h1, h2, h3, h4]
  norm_num [fabs]

/-- C27.  For every mode, body and shimmer (any `<cmath>` over an ordered field), `space <= 0`
makes `mapSpatial` return `reverbMix = delayMix = chorusMix = 0` and `stereoWidth = 1`; the
`allDry` test holds, and `SpatialProcessor::process` after `setParameters` with these parameters
leaves the block and the processor unchanged. -/
theorem mapSpatial_nonpositive_space_is_dry (M : CMath K) (body shimmer space : K)
    (mode : ToneMode) (h : space ≤ 0) :
    ((mapSpatial M body shimmer space mode).reverbMix = 0 ∧
      (mapSpatial M body shimmer space mode).delayMix = 0 ∧
      (mapSpatial M body shimmer space mode).chorusMix = 0 ∧
      (mapSpatial M body shimmer space mode).stereoWidth = 1) ∧
    SpatialProcessor.allDry (mapSpatial M body shimmer space mode) = true ∧
    (∀ (J : Juce K) (self : SpatialProcessor J) (ctx : ProcessContext K),
      ((self.setParameters (mapSpatial M body shimmer space mode)).process ctx).2.block
          = ctx.block ∧
      ((self.setParameters (mapSpatial M body shimmer space mode)).process ctx).1
          = self.setParameters (mapSpatial M body shimmer space mode)) := by
  have hf := mapSpatial_dry_fields M body shimmer space mode h
  have hd := allDry_of_fields _ hf.1 hf.2.1 hf.2.2.1 hf.2.2.2
  refine ⟨hf, hd, ?_⟩
  intro J self ctx
  exact spatial_process_of_allDry _ ctx hd

end SpatialBypass

theorem mapSpatial_nonpositive_space_is_dry_witness :
    ((-1 : ℚ) ≤ 0) ∧
    SpatialProcessor.allDry (mapSpatial ratMath (3/4) (1/4) (-1) .CLEAN) = true :=
  ⟨by norm_num,
   (mapSpatial_nonpositive_space_is_dry ratMath (3/4) (1/4) (-1) .CLEAN (by norm_num)).2.1⟩

/-! ## The neutral setting (`ToneEngine.cpp`) -/

section NeutralAll

variable {K : Type} [LinearOrderedField K]

/-- The four loudness estimates of the snapshot at the neutral macro setting. -/
theorem neutral_estimates (M : CMath K) (hpow : M.pow 10 0 = 1) (engine : ToneEngine K)
    (mode : ToneMode) :
    computeEqComp (engine.updateParameters M 0 0.5 0.5 0.5 0.5 0 mode).currentParams.eq = 1 ∧
    computeSatComp
      (engine.updateParameters M 0 0.5 0.5 0.5 0.5 0 mode).currentParams.saturation = 1 ∧
    computeSpatialComp
      (engine.updateParameters M 0 0.5 0.5 0.5 0.5 0 mode).currentParams.spatial = 1 ∧
    computeDynComp
      (engine.updateParameters M 0 0.5 0.5 0.5 0.5 0 mode).currentParams.dynamics =
        (match mode with
          | .RHYTHM => (0.7 : K)
          | .LEAD => 0.7
          | .CLEAN => 1 / 1.2) ∧
    (engine.updateParameters M 0 0.5 0.5 0.5 0.5 0 mode).currentParams.dynamics.compRatio =
        (match mode with
          | .RHYTHM => (1.8 : K)
          | .LEAD => 2.0
          | .CLEAN => 1.2) := by
  cases mode <;>
    simp only [ToneEngine.updateParameters, computeEqComp, computeDynComp,
      computeSatComp, computeSpatialComp, mapEQ, mapDynamics, mapSaturation, mapSpatial,
      musicalCurve_centre, reduceCtorEq, ↓reduceIte, or_false, or_true, true_or, or_self] <;>
    norm_num [fmax, jlimit, jmap, linFromDbClamped, Decibels.decibelsToGain, hpow]

theorem neutral_autoGain (M : CMath K) (hpow : M.pow 10 0 = 1) (engine : ToneEngine K)
    (mode : ToneMode) :
    (engine.updateParameters M 0 0.5 0.5 0.5 0.5 0 mode).currentParams.outputAutoGain =
      (match mode with
        | .RHYTHM => (1 / 0.7 : K)
        | .LEAD => 1 / 0.7
        | .CLEAN => 1.2) := by
  cases mode <;>
    simp only [ToneEngine.updateParameters, computeAutoGain, computeEqComp, computeDynComp,
      computeSatComp, computeSpatialComp, mapEQ, mapDynamics, mapSaturation, mapSpatial,
      musicalCurve_centre, reduceCtorEq, ↓reduceIte, or_false, or_true, true_or, or_self] <;>
    norm_num [fmax, jlimit, jmap, linFromDbClamped, Decibels.decibelsToGain, hpow,
      FloatClassify.isfinite]

end NeutralAll

/-- C28.  With the real `pow`, at the neutral setting (character 0, space 0, the four other
inputs 0.5) `updateParameters` yields `outputAutoGain = 1 / 0.7` in RHYTHM and in LEAD and
`outputAutoGain = 1.2` in CLEAN: in every mode the EQ, saturation and spatial estimates are
exactly 1, and the dynamics estimate is 0.7 in RHYTHM and LEAD (`1 / 1.8` and `1 / 2.0` clamped
up) and `1 / 1.2` in CLEAN. -/
theorem neutral_setting_autoGain_not_unity (M : CMath ℝ) (engine : ToneEngine ℝ) :
    (engine.updateParameters { M with pow := Real.rpow } 0 0.5 0.5 0.5 0.5 0
        .RHYTHM).currentParams.outputAutoGain = 1 / 0.7 ∧
    (engine.updateParameters { M with pow := Real.rpow } 0 0.5 0.5 0.5 0.5 0
        .LEAD).currentParams.outputAutoGain = 1 / 0.7 ∧
    (engine.updateParameters { M with pow := Real.rpow } 0 0.5 0.5 0.5 0.5 0
        .CLEAN).currentParams.outputAutoGain = 1.2 ∧
    (∀ mode : ToneMode,
      computeEqComp (engine.updateParameters { M with pow := Real.rpow } 0 0.5 0.5 0.5 0.5 0
        mode).currentParams.eq = 1 ∧
      computeSatComp (engine.updateParameters { M with pow := Real.rpow } 0 0.5 0.5 0.5 0.5 0
        mode).currentParams.saturation = 1 ∧
      computeSpatialComp (engine.updateParameters { M with pow := Real.rpow } 0 0.5 0.5 0.5 0.5
        0 mode).currentParams.spatial = 1 ∧
      computeDynComp (engine.updateParameters { M with pow := Real.rpow } 0 0.5 0.5 0.5 0.5 0
        mode).currentParams.dynamics =
          (match mode with
            | .RHYTHM => (0.7 : ℝ)
            | .LEAD => 0.7
            | .CLEAN => 1 / 1.2) ∧
      (engine.updateParameters { M with pow := Real.rpow } 0 0.5 0.5 0.5 0.5 0
        mode).currentParams.dynamics.compRatio =
          (match mode with
            | .RHYTHM => (1.8 : ℝ)
            | .LEAD => 2.0
            | .CLEAN => 1.2)) := by
  have hpow : ({ M with pow := Real.rpow } : CMath ℝ).pow 10 0 = 1 := Real.rpow_zero 10
  exact ⟨neutral_autoGain _ hpow engine .RHYTHM, neutral_autoGain _ hpow engine .LEAD,
    neutral_autoGain _ hpow engine .CLEAN, fun mode => neutral_estimates _ hpow engine mode⟩

/-! ## Mapped delay times and the clamp of `updateDelay` -/

section DelayTimes

variable {K : Type} [LinearOrderedField K]

theorem mapSpatial_delay_times (M : CMath K) (body shimmer space : K) (mode : ToneMode) :
    (mapSpatial M body shimmer space mode).delayTimeRight =
      1.5 * (mapSpatial M body shimmer space mode).delayTimeLeft ∧
    260 ≤ (mapSpatial M body shimmer space mode).delayTimeLeft ∧
    (mapSpatial M body shimmer space mode).delayTimeLeft ≤ 500 ∧
    (mapSpatial M body shimmer space mode).delayTimeRight ≤ 750 := by
  have hs := jlimit_mem (0.0 : K) 1.0 space (by norm_num)
  cases mode
  · rw [mapSpatial_rhythm]; dsimp only
    generalize jlimit (0.0 : K) 1.0 space = s at hs ⊢
    norm_num at hs ⊢
    refine ⟨by ring, ?_, ?_, ?_⟩ <;> linarith [hs.1, hs.2]
  · rw [mapSpatial_lead]; dsimp only
    generalize jlimit (0.0 : K) 1.0 space = s at hs ⊢
    norm_num at hs ⊢
    refine ⟨by ring, ?_, ?_, ?_⟩ <;> linarith [hs.1, hs.2]
  · rw [mapSpatial_clean]; dsimp only
    generalize jlimit (0.0 : K) 1.0 space = s at hs ⊢
    norm_num at hs ⊢
    refine ⟨by ring, ?_, ?_, ?_⟩ <;> linarith [hs.1, hs.2]

theorem jlimit_id (lo hi v : K) (h1 : lo ≤ v) (h2 : v ≤ hi) : jlimit lo hi v = v := by
  unfold jlimit
  rw [if_neg (not_lt.mpr h1), if_neg (not_lt.mpr h2)]

/-- An integer in `[0, 2^31 - 1]` is its own 32-bit value and its own `size_t` value. -/
theorem toSizeT_toInt32_of_range (z : Int) (h0 : 0 ≤ z) (h1 : z ≤ 2147483647) :
    toInt32 z = z ∧ toSizeT (toInt32 z) = z.toNat := by
  have e : toInt32 z = z := by
    unfold toInt32
    rw [Int.emod_eq_of_lt (by omega) (by omega)]
    omega
  refine ⟨e, ?_⟩
  rw [e]
  unfold toSizeT
  rw [Int.emod_eq_of_lt h0 (by omega)]

/-- After `prepare` at a sample rate `sr` with `8000 <= sr` and `1.5 * sr <= 2^31 - 1`, with a
rounding `roundToInt`, `maxDelaySamples` is the rounded `1.5 * sr` and a delay time between 260
and 750 ms is, in samples, within `[1, maxDelaySamples - 1]`. -/
theorem delay_in_range (J : Juce K) (self : SpatialProcessor J) (spec : ProcessSpec K)
    (hround : ∀ x : K, |((J.roundToInt x : ℤ) : K) - x| ≤ 1 / 2)
    (hsr : 8000 ≤ spec.sampleRate) (hmax : spec.sampleRate * 1.5 ≤ 2147483647) :
    (self.prepare spec).maxDelaySamples = (J.roundToInt (spec.sampleRate * 1.5)).toNat ∧
    ∀ ms : K, 260 ≤ ms → ms ≤ 750 →
      1.0 ≤ (ms / 1000.0) * spec.sampleRate ∧
      (ms / 1000.0) * spec.sampleRate ≤
        (((self.prepare spec).maxDelaySamples : ℕ) : K) - 1.0 := by
  have hm : (self.prepare spec).maxDelaySamples =
      toSizeT (toInt32 (J.roundToInt (spec.sampleRate * 1.5))) := rfl
  have hr := abs_le.mp (hround (spec.sampleRate * 1.5))
  have hx : (12000 : K) ≤ spec.sampleRate * 1.5 := by norm_num; linarith
  have hx2 : spec.sampleRate * 1.5 = spec.sampleRate * 3 / 2 := by norm_num; ring
  have hpos : (0 : K) < ((J.roundToInt (spec.sampleRate * 1.5) : ℤ) : K) := by
    linarith [hr.1]
  have hz : 0 ≤ J.roundToInt (spec.sampleRate * 1.5) := (Int.cast_pos.mp hpos).le
  have hlt : ((J.roundToInt (spec.sampleRate * 1.5) : ℤ) : K) < ((2147483648 : ℤ) : K) := by
    push_cast
    linarith [hr.2]
  have hz1 : J.roundToInt (spec.sampleRate * 1.5) ≤ 2147483647 := by
    have := Int.cast_lt.mp hlt
    omega
  have hw := toSizeT_toInt32_of_range _ hz hz1
  rw [hm, hw.2]
  refine ⟨rfl, ?_⟩
  intro ms h1 h2
  have hc : (((J.roundToInt (spec.sampleRate * 1.5)).toNat : ℕ) : K) =
      ((J.roundToInt (spec.sampleRate * 1.5) : ℤ) : K) := by
    rw [← Int.cast_natCast, Int.toNat_of_nonneg hz]
  rw [hc]
  have e : (ms / 1000.0) * spec.sampleRate = ms * spec.sampleRate / 1000 := by
    norm_num; ring
  have e1 : (1.0 : K) = 1 := by norm_num
  rw [e, e1]
  generalize ((J.roundToInt (spec.sampleRate * 1.5) : ℤ) : K) = z at hr hpos ⊢
  rw [hx2] at hr
  have hsr0 : (0 : K) ≤ spec.sampleRate := le_trans (by norm_num) hsr
  constructor
  · rw [le_div_iff₀ (by norm_num : (0:K) < 1000)]
    nlinarith
  · rw [div_le_iff₀ (by norm_num : (0:K) < 1000)]
    nlinarith [hr.1]

end DelayTimes

section DelayClamp

variable {K : Type} [LinearOrderedField K]

/-- C29 (as amended).  For every input and every mode `mapSpatial` returns
`delayTimeRight = 1.5 * delayTimeLeft` with `delayTimeLeft` in `[260, 500]` and
`delayTimeRight <= 750`.  After `prepare` at a sample rate `sr` with `8000 <= sr` and
`1.5 * sr <= 2^31 - 1`, with `roundToInt` rounding within 1/2 of its argument,
`maxDelaySamples` is the rounded `1.5 * sr`, both delays in samples lie in
`[1, maxDelaySamples - 1]`, and `setParameters` hands the two delay lines the unclamped
values. -/
theorem mapped_delay_times_never_clamped (J : Juce K) (M : CMath K)
    (self : SpatialProcessor J) (spec : ProcessSpec K)
    (hround : ∀ x : K, |((J.roundToInt x : ℤ) : K) - x| ≤ 1 / 2)
    (hsr : 8000 ≤ spec.sampleRate) (hmax : spec.sampleRate * 1.5 ≤ 2147483647)
    (body shimmer space : K) (mode : ToneMode) :
    ((mapSpatial M body shimmer space mode).delayTimeRight =
        1.5 * (mapSpatial M body shimmer space mode).delayTimeLeft ∧
      260 ≤ (mapSpatial M body shimmer space mode).delayTimeLeft ∧
      (mapSpatial M body shimmer space mode).delayTimeLeft ≤ 500 ∧
      (mapSpatial M body shimmer space mode).delayTimeRight ≤ 750) ∧
    (self.prepare spec).maxDelaySamples = (J.roundToInt (spec.sampleRate * 1.5)).toNat ∧
    (1.0 ≤ ((mapSpatial M body shimmer space mode).delayTimeLeft / 1000.0) * spec.sampleRate ∧
      ((mapSpatial M body shimmer space mode).delayTimeLeft / 1000.0) * spec.sampleRate ≤
        (((self.prepare spec).maxDelaySamples : ℕ) : K) - 1.0) ∧
    (1.0 ≤ ((mapSpatial M body shimmer space mode).delayTimeRight / 1000.0) * spec.sampleRate ∧
      ((mapSpatial M body shimmer space mode).delayTimeRight / 1000.0) * spec.sampleRate ≤
        (((self.prepare spec).maxDelaySamples : ℕ) : K) - 1.0) ∧
    ((self.prepare spec).setParameters (mapSpatial M body shimmer space mode)).delayL =
      J.delaySetDelay
        (((mapSpatial M body shimmer space mode).delayTimeLeft / 1000.0) * spec.sampleRate)
        (self.prepare spec).delayL ∧
    ((self.prepare spec).setParameters (mapSpatial M body shimmer space mode)).delayR =
      J.delaySetDelay
        (((mapSpatial M body shimmer space mode).delayTimeRight / 1000.0) * spec.sampleRate)
        (self.prepare spec).delayR := by
  have ht := mapSpatial_delay_times M body shimmer space mode
  have hd := delay_in_range J self spec hround hsr hmax
  have hL := hd.2 _ ht.2.1 (le_trans ht.2.2.1 (by norm_num))
  have hR := hd.2 (mapSpatial M body shimmer space mode).delayTimeRight
    (by rw [ht.1]; linarith [ht.2.1]) ht.2.2.2
  refine ⟨ht, hd.1, hL, hR, ?_, ?_⟩
  · have e : ((self.prepare spec).setParameters (mapSpatial M body shimmer space mode)).delayL =
        J.delaySetDelay (jlimit 1.0 ((((self.prepare spec).maxDelaySamples : ℕ) : K) - 1.0)
          (((mapSpatial M body shimmer space mode).delayTimeLeft / 1000.0) * spec.sampleRate))
          (self.prepare spec).delayL := rfl
    rw [e, jlimit_id _ _ _ hL.1 hL.2]
  · have e : ((self.prepare spec).setParameters (mapSpatial M body shimmer space mode)).delayR =
        J.delaySetDelay (jlimit 1.0 ((((self.prepare spec).maxDelaySamples : ℕ) : K) - 1.0)
          (((mapSpatial M body shimmer space mode).delayTimeRight / 1000.0) * spec.sampleRate))
          (self.prepare spec).delayR := rfl
    rw [e, jlimit_id _ _ _ hR.1 hR.2]

end DelayClamp

theorem halvingJuce_round (x : ℚ) : |((halvingJuce.roundToInt x : ℤ) : ℚ) - x| ≤ 1 / 2 := by
  have e : halvingJuce.roundToInt x = ⌊x + 1/2⌋ := rfl
  rw [e, abs_le]
  have h1 := Int.floor_le (x + 1/2)
  have h2 := Int.lt_floor_add_one (x + 1/2)
  constructor <;> linarith

theorem mapped_delay_times_never_clamped_witness :
    ((8000 : ℚ) ≤ testSpec.sampleRate ∧ testSpec.sampleRate * 1.5 ≤ 2147483647) ∧
    (((SpatialProcessor.new halvingJuce).prepare testSpec).setParameters
        (mapSpatial ratMath (1/2) (1/2) 1 .CLEAN)).delayR =
      halvingJuce.delaySetDelay
        (((mapSpatial ratMath (1/2) (1/2) 1 .CLEAN).delayTimeRight / 1000.0) *
          testSpec.sampleRate)
        ((SpatialProcessor.new halvingJuce).prepare testSpec).delayR :=
  ⟨⟨by norm_num [testSpec], by norm_num [testSpec]⟩,
   (mapped_delay_times_never_clamped halvingJuce ratMath (SpatialProcessor.new halvingJuce)
      testSpec halvingJuce_round (by norm_num [testSpec]) (by norm_num [testSpec])
      (1/2) (1/2) 1 .CLEAN).2.2.2.2.2⟩

theorem floor_4500000000 : ⌊(3000000000 : ℚ) * 1.5 + 1 / 2⌋ = 4500000000 := by
  rw [Int.floor_eq_iff]
  norm_num

/-- C29, counterexample: at the sample rate `3000000000` (rounding kernels over `ℚ`) the rounded
`1.5 * sr = 4500000000` does not fit a 32-bit `int`; `maxDelaySamples` is `205032704`, and the
mapped `delayTimeLeft = 260` ms (RHYTHM, space 0), `780000000` samples, is clamped by
`updateDelay` to `205032703`. -/
theorem high_sample_rate_delay_is_clamped :
    (8000 : ℚ) ≤ 3000000000 ∧
    ((SpatialProcessor.new halvingJuce).prepare
      { sampleRate := 3000000000, maximumBlockSize := 512, numChannels := 2 }).maxDelaySamples
        = 205032704 ∧
    (mapSpatial ratMath (1/2) (1/2) 0 .RHYTHM).delayTimeLeft = 260 ∧
    ((mapSpatial ratMath (1/2) (1/2) 0 .RHYTHM).delayTimeLeft / 1000.0) * (3000000000 : ℚ)
        = 780000000 ∧
    jlimit (1.0 : ℚ)
      ((((SpatialProcessor.new halvingJuce).prepare
        { sampleRate := 3000000000, maximumBlockSize := 512,
          numChannels := 2 }).maxDelaySamples : ℕ) - 1.0)
      (((mapSpatial ratMath (1/2) (1/2) 0 .RHYTHM).delayTimeLeft / 1000.0) * (3000000000 : ℚ))
        = 205032703 := by
  have hm : ((SpatialProcessor.new halvingJuce).prepare
      { sampleRate := 3000000000, maximumBlockSize := 512, numChannels := 2 }).maxDelaySamples
        = 205032704 := by
    have e : ((SpatialProcessor.new halvingJuce).prepare
        { sampleRate := 3000000000, maximumBlockSize := 512,
          numChannels := 2 }).maxDelaySamples
          = toSizeT (toInt32 ⌊(3000000000 : ℚ) * 1.5 + 1 / 2⌋) := rfl
    rw [e, floor_4500000000]
    decide
  have hl : (mapSpatial ratMath (1/2) (1/2) 0 .RHYTHM).delayTimeLeft = 260 := by
    rw [mapSpatial_rhythm]
    norm_num [jlimit]
  refine ⟨by norm_num, hm, hl, ?_, ?_⟩
  · rw [hl]; norm_num
  · rw [hm, hl]
    norm_num [jlimit]

/-! ## Inputs the mapper declares and does not read -/

section Unused

variable {F : Type} [Add F] [Sub F] [Mul F] [Div F] [Neg F] [LT F] [LE F]
  [@DecidableRel F (· < ·)] [@DecidableRel F (· ≤ ·)] [OfScientific F] [NatCast F]
  [FloatClassify F]

/-- C30.  For every number type, every `<cmath>`, every mode and all other arguments fixed,
`mapEQ` returns the same `EQParameters` for any two values of character, and `mapSpatial` returns
the same `SpatialParameters` for any two values of shimmer. -/
theorem mapper_ignores_unused_inputs (M : CMath F) :
    (∀ (character1 character2 thump body shimmer : F) (mode : ToneMode),
      mapEQ M character1 thump body shimmer mode = mapEQ M character2 thump body shimmer mode) ∧
    (∀ (body shimmer1 shimmer2 space : F) (mode : ToneMode),
      mapSpatial M body shimmer1 space mode = mapSpatial M body shimmer2 space mode) :=
  ⟨fun _ _ _ _ _ _ => rfl, fun _ _ _ _ _ => rfl⟩

end Unused

end StringSauce
